import Mathlib

/-!
rocBLAS dispatch layer: argument validation of gbmv, trmv_strided_batched and trsv.

A shallow embedding of

* `rocblas_gbmv_impl` (library/src/blas2/rocblas_gbmv.cpp),
* `rocblas_trmv_strided_batched_impl` (library/src/blas2/rocblas_trmv_strided_batched.cpp),
* `rocblas_trsv_arg_check` (library/src/blas2/rocblas_trsv.hpp),
* the C entry points of gbmv and of trmv_strided_batched (same files),
* the argument checks of the tests `testing_her2_strided_batched`
  (clients/include/testing_her2_strided_batched.hpp) and `testing_rot_batched`
  (clients/include/blas1/testing_rot_batched.hpp), with the routine under test
  as a parameter: the bodies of `rocblas_her2_strided_batched` and of
  `rocblas_rot_batched` are not part of the sources at hand.

A function of the library becomes a Lean function that returns the status of
the call together with the ordered list of the outward actions it performed
(log records, host reads of the scalars, calls of the validator, the numeric
checker and the kernel template, requests to the handle).  `rocblas_int` is
`Int`; the one 32-bit sum of the code (`kl + ku + 1`) is wrapped explicitly,
and so is the `size_t` product `sizeof(rocblas_int) * batch_count`.
-/

namespace RocBLAS

/-! ## Types of rocblas-types.h -/

/-- Status codes `rocblas_status`. -/
inductive rocblas_status
  | rocblas_status_success
  | rocblas_status_invalid_handle
  | rocblas_status_not_implemented
  | rocblas_status_invalid_pointer
  | rocblas_status_invalid_size
  | rocblas_status_memory_error
  | rocblas_status_internal_error
  | rocblas_status_perf_degraded
  | rocblas_status_size_query_mismatch
  | rocblas_status_size_increased
  | rocblas_status_size_unchanged
  | rocblas_status_invalid_value
  | rocblas_status_continue
  | rocblas_status_check_numerics_fail
  deriving DecidableEq, Repr

/-- Transpose mode `rocblas_operation`.  A C enum can carry any bit pattern, so
besides the three enumerators there is `invalid raw` for every other value. -/
inductive rocblas_operation
  | rocblas_operation_none
  | rocblas_operation_transpose
  | rocblas_operation_conjugate_transpose
  | invalid (raw : Int)
  deriving DecidableEq, Repr

/-- Fill mode `rocblas_fill`; `rocblas_fill_full` is an enumerator that the
triangular routines reject, `invalid raw` any other bit pattern. -/
inductive rocblas_fill
  | rocblas_fill_upper
  | rocblas_fill_lower
  | rocblas_fill_full
  | invalid (raw : Int)
  deriving DecidableEq, Repr

/-- Diagonal kind `rocblas_diagonal`. -/
inductive rocblas_diagonal
  | rocblas_diagonal_non_unit
  | rocblas_diagonal_unit
  | invalid (raw : Int)
  deriving DecidableEq, Repr

/-- Where the scalars alpha and beta live: `rocblas_pointer_mode`. -/
inductive rocblas_pointer_mode
  | rocblas_pointer_mode_host
  | rocblas_pointer_mode_device
  deriving DecidableEq, Repr

/-- The element type `T` a routine template is instantiated with. -/
inductive rocblas_precision
  | float
  | double
  | rocblas_float_complex
  | rocblas_double_complex
  | other
  deriving DecidableEq, Repr

open rocblas_status rocblas_operation rocblas_fill rocblas_diagonal rocblas_pointer_mode

/-- Bit of `rocblas_layer_mode` that enables trace logging. -/
def rocblas_layer_mode_log_trace : Nat := 1

/-- Bit of `rocblas_layer_mode` that enables bench logging. -/
def rocblas_layer_mode_log_bench : Nat := 2

/-- Bit of `rocblas_layer_mode` that enables profile logging. -/
def rocblas_layer_mode_log_profile : Nat := 4

/-- The object a non-null `rocblas_handle` points to: the fields and the one
query method the three routines read. -/
structure _rocblas_handle where
  layer_mode : Nat
  check_numerics : Int
  pointer_mode : rocblas_pointer_mode
  is_device_memory_size_query : Bool
  deriving DecidableEq, Repr

/-- A `rocblas_handle` is a pointer: `none` is the null handle. -/
abbrev rocblas_handle := Option _rocblas_handle

/-- An operand pointer (`const T*`, `T*`, or an array of them): `none` is null,
`some a` the address `a`.  The code never reads through operand pointers. -/
abbrev Ptr := Option Nat

/-- What the host code asks of a scalar it has read through `alpha` or `beta`:
`is_zero v` is the C++ test `!v`, `eq_one v` the C++ test `v == 1`. -/
class HostScalar (T : Type) where
  is_zero : T → Bool
  eq_one : T → Bool

/-- Scalars with a finite real value, compared exactly. -/
instance : HostScalar ℚ where
  is_zero v := decide (v = 0)
  eq_one v := decide (v = 1)

/-! ## Machine arithmetic -/

/-- Two's-complement wrap of an integer into the range of `rocblas_int` (32 bits). -/
def wrap32 (v : Int) : Int := (v + 2 ^ 31) % 2 ^ 32 - 2 ^ 31

/-- Sum of two `rocblas_int` as the machine computes it. -/
def add32 (a b : Int) : Int := wrap32 (a + b)

/-- Conversion of a signed integer to `size_t` (64 bits). -/
def to_size_t (v : Int) : Nat := (v % 2 ^ 64).toNat

/-- Product of two `size_t`. -/
def mul_size_t (a b : Nat) : Nat := (a * b) % 2 ^ 64

/-- The value of `sizeof(rocblas_int)`. -/
def sizeof_rocblas_int : Nat := 4

/-! ## Actions and collaborators -/

/-- One argument of a call or of a log record, in the form the source passes it. -/
inductive Arg (T : Type)
  | handle (h : _rocblas_handle)
  | str (s : String)
  | operation (v : rocblas_operation)
  | fill (v : rocblas_fill)
  | diagonal (v : rocblas_diagonal)
  | int (v : Int)
  | ptr (p : Ptr)
  | scalar_ptr (p : Option T)
  | bool (b : Bool)
  | precision_string (p : rocblas_precision)
  | transpose_letter (v : rocblas_operation)
  | fill_letter (v : rocblas_fill)
  | diag_letter (v : rocblas_diagonal)
  | log_trace_scalar_value (h : _rocblas_handle) (p : Option T)
  | log_bench_scalar_value (h : _rocblas_handle) (p : Option T)
  deriving DecidableEq, Repr

/-- The functions of the library the two impls call and whose bodies are not
part of the sources at hand. -/
inductive Callee
  | rocblas_trmv_arg_check
  | rocblas_gbmv_check_numerics
  | rocblas_gbmv_template
  | rocblas_trmv_check_numerics
  | rocblas_internal_trmv_template
  deriving DecidableEq, Repr

/-- An outward action of a routine. -/
inductive Event (T : Type)
  | log_trace (args : List (Arg T))
  | log_bench (args : List (Arg T))
  | log_profile (args : List (Arg T))
  | deref_alpha
  | deref_beta
  | return_zero_device_memory_size
  | set_optimal_device_memory_size (bytes : Nat)
  | device_malloc (bytes : Nat)
  | call (f : Callee) (args : List (Arg T))
  deriving DecidableEq, Repr

/-- Behaviour of everything the routines call but do not define: the handle's
methods and macro of handle.hpp, the validator of rocblas_trmv.hpp, the numeric
checkers and the kernel templates.  Each is a parameter of the model. -/
structure Collaborators (T : Type) where
  /-- Status returned by `RETURN_ZERO_DEVICE_MEMORY_SIZE_IF_QUERIED(handle)`
  when the handle is in size-query mode. -/
  return_zero_device_memory_size : _rocblas_handle → rocblas_status
  /-- Status returned by `handle->set_optimal_device_memory_size(bytes)`. -/
  set_optimal_device_memory_size : _rocblas_handle → Nat → rocblas_status
  /-- Workspace returned by `handle->device_malloc(bytes)`, `none` when it is null. -/
  device_malloc : _rocblas_handle → Nat → Ptr
  /-- Validator `rocblas_trmv_arg_check<T>`: from the arguments and the incoming
  content of `dev_bytes`, the status and the outgoing content of `dev_bytes`. -/
  rocblas_trmv_arg_check : List (Arg T) → Nat → rocblas_status × Nat
  rocblas_gbmv_check_numerics : List (Arg T) → rocblas_status
  rocblas_gbmv_template : List (Arg T) → rocblas_status
  rocblas_trmv_check_numerics : List (Arg T) → rocblas_status
  rocblas_internal_trmv_template : List (Arg T) → rocblas_status

/-- Outcome of an impl: the returned status and the actions, oldest first. -/
structure Outcome (T : Type) where
  status : rocblas_status
  events : List (Event T)
  deriving DecidableEq, Repr

/-- Outcome of a validator with a `size_t& dev_bytes` parameter: the status, the
content of `dev_bytes` after the call, and the actions on the handle. -/
structure ArgCheckOutcome (T : Type) where
  status : rocblas_status
  dev_bytes : Nat
  events : List (Event T)
  deriving DecidableEq, Repr

/-! ## rocblas_trsv_arg_check (rocblas_trsv.hpp, lines 10-54) -/

/-- Validator `rocblas_trsv_arg_check`.  `dev_bytes` is the content of the
reference parameter on entry; the outcome carries its content on return.  The
result is `none` when the code dereferences a null `handle` (lines 39 and 48):
the function itself never tests the handle. -/
def rocblas_trsv_arg_check {T : Type} (c : Collaborators T) (handle : rocblas_handle)
    (uplo : rocblas_fill) (transA : rocblas_operation) (diag : rocblas_diagonal)
    (m : Int) (A : Ptr) (lda : Int) (B : Ptr) (incx batch_count : Int) (dev_bytes : Nat) :
    Option (ArgCheckOutcome T) :=
  if uplo ≠ rocblas_fill_lower ∧ uplo ≠ rocblas_fill_upper then
    some ⟨rocblas_status_invalid_value, dev_bytes, []⟩
  else if transA ≠ rocblas_operation_none ∧ transA ≠ rocblas_operation_transpose
      ∧ transA ≠ rocblas_operation_conjugate_transpose then
    some ⟨rocblas_status_invalid_value, dev_bytes, []⟩
  else if diag ≠ rocblas_diagonal_unit ∧ diag ≠ rocblas_diagonal_non_unit then
    some ⟨rocblas_status_invalid_value, dev_bytes, []⟩
  else if m < 0 ∨ lda < m ∨ lda < 1 ∨ incx = 0 ∨ batch_count < 0 then
    some ⟨rocblas_status_invalid_size, dev_bytes, []⟩
  else if m = 0 ∨ batch_count = 0 then
    -- quick return if possible.
    match handle with
    | none => none
    | some h =>
      if h.is_device_memory_size_query then
        some ⟨c.return_zero_device_memory_size h, dev_bytes,
          [Event.return_zero_device_memory_size]⟩
      else
        some ⟨rocblas_status_success, dev_bytes, []⟩
  else if A = none ∨ B = none then
    some ⟨rocblas_status_invalid_pointer, dev_bytes, []⟩
  else
    -- Need one int worth of global memory to keep track of completed sections
    let dev_bytes1 := mul_size_t sizeof_rocblas_int (to_size_t batch_count)
    match handle with
    | none => none
    | some h =>
      if h.is_device_memory_size_query then
        some ⟨c.set_optimal_device_memory_size h dev_bytes1, dev_bytes1,
          [Event.set_optimal_device_memory_size dev_bytes1]⟩
      else
        some ⟨rocblas_status_continue, dev_bytes1, []⟩

/-! ## rocblas_gbmv_impl (rocblas_gbmv.cpp, lines 20-216) -/

/-- The name table `rocblas_gbmv_name<T>`. -/
def rocblas_gbmv_name : rocblas_precision → String
  | .float => "rocblas_sgbmv"
  | .double => "rocblas_dgbmv"
  | .rocblas_float_complex => "rocblas_cgbmv"
  | .rocblas_double_complex => "rocblas_zgbmv"
  | .other => "unknown"

/-- Lines 40-107 of `rocblas_gbmv_impl`: the log records a call emits, by the
bits of the handle's `layer_mode`. -/
def gbmv_logging {T : Type} (p : rocblas_precision) (h : _rocblas_handle)
    (transA : rocblas_operation) (m n kl ku : Int) (alpha : Option T) (A : Ptr) (lda : Int)
    (x : Ptr) (incx : Int) (beta : Option T) (y : Ptr) (incy : Int) : List (Event T) :=
  let layer_mode := h.layer_mode
  if layer_mode &&& (rocblas_layer_mode_log_trace ||| rocblas_layer_mode_log_bench
      ||| rocblas_layer_mode_log_profile) ≠ 0 then
    let transA_letter : Arg T := Arg.transpose_letter transA
    (if layer_mode &&& rocblas_layer_mode_log_trace ≠ 0 then
      [Event.log_trace [Arg.handle h, Arg.str (rocblas_gbmv_name p), Arg.operation transA,
        Arg.int m, Arg.int n, Arg.int kl, Arg.int ku, Arg.log_trace_scalar_value h alpha,
        Arg.ptr A, Arg.int lda, Arg.ptr x, Arg.int incx, Arg.log_trace_scalar_value h beta,
        Arg.ptr y, Arg.int incy]]
    else [])
    ++ (if layer_mode &&& rocblas_layer_mode_log_bench ≠ 0 then
      [Event.log_bench [Arg.handle h, Arg.str "./rocblas-bench -f gbmv -r",
        Arg.precision_string p, Arg.str "--transposeA", transA_letter, Arg.str "-m", Arg.int m,
        Arg.str "-n", Arg.int n, Arg.str "--kl", Arg.int kl, Arg.str "--ku", Arg.int ku,
        Arg.log_bench_scalar_value h alpha, Arg.str "--lda", Arg.int lda, Arg.str "--incx",
        Arg.int incx, Arg.log_bench_scalar_value h beta, Arg.str "--incy", Arg.int incy]]
    else [])
    ++ (if layer_mode &&& rocblas_layer_mode_log_profile ≠ 0 then
      [Event.log_profile [Arg.handle h, Arg.str (rocblas_gbmv_name p), Arg.str "transA",
        transA_letter, Arg.str "M", Arg.int m, Arg.str "N", Arg.int n, Arg.str "kl", Arg.int kl,
        Arg.str "ku", Arg.int ku, Arg.str "lda", Arg.int lda, Arg.str "incx", Arg.int incx,
        Arg.str "incy", Arg.int incy]]
    else [])
  else []

/-- Argument list of the two calls of `rocblas_gbmv_check_numerics` (lines
140-159 and 192-211); they differ in `is_input` only. -/
def gbmv_check_numerics_args {T : Type} (p : rocblas_precision) (h : _rocblas_handle)
    (transA : rocblas_operation) (m n : Int) (A : Ptr) (lda : Int) (x : Ptr) (incx : Int)
    (y : Ptr) (incy : Int) (check_numerics : Int) (is_input : Bool) : List (Arg T) :=
  [Arg.str (rocblas_gbmv_name p), Arg.handle h, Arg.operation transA, Arg.int m, Arg.int n,
    Arg.ptr A, Arg.int 0, Arg.int lda, Arg.int 0, Arg.ptr x, Arg.int 0, Arg.int incx, Arg.int 0,
    Arg.ptr y, Arg.int 0, Arg.int incy, Arg.int 0, Arg.int 1, Arg.int check_numerics,
    Arg.bool is_input]

/-- Argument list of the call of `rocblas_gbmv_template` (lines 164-184). -/
def gbmv_template_args {T : Type} (h : _rocblas_handle) (transA : rocblas_operation)
    (m n kl ku : Int) (alpha : Option T) (A : Ptr) (lda : Int) (x : Ptr) (incx : Int)
    (beta : Option T) (y : Ptr) (incy : Int) : List (Arg T) :=
  [Arg.handle h, Arg.operation transA, Arg.int m, Arg.int n, Arg.int kl, Arg.int ku,
    Arg.scalar_ptr alpha, Arg.ptr A, Arg.int 0, Arg.int lda, Arg.int 0, Arg.ptr x, Arg.int 0,
    Arg.int incx, Arg.int 0, Arg.scalar_ptr beta, Arg.ptr y, Arg.int 0, Arg.int incy, Arg.int 0,
    Arg.int 1]

/-- Lines 164-215 of `rocblas_gbmv_impl`: the kernel template, then the numeric
check of the output.  `ev` holds the actions performed so far. -/
def gbmv_launch {T : Type} (c : Collaborators T) (p : rocblas_precision) (h : _rocblas_handle)
    (transA : rocblas_operation) (m n kl ku : Int) (alpha : Option T) (A : Ptr) (lda : Int)
    (x : Ptr) (incx : Int) (beta : Option T) (y : Ptr) (incy : Int) (ev : List (Event T)) :
    Outcome T :=
  let check_numerics := h.check_numerics
  let template_args := gbmv_template_args h transA m n kl ku alpha A lda x incx beta y incy
  let status := c.rocblas_gbmv_template template_args
  let ev1 := ev ++ [Event.call Callee.rocblas_gbmv_template template_args]
  if status ≠ rocblas_status_success then
    ⟨status, ev1⟩
  else if check_numerics ≠ 0 then
    let output_args :=
      gbmv_check_numerics_args p h transA m n A lda x incx y incy check_numerics false
    let gbmv_check_numerics_status := c.rocblas_gbmv_check_numerics output_args
    let ev2 := ev1 ++ [Event.call Callee.rocblas_gbmv_check_numerics output_args]
    if gbmv_check_numerics_status ≠ rocblas_status_success then
      ⟨gbmv_check_numerics_status, ev2⟩
    else
      ⟨status, ev2⟩
  else
    ⟨status, ev1⟩

/-- Lines 133-215 of `rocblas_gbmv_impl`: the test of `y`, the numeric check of
the input, then `gbmv_launch`.  `ev` holds the actions performed so far. -/
def gbmv_from_y {T : Type} (c : Collaborators T) (p : rocblas_precision) (h : _rocblas_handle)
    (transA : rocblas_operation) (m n kl ku : Int) (alpha : Option T) (A : Ptr) (lda : Int)
    (x : Ptr) (incx : Int) (beta : Option T) (y : Ptr) (incy : Int) (ev : List (Event T)) :
    Outcome T :=
  let check_numerics := h.check_numerics
  if y = none then
    ⟨rocblas_status_invalid_pointer, ev⟩
  else if check_numerics ≠ 0 then
    let input_args :=
      gbmv_check_numerics_args p h transA m n A lda x incx y incy check_numerics true
    let gbmv_check_numerics_status := c.rocblas_gbmv_check_numerics input_args
    let ev1 := ev ++ [Event.call Callee.rocblas_gbmv_check_numerics input_args]
    if gbmv_check_numerics_status ≠ rocblas_status_success then
      ⟨gbmv_check_numerics_status, ev1⟩
    else
      gbmv_launch c p h transA m n kl ku alpha A lda x incx beta y incy ev1
  else
    gbmv_launch c p h transA m n kl ku alpha A lda x incx beta y incy ev

/-- The routine `rocblas_gbmv_impl<T>`; `p` names the instantiation `T`.  A
scalar pointer is `none` when null and `some v` when it points to the value
`v`; `Event.deref_alpha` and `Event.deref_beta` record the host reads `*alpha`
and `*beta` of lines 122 and 124. -/
def rocblas_gbmv_impl {T : Type} [HostScalar T] (c : Collaborators T) (p : rocblas_precision)
    (handle : rocblas_handle) (transA : rocblas_operation) (m n kl ku : Int)
    (alpha : Option T) (A : Ptr) (lda : Int) (x : Ptr) (incx : Int) (beta : Option T)
    (y : Ptr) (incy : Int) : Outcome T :=
  match handle with
  | none => ⟨rocblas_status_invalid_handle, []⟩
  | some h =>
    if h.is_device_memory_size_query then
      ⟨c.return_zero_device_memory_size h, [Event.return_zero_device_memory_size]⟩
    else
      let log := gbmv_logging p h transA m n kl ku alpha A lda x incx beta y incy
      if transA ≠ rocblas_operation_none ∧ transA ≠ rocblas_operation_transpose
          ∧ transA ≠ rocblas_operation_conjugate_transpose then
        ⟨rocblas_status_invalid_value, log⟩
      else if m < 0 ∨ n < 0 ∨ lda < add32 (add32 kl ku) 1 ∨ incx = 0 ∨ incy = 0
          ∨ kl < 0 ∨ ku < 0 then
        ⟨rocblas_status_invalid_size, log⟩
      else if m = 0 ∨ n = 0 then
        ⟨rocblas_status_success, log⟩
      else
        match alpha, beta with
        | some a, some b =>
          if h.pointer_mode = rocblas_pointer_mode_host then
            if HostScalar.is_zero a then
              if HostScalar.eq_one b then
                ⟨rocblas_status_success, log ++ [Event.deref_alpha, Event.deref_beta]⟩
              else
                gbmv_from_y c p h transA m n kl ku alpha A lda x incx beta y incy
                  (log ++ [Event.deref_alpha, Event.deref_beta])
            else if A = none ∨ x = none then
              ⟨rocblas_status_invalid_pointer, log ++ [Event.deref_alpha]⟩
            else
              gbmv_from_y c p h transA m n kl ku alpha A lda x incx beta y incy
                (log ++ [Event.deref_alpha])
          else if A = none ∨ x = none then
            ⟨rocblas_status_invalid_pointer, log⟩
          else
            gbmv_from_y c p h transA m n kl ku alpha A lda x incx beta y incy log
        | _, _ => ⟨rocblas_status_invalid_pointer, log⟩

/-! ## rocblas_trmv_strided_batched_impl (rocblas_trmv_strided_batched.cpp, lines 26-202) -/

/-- The name table `rocblas_trmv_strided_batched_name<T>`. -/
def rocblas_trmv_strided_batched_name : rocblas_precision → String
  | .float => "rocblas_strmv_strided_batched"
  | .double => "rocblas_dtrmv_strided_batched"
  | .rocblas_float_complex => "rocblas_ctrmv_strided_batched"
  | .rocblas_double_complex => "rocblas_ztrmv_strided_batched"
  | .other => "unknown"

/-- Lines 45-122 of `rocblas_trmv_strided_batched_impl`: the log records a call
emits outside size-query mode, by the bits of the handle's `layer_mode`. -/
def trmv_strided_batched_logging {T : Type} (p : rocblas_precision) (h : _rocblas_handle)
    (uplo : rocblas_fill) (transa : rocblas_operation) (diag : rocblas_diagonal) (m : Int)
    (a : Ptr) (lda stridea : Int) (x : Ptr) (incx stridex batch_count : Int) :
    List (Event T) :=
  let layer_mode := h.layer_mode
  if layer_mode &&& (rocblas_layer_mode_log_trace ||| rocblas_layer_mode_log_bench
      ||| rocblas_layer_mode_log_profile) ≠ 0 then
    let uplo_letter : Arg T := Arg.fill_letter uplo
    let transa_letter : Arg T := Arg.transpose_letter transa
    let diag_letter : Arg T := Arg.diag_letter diag
    (if layer_mode &&& rocblas_layer_mode_log_trace ≠ 0 then
      [Event.log_trace [Arg.handle h, Arg.str (rocblas_trmv_strided_batched_name p),
        Arg.fill uplo, Arg.operation transa, Arg.diagonal diag, Arg.int m, Arg.ptr a,
        Arg.int lda, Arg.ptr x, Arg.int incx, Arg.int stridea, Arg.int incx, Arg.int stridex,
        Arg.int batch_count]]
    else [])
    ++ (if layer_mode &&& rocblas_layer_mode_log_bench ≠ 0 then
      [Event.log_bench [Arg.handle h, Arg.str "./rocblas-bench", Arg.str "-f",
        Arg.str "trmv_strided_batched", Arg.str "-r", Arg.precision_string p, Arg.str "--uplo",
        uplo_letter, Arg.str "--transposeA", transa_letter, Arg.str "--diag", diag_letter,
        Arg.str "-m", Arg.int m, Arg.str "--lda", Arg.int lda, Arg.str "--stride_a",
        Arg.int stridea, Arg.str "--incx", Arg.int incx, Arg.str "--stride_x", Arg.int stridex,
        Arg.str "--batch_count", Arg.int batch_count]]
    else [])
    ++ (if layer_mode &&& rocblas_layer_mode_log_profile ≠ 0 then
      [Event.log_profile [Arg.handle h, Arg.str (rocblas_trmv_strided_batched_name p),
        Arg.str "uplo", uplo_letter, Arg.str "transA", transa_letter, Arg.str "diag",
        diag_letter, Arg.str "M", Arg.int m, Arg.str "lda", Arg.int lda, Arg.str "stride_a",
        Arg.int stridea, Arg.str "incx", Arg.int incx, Arg.str "stride_x", Arg.int stridex,
        Arg.str "batch_count", Arg.int batch_count]]
    else [])
  else []

/-- Argument list of the call of `rocblas_trmv_arg_check<T>` (lines 126-127);
the reference argument `dev_bytes` is passed apart. -/
def trmv_arg_check_args {T : Type} (h : _rocblas_handle) (uplo : rocblas_fill)
    (transa : rocblas_operation) (diag : rocblas_diagonal) (m : Int) (a : Ptr) (lda : Int)
    (x : Ptr) (incx batch_count : Int) : List (Arg T) :=
  [Arg.handle h, Arg.fill uplo, Arg.operation transa, Arg.diagonal diag, Arg.int m, Arg.ptr a,
    Arg.int lda, Arg.ptr x, Arg.int incx, Arg.int batch_count]

/-- Argument list of the two calls of `rocblas_trmv_check_numerics` (lines
141-154 and 185-198); they differ in `is_input` only. -/
def trmv_check_numerics_args {T : Type} (p : rocblas_precision) (h : _rocblas_handle) (m : Int)
    (a : Ptr) (lda stridea : Int) (x : Ptr) (incx stridex batch_count : Int)
    (check_numerics : Int) (is_input : Bool) : List (Arg T) :=
  [Arg.str (rocblas_trmv_strided_batched_name p), Arg.handle h, Arg.int m, Arg.ptr a, Arg.int 0,
    Arg.int lda, Arg.int stridea, Arg.ptr x, Arg.int 0, Arg.int incx, Arg.int stridex,
    Arg.int batch_count, Arg.int check_numerics, Arg.bool is_input]

/-- Argument list of the call of `rocblas_internal_trmv_template` (lines
159-176), with `stridew = m` and both offsets 0. -/
def trmv_template_args {T : Type} (h : _rocblas_handle) (uplo : rocblas_fill)
    (transa : rocblas_operation) (diag : rocblas_diagonal) (m : Int) (a : Ptr)
    (lda stridea : Int) (x : Ptr) (incx stridex : Int) (workspace : Ptr) (batch_count : Int) :
    List (Arg T) :=
  let stridew := m
  let offset_a : Int := 0
  let offset_x : Int := 0
  [Arg.handle h, Arg.fill uplo, Arg.operation transa, Arg.diagonal diag, Arg.int m, Arg.ptr a,
    Arg.int offset_a, Arg.int lda, Arg.int stridea, Arg.ptr x, Arg.int offset_x, Arg.int incx,
    Arg.int stridex, Arg.ptr workspace, Arg.int stridew, Arg.int batch_count]

/-- Lines 157-201 of `rocblas_trmv_strided_batched_impl`: the kernel template,
then the numeric check of the output.  `ev` holds the actions performed so far. -/
def trmv_strided_batched_launch {T : Type} (c : Collaborators T) (p : rocblas_precision)
    (h : _rocblas_handle) (uplo : rocblas_fill) (transa : rocblas_operation)
    (diag : rocblas_diagonal) (m : Int) (a : Ptr) (lda stridea : Int) (x : Ptr)
    (incx stridex batch_count : Int) (workspace : Ptr) (ev : List (Event T)) : Outcome T :=
  let check_numerics := h.check_numerics
  let template_args :=
    trmv_template_args h uplo transa diag m a lda stridea x incx stridex workspace batch_count
  let status := c.rocblas_internal_trmv_template template_args
  let ev1 := ev ++ [Event.call Callee.rocblas_internal_trmv_template template_args]
  if status ≠ rocblas_status_success then
    ⟨status, ev1⟩
  else if check_numerics ≠ 0 then
    let output_args :=
      trmv_check_numerics_args p h m a lda stridea x incx stridex batch_count check_numerics false
    let trmv_check_numerics_status := c.rocblas_trmv_check_numerics output_args
    let ev2 := ev1 ++ [Event.call Callee.rocblas_trmv_check_numerics output_args]
    if trmv_check_numerics_status ≠ rocblas_status_success then
      ⟨trmv_check_numerics_status, ev2⟩
    else
      ⟨status, ev2⟩
  else
    ⟨status, ev1⟩

/-- The routine `rocblas_trmv_strided_batched_impl<T>`; `p` names the
instantiation `T`.  `dev_bytes` is the indeterminate initial content of the
local variable `size_t dev_bytes`, which the validator receives by reference. -/
def rocblas_trmv_strided_batched_impl {T : Type} (c : Collaborators T) (p : rocblas_precision)
    (handle : rocblas_handle) (uplo : rocblas_fill) (transa : rocblas_operation)
    (diag : rocblas_diagonal) (m : Int) (a : Ptr) (lda stridea : Int) (x : Ptr)
    (incx stridex batch_count : Int) (dev_bytes : Nat) : Outcome T :=
  match handle with
  | none => ⟨rocblas_status_invalid_handle, []⟩
  | some h =>
    let log : List (Event T) :=
      if ¬ h.is_device_memory_size_query then
        trmv_strided_batched_logging p h uplo transa diag m a lda stridea x incx stridex
          batch_count
      else []
    let check_args := trmv_arg_check_args h uplo transa diag m a lda x incx batch_count
    let arg_status := (c.rocblas_trmv_arg_check check_args dev_bytes).1
    let dev_bytes1 := (c.rocblas_trmv_arg_check check_args dev_bytes).2
    let ev1 := log ++ [Event.call Callee.rocblas_trmv_arg_check check_args]
    if arg_status ≠ rocblas_status_continue then
      ⟨arg_status, ev1⟩
    else
      let workspace := c.device_malloc h dev_bytes1
      let ev2 := ev1 ++ [Event.device_malloc dev_bytes1]
      if workspace = none then
        ⟨rocblas_status_memory_error, ev2⟩
      else
        let check_numerics := h.check_numerics
        if check_numerics ≠ 0 then
          let input_args := trmv_check_numerics_args p h m a lda stridea x incx stridex
            batch_count check_numerics true
          let trmv_check_numerics_status := c.rocblas_trmv_check_numerics input_args
          let ev3 := ev2 ++ [Event.call Callee.rocblas_trmv_check_numerics input_args]
          if trmv_check_numerics_status ≠ rocblas_status_success then
            ⟨trmv_check_numerics_status, ev3⟩
          else
            trmv_strided_batched_launch c p h uplo transa diag m a lda stridea x incx stridex
              batch_count workspace ev3
        else
          trmv_strided_batched_launch c p h uplo transa diag m a lda stridea x incx stridex
            batch_count workspace ev2

/-! ## Reading an action list -/

/-- A log record of any of the three kinds. -/
def Event.is_log {T : Type} : Event T → Bool
  | .log_trace _ => true
  | .log_bench _ => true
  | .log_profile _ => true
  | _ => false

/-- The action list holds a call of the library function `f`. -/
def invokes {T : Type} (f : Callee) (ev : List (Event T)) : Prop :=
  ∃ args, Event.call f args ∈ ev

/-- The action list holds a host read of `alpha` or of `beta`. -/
def reads_scalar {T : Type} (ev : List (Event T)) : Prop :=
  Event.deref_alpha ∈ ev ∨ Event.deref_beta ∈ ev

/-- A value in the range of the 32-bit `rocblas_int`. -/
def is_rocblas_int (v : Int) : Prop := -2 ^ 31 ≤ v ∧ v < 2 ^ 31

instance (v : Int) : Decidable (is_rocblas_int v) := by
  unfold is_rocblas_int; infer_instance

/-- A collaborator set for evaluating the routines on concrete inputs: every
handle request and every library call succeeds, the validator of trmv
answers CONTINUE and leaves `dev_bytes` as it found it. -/
def all_success : Collaborators ℚ where
  return_zero_device_memory_size _ := rocblas_status_success
  set_optimal_device_memory_size _ _ := rocblas_status_success
  device_malloc _ _ := some 4096
  rocblas_trmv_arg_check _ bytes := (rocblas_status_continue, bytes)
  rocblas_gbmv_check_numerics _ := rocblas_status_success
  rocblas_gbmv_template _ := rocblas_status_success
  rocblas_trmv_check_numerics _ := rocblas_status_success
  rocblas_internal_trmv_template _ := rocblas_status_success

/-- A handle in normal mode: no logging, no numeric checking, host pointer mode. -/
def plain_handle : _rocblas_handle where
  layer_mode := 0
  check_numerics := 0
  pointer_mode := rocblas_pointer_mode_host
  is_device_memory_size_query := false

/-- The argument lists of the calls of the library function `f` in an action
list, oldest first. -/
def calls_of {T : Type} (f : Callee) (ev : List (Event T)) : List (List (Arg T)) :=
  ev.filterMap fun e =>
    match e with
    | Event.call g args => if g = f then some args else none
    | _ => none

/-- The sizes of the `device_malloc` requests in an action list, oldest first. -/
def device_malloc_requests {T : Type} (ev : List (Event T)) : List Nat :=
  ev.filterMap fun e =>
    match e with
    | Event.device_malloc bytes => some bytes
    | _ => none

/-- The actions of `rocblas_gbmv_impl` up to line 131 on a call that gets
there with non-null scalars `a` and `b`: the log records, then the host reads
of line 122 (`*alpha`, in host pointer mode only) and of line 124 (`*beta`,
when line 122 found a host zero). -/
def gbmv_validation_events {T : Type} [HostScalar T] (p : rocblas_precision)
    (h : _rocblas_handle) (transA : rocblas_operation) (m n kl ku : Int) (a : T) (A : Ptr)
    (lda : Int) (x : Ptr) (incx : Int) (b : T) (y : Ptr) (incy : Int) : List (Event T) :=
  gbmv_logging p h transA m n kl ku (some a) A lda x incx (some b) y incy
    ++ (if h.pointer_mode = rocblas_pointer_mode_host then
          if HostScalar.is_zero a then [Event.deref_alpha, Event.deref_beta]
          else [Event.deref_alpha]
        else [])

/-- The calls of `rocblas_gbmv_impl` that pass every test of lines 36-134 and
so reach the execution stage of line 136: handle outside size-query mode,
valid transA, sizes that pass line 113 (with the sum as the machine computes
it), m and n not zero, scalars `a` and `b` behind non-null pointers, no no-op
fast path, A and x non-null unless alpha is a host zero, y non-null. -/
def gbmv_reaches_execution {T : Type} [HostScalar T] (h : _rocblas_handle)
    (transA : rocblas_operation) (m n kl ku : Int) (a : T) (A : Ptr) (lda : Int) (x : Ptr)
    (incx : Int) (b : T) (y : Ptr) (incy : Int) : Prop :=
  h.is_device_memory_size_query = false
  ∧ (transA = rocblas_operation_none ∨ transA = rocblas_operation_transpose
      ∨ transA = rocblas_operation_conjugate_transpose)
  ∧ 0 < m ∧ 0 < n ∧ add32 (add32 kl ku) 1 ≤ lda ∧ incx ≠ 0 ∧ incy ≠ 0 ∧ 0 ≤ kl ∧ 0 ≤ ku
  ∧ ¬ (h.pointer_mode = rocblas_pointer_mode_host ∧ HostScalar.is_zero a = true
        ∧ HostScalar.eq_one b = true)
  ∧ ((h.pointer_mode = rocblas_pointer_mode_host ∧ HostScalar.is_zero a = true)
      ∨ (A ≠ none ∧ x ≠ none))
  ∧ y ≠ none

instance {T : Type} [HostScalar T] (h : _rocblas_handle) (transA : rocblas_operation)
    (m n kl ku : Int) (a : T) (A : Ptr) (lda : Int) (x : Ptr) (incx : Int) (b : T) (y : Ptr)
    (incy : Int) : Decidable (gbmv_reaches_execution h transA m n kl ku a A lda x incx b y incy) := by
  unfold gbmv_reaches_execution; infer_instance

/-- A collaborator set with fixed answers, for evaluating the routines on
concrete inputs: `query` is the answer of the size-query macro and of
`set_optimal_device_memory_size`, `validator` the answer of
`rocblas_trmv_arg_check`, `workspace` the answer of `device_malloc`, `numerics`
the answer of both numeric checkers and `kernel` that of both kernel templates. -/
def fixed_answers (query : rocblas_status) (validator : rocblas_status × Nat) (workspace : Ptr)
    (numerics kernel : rocblas_status) : Collaborators ℚ where
  return_zero_device_memory_size _ := query
  set_optimal_device_memory_size _ _ := query
  device_malloc _ _ := workspace
  rocblas_trmv_arg_check _ _ := validator
  rocblas_gbmv_check_numerics _ := numerics
  rocblas_gbmv_template _ := kernel
  rocblas_trmv_check_numerics _ := numerics
  rocblas_internal_trmv_template _ := kernel

/-- A handle in size-query mode: no logging, no numeric checking, host pointer mode. -/
def size_query_handle : _rocblas_handle where
  layer_mode := 0
  check_numerics := 0
  pointer_mode := rocblas_pointer_mode_host
  is_device_memory_size_query := true

/-! ## The size check of testing_her2_strided_batched (testing_her2_strided_batched.hpp) -/

/-- The status the words of the contract give to a call of
`rocblas_trsv_arg_check` outside size-query mode: the four checks in their
order (enumerated fields, sizes, empty problem, operand pointers), the first
one that fails deciding, and CONTINUE when none does. -/
def trsv_first_failing_check (uplo : rocblas_fill) (transA : rocblas_operation)
    (diag : rocblas_diagonal) (m : Int) (A : Ptr) (lda : Int) (B : Ptr)
    (incx batch_count : Int) : rocblas_status :=
  if ¬ ((uplo = rocblas_fill_lower ∨ uplo = rocblas_fill_upper)
      ∧ (transA = rocblas_operation_none ∨ transA = rocblas_operation_transpose
          ∨ transA = rocblas_operation_conjugate_transpose)
      ∧ (diag = rocblas_diagonal_unit ∨ diag = rocblas_diagonal_non_unit)) then
    rocblas_status_invalid_value
  else if ¬ (0 ≤ m ∧ m ≤ lda ∧ 1 ≤ lda ∧ incx ≠ 0 ∧ 0 ≤ batch_count) then
    rocblas_status_invalid_size
  else if m = 0 ∨ batch_count = 0 then
    rocblas_status_success
  else if A = none ∨ B = none then
    rocblas_status_invalid_pointer
  else
    rocblas_status_continue

/-- The trace record the contract describes for trmv_strided_batched: the
routine name followed by every argument of the call once, in parameter order
(uplo, transa, diag, m, a, lda, stridea, x, incx, stridex, batch_count),
handed to `log_trace` after the handle. -/
def trmv_strided_batched_trace_by_parameters {T : Type} (p : rocblas_precision)
    (h : _rocblas_handle) (uplo : rocblas_fill) (transa : rocblas_operation)
    (diag : rocblas_diagonal) (m : Int) (a : Ptr) (lda stridea : Int) (x : Ptr)
    (incx stridex batch_count : Int) : Event T :=
  Event.log_trace [Arg.handle h, Arg.str (rocblas_trmv_strided_batched_name p), Arg.fill uplo,
    Arg.operation transa, Arg.diagonal diag, Arg.int m, Arg.ptr a, Arg.int lda,
    Arg.int stridea, Arg.ptr x, Arg.int incx, Arg.int stridex, Arg.int batch_count]

/-- A handle in normal mode with trace logging only. -/
def trace_handle : _rocblas_handle where
  layer_mode := rocblas_layer_mode_log_trace
  check_numerics := 0
  pointer_mode := rocblas_pointer_mode_host
  is_device_memory_size_query := false

/-- The trace record `rocblas_gbmv_impl` hands to `log_trace` (lines 49-63). -/
def gbmv_trace_record {T : Type} (p : rocblas_precision) (h : _rocblas_handle)
    (transA : rocblas_operation) (m n kl ku : Int) (alpha : Option T) (A : Ptr) (lda : Int)
    (x : Ptr) (incx : Int) (beta : Option T) (y : Ptr) (incy : Int) : Event T :=
  Event.log_trace [Arg.handle h, Arg.str (rocblas_gbmv_name p), Arg.operation transA,
    Arg.int m, Arg.int n, Arg.int kl, Arg.int ku, Arg.log_trace_scalar_value h alpha,
    Arg.ptr A, Arg.int lda, Arg.ptr x, Arg.int incx, Arg.log_trace_scalar_value h beta,
    Arg.ptr y, Arg.int incy]

/-- The trace record `rocblas_trmv_strided_batched_impl` hands to `log_trace`
(lines 56-69), with the arguments in the order the source lists them. -/
def trmv_strided_batched_trace_record {T : Type} (p : rocblas_precision) (h : _rocblas_handle)
    (uplo : rocblas_fill) (transa : rocblas_operation) (diag : rocblas_diagonal) (m : Int)
    (a : Ptr) (lda stridea : Int) (x : Ptr) (incx stridex batch_count : Int) : Event T :=
  Event.log_trace [Arg.handle h, Arg.str (rocblas_trmv_strided_batched_name p),
    Arg.fill uplo, Arg.operation transa, Arg.diagonal diag, Arg.int m, Arg.ptr a,
    Arg.int lda, Arg.ptr x, Arg.int incx, Arg.int stridea, Arg.int incx, Arg.int stridex,
    Arg.int batch_count]

/-- An argument with the logging mode of the handle it carries set to zero:
two arguments with the same image differ in `layer_mode` at most. -/
def Arg.forget_layer_mode {T : Type} : Arg T → Arg T
  | Arg.handle h => Arg.handle { h with layer_mode := 0 }
  | Arg.log_trace_scalar_value h p => Arg.log_trace_scalar_value { h with layer_mode := 0 } p
  | Arg.log_bench_scalar_value h p => Arg.log_bench_scalar_value { h with layer_mode := 0 } p
  | a => a

/-- The control flow of a call: its actions other than log records, in order,
with `layer_mode` forgotten in the handle each library call receives.  It
lists the scalar reads, the answer to a size query and every validator,
`device_malloc`, numeric-checker and kernel-template invocation with its
arguments. -/
def control_flow {T : Type} (ev : List (Event T)) : List (Event T) :=
  ev.filterMap fun e =>
    match e with
    | Event.log_trace _ => none
    | Event.log_bench _ => none
    | Event.log_profile _ => none
    | Event.call f args => some (Event.call f (args.map Arg.forget_layer_mode))
    | e => some e

/-- Two handles that agree on everything but `layer_mode`. -/
def same_but_layer_mode (h h1 : _rocblas_handle) : Prop :=
  h1.check_numerics = h.check_numerics ∧ h1.pointer_mode = h.pointer_mode
    ∧ h1.is_device_memory_size_query = h.is_device_memory_size_query

instance (h h1 : _rocblas_handle) : Decidable (same_but_layer_mode h h1) := by
  unfold same_but_layer_mode; infer_instance

/-- The collaborators do not look at `layer_mode`: the handle methods answer
alike for two handles that agree on everything else, and the library
functions answer alike on argument lists that differ in the `layer_mode` of
the handle only. -/
def layer_mode_blind {T : Type} (c : Collaborators T) : Prop :=
  (∀ h h1, same_but_layer_mode h h1 →
      c.return_zero_device_memory_size h1 = c.return_zero_device_memory_size h)
  ∧ (∀ h h1 bytes, same_but_layer_mode h h1 → c.device_malloc h1 bytes = c.device_malloc h bytes)
  ∧ (∀ args args1 bytes,
      args1.map Arg.forget_layer_mode = args.map Arg.forget_layer_mode →
      c.rocblas_trmv_arg_check args1 bytes = c.rocblas_trmv_arg_check args bytes)
  ∧ (∀ args args1, args1.map Arg.forget_layer_mode = args.map Arg.forget_layer_mode →
      c.rocblas_gbmv_check_numerics args1 = c.rocblas_gbmv_check_numerics args)
  ∧ (∀ args args1, args1.map Arg.forget_layer_mode = args.map Arg.forget_layer_mode →
      c.rocblas_gbmv_template args1 = c.rocblas_gbmv_template args)
  ∧ (∀ args args1, args1.map Arg.forget_layer_mode = args.map Arg.forget_layer_mode →
      c.rocblas_trmv_check_numerics args1 = c.rocblas_trmv_check_numerics args)
  ∧ (∀ args args1, args1.map Arg.forget_layer_mode = args.map Arg.forget_layer_mode →
      c.rocblas_internal_trmv_template args1 = c.rocblas_internal_trmv_template args)

/-! ## The checks of testing_rot_batched (testing_rot_batched.hpp) -/

/-- Type of `rocblas_gbmv_impl<T>` as its entry points call it. -/
abbrev gbmv_impl_fn (ε T : Type) : Type :=
  rocblas_precision → rocblas_handle → rocblas_operation → Int → Int → Int → Int → Option T →
    Ptr → Int → Ptr → Int → Option T → Ptr → Int → Except ε rocblas_status

/-- Type of `rocblas_trmv_strided_batched_impl<T>` as its entry points call it. -/
abbrev trmv_strided_batched_impl_fn (ε : Type) : Type :=
  rocblas_precision → rocblas_handle → rocblas_fill → rocblas_operation → rocblas_diagonal →
    Int → Ptr → Int → Int → Ptr → Int → Int → Int → Except ε rocblas_status

/-- Entry point `rocblas_sgbmv` (rocblas_gbmv.cpp, lines 228-250). -/
def rocblas_sgbmv {ε T : Type} (exception_to_rocblas_status : ε → rocblas_status)
    (rocblas_gbmv_impl : gbmv_impl_fn ε T) (handle : rocblas_handle)
    (transA : rocblas_operation) (m n kl ku : Int) (alpha : Option T) (A : Ptr) (lda : Int)
    (x : Ptr) (incx : Int) (beta : Option T) (y : Ptr) (incy : Int) : rocblas_status :=
  match rocblas_gbmv_impl rocblas_precision.float handle transA m n kl ku alpha A lda x incx
      beta y incy with
  | Except.ok status => status
  | Except.error e => exception_to_rocblas_status e

/-- Entry point `rocblas_dgbmv` (rocblas_gbmv.cpp, lines 252-272). -/
def rocblas_dgbmv {ε T : Type} (exception_to_rocblas_status : ε → rocblas_status)
    (rocblas_gbmv_impl : gbmv_impl_fn ε T) (handle : rocblas_handle)
    (transA : rocblas_operation) (m n kl ku : Int) (alpha : Option T) (A : Ptr) (lda : Int)
    (x : Ptr) (incx : Int) (beta : Option T) (y : Ptr) (incy : Int) : rocblas_status :=
  match rocblas_gbmv_impl rocblas_precision.double handle transA m n kl ku alpha A lda x incx
      beta y incy with
  | Except.ok status => status
  | Except.error e => exception_to_rocblas_status e

/-- Entry point `rocblas_cgbmv` (rocblas_gbmv.cpp, lines 274-294). -/
def rocblas_cgbmv {ε T : Type} (exception_to_rocblas_status : ε → rocblas_status)
    (rocblas_gbmv_impl : gbmv_impl_fn ε T) (handle : rocblas_handle)
    (transA : rocblas_operation) (m n kl ku : Int) (alpha : Option T) (A : Ptr) (lda : Int)
    (x : Ptr) (incx : Int) (beta : Option T) (y : Ptr) (incy : Int) : rocblas_status :=
  match rocblas_gbmv_impl rocblas_precision.rocblas_float_complex handle transA m n kl ku alpha
      A lda x incx beta y incy with
  | Except.ok status => status
  | Except.error e => exception_to_rocblas_status e

/-- Entry point `rocblas_zgbmv` (rocblas_gbmv.cpp, lines 296-316). -/
def rocblas_zgbmv {ε T : Type} (exception_to_rocblas_status : ε → rocblas_status)
    (rocblas_gbmv_impl : gbmv_impl_fn ε T) (handle : rocblas_handle)
    (transA : rocblas_operation) (m n kl ku : Int) (alpha : Option T) (A : Ptr) (lda : Int)
    (x : Ptr) (incx : Int) (beta : Option T) (y : Ptr) (incy : Int) : rocblas_status :=
  match rocblas_gbmv_impl rocblas_precision.rocblas_double_complex handle transA m n kl ku alpha
      A lda x incx beta y incy with
  | Except.ok status => status
  | Except.error e => exception_to_rocblas_status e

/-- The body the preprocessor definition `IMPL(routine_name_, T_)` gives an
entry point (rocblas_trmv_strided_batched.cpp, lines 218-239); `T_` names the
instantiation of the impl. -/
def IMPL {ε : Type} (T_ : rocblas_precision) (exception_to_rocblas_status : ε → rocblas_status)
    (rocblas_trmv_strided_batched_impl : trmv_strided_batched_impl_fn ε)
    (handle : rocblas_handle) (uplo : rocblas_fill) (transA : rocblas_operation)
    (diag : rocblas_diagonal) (m : Int) (A : Ptr) (lda stridea : Int) (x : Ptr)
    (incx stridex batch_count : Int) : rocblas_status :=
  match rocblas_trmv_strided_batched_impl T_ handle uplo transA diag m A lda stridea x incx
      stridex batch_count with
  | Except.ok status => status
  | Except.error e => exception_to_rocblas_status e

/-- Entry point `IMPL(rocblas_strmv_strided_batched, float)` (line 241). -/
def rocblas_strmv_strided_batched {ε : Type}
    (exception_to_rocblas_status : ε → rocblas_status)
    (rocblas_trmv_strided_batched_impl : trmv_strided_batched_impl_fn ε) :=
  IMPL rocblas_precision.float exception_to_rocblas_status rocblas_trmv_strided_batched_impl

/-- Entry point `IMPL(rocblas_dtrmv_strided_batched, double)` (line 242). -/
def rocblas_dtrmv_strided_batched {ε : Type}
    (exception_to_rocblas_status : ε → rocblas_status)
    (rocblas_trmv_strided_batched_impl : trmv_strided_batched_impl_fn ε) :=
  IMPL rocblas_precision.double exception_to_rocblas_status rocblas_trmv_strided_batched_impl

/-- Entry point `IMPL(rocblas_ctrmv_strided_batched, rocblas_float_complex)`
(line 243). -/
def rocblas_ctrmv_strided_batched {ε : Type}
    (exception_to_rocblas_status : ε → rocblas_status)
    (rocblas_trmv_strided_batched_impl : trmv_strided_batched_impl_fn ε) :=
  IMPL rocblas_precision.rocblas_float_complex exception_to_rocblas_status rocblas_trmv_strided_batched_impl

/-- Entry point `IMPL(rocblas_ztrmv_strided_batched, rocblas_double_complex)`
(line 244). -/
def rocblas_ztrmv_strided_batched {ε : Type}
    (exception_to_rocblas_status : ε → rocblas_status)
    (rocblas_trmv_strided_batched_impl : trmv_strided_batched_impl_fn ε) :=
  IMPL rocblas_precision.rocblas_double_complex exception_to_rocblas_status rocblas_trmv_strided_batched_impl

/-- The call of `rocblas_gbmv_impl` of this development as an entry point
makes it when no collaborator raises: it returns the status of the outcome. -/
def gbmv_impl_returning {ε T : Type} [HostScalar T] (c : Collaborators T) : gbmv_impl_fn ε T :=
  fun p handle transA m n kl ku alpha A lda x incx beta y incy =>
    Except.ok (rocblas_gbmv_impl c p handle transA m n kl ku alpha A lda x incx beta y
      incy).status

/-- The call of `rocblas_trmv_strided_batched_impl` of this development as an
entry point makes it when no collaborator raises. -/
def trmv_strided_batched_impl_returning {ε T : Type} (c : Collaborators T) (dev_bytes : Nat) :
    trmv_strided_batched_impl_fn ε :=
  fun p handle uplo transA diag m A lda stridea x incx stridex batch_count =>
    Except.ok (rocblas_trmv_strided_batched_impl c p handle uplo transA diag m A lda stridea x
      incx stridex batch_count dev_bytes).status

/-- The four C entry points of gbmv with the instantiation each one calls. -/
def gbmv_entry_points (ε T : Type) :
    List (rocblas_precision × ((ε → rocblas_status) → gbmv_impl_fn ε T → rocblas_handle →
      rocblas_operation → Int → Int → Int → Int → Option T → Ptr → Int → Ptr → Int → Option T →
      Ptr → Int → rocblas_status)) :=
  [(rocblas_precision.float, rocblas_sgbmv), (rocblas_precision.double, rocblas_dgbmv),
   (rocblas_precision.rocblas_float_complex, rocblas_cgbmv),
   (rocblas_precision.rocblas_double_complex, rocblas_zgbmv)]

/-- The four C entry points of trmv_strided_batched with the instantiation each
one calls. -/
def trmv_strided_batched_entry_points (ε : Type) :
    List (rocblas_precision × ((ε → rocblas_status) → trmv_strided_batched_impl_fn ε →
      rocblas_handle → rocblas_fill → rocblas_operation → rocblas_diagonal → Int → Ptr → Int →
      Int → Ptr → Int → Int → Int → rocblas_status)) :=
  [(rocblas_precision.float, rocblas_strmv_strided_batched),
   (rocblas_precision.double, rocblas_dtrmv_strided_batched),
   (rocblas_precision.rocblas_float_complex, rocblas_ctrmv_strided_batched),
   (rocblas_precision.rocblas_double_complex, rocblas_ztrmv_strided_batched)]

/-! ## Auxiliary facts -/

/-- When the exact sum is representable, the wrapped sum `kl + ku + 1` is exact. -/
theorem add32_add32_one_exact (kl ku : Int) (h : is_rocblas_int (kl + ku + 1)) :
    add32 (add32 kl ku) 1 = kl + ku + 1 := by
  unfold is_rocblas_int at h
  unfold add32 wrap32
  omega

/-- For non-negative band widths the wrapped sum never exceeds the exact sum. -/
theorem add32_add32_one_le (kl ku : Int) (hkl : 0 ≤ kl) (hku : 0 ≤ ku) :
    add32 (add32 kl ku) 1 ≤ kl + ku + 1 := by
  unfold add32 wrap32
  omega

/-- For a non-negative `rocblas_int` the `size_t` product does not wrap. -/
theorem dev_bytes_exact (bc : Int) (h0 : 0 ≤ bc) (h : is_rocblas_int bc) :
    ((mul_size_t sizeof_rocblas_int (to_size_t bc) : Nat) : Int) = 4 * bc := by
  unfold is_rocblas_int at h
  unfold mul_size_t sizeof_rocblas_int to_size_t
  omega

/-- Lines 40-107 of gbmv emit log records only. -/
theorem gbmv_logging_is_log {T : Type} (p : rocblas_precision) (h : _rocblas_handle)
    (transA : rocblas_operation) (m n kl ku : Int) (alpha : Option T) (A : Ptr) (lda : Int)
    (x : Ptr) (incx : Int) (beta : Option T) (y : Ptr) (incy : Int) :
    ∀ e ∈ gbmv_logging p h transA m n kl ku alpha A lda x incx beta y incy, e.is_log = true := by
  unfold gbmv_logging
  simp only []
  split_ifs <;> simp [Event.is_log]

/-- A list of log records holds no library call. -/
theorem not_invokes_of_is_log {T : Type} (f : Callee) (ev : List (Event T))
    (h : ∀ e ∈ ev, e.is_log = true) : ¬ invokes f ev := by
  rintro ⟨args, hmem⟩
  have := h _ hmem
  simp [Event.is_log] at this

/-- A list of log records holds no host read of a scalar. -/
theorem not_reads_scalar_of_is_log {T : Type} (ev : List (Event T))
    (h : ∀ e ∈ ev, e.is_log = true) : ¬ reads_scalar ev := by
  rintro (hmem | hmem) <;> have := h _ hmem <;> simp [Event.is_log] at this


/-! ## Null handle -/

/-- C1: a call of `rocblas_gbmv_impl` or of `rocblas_trmv_strided_batched_impl`
with a null handle returns `rocblas_status_invalid_handle` whatever the other
arguments are, and performs no action at all: the action list is empty (no log
record, no validator call, no allocation request, no numeric check, no kernel
template call). -/
theorem null_handle_returns_invalid_handle {T : Type} [HostScalar T] (c : Collaborators T)
    (p : rocblas_precision) (transA : rocblas_operation) (m n kl ku : Int) (alpha : Option T)
    (A : Ptr) (lda : Int) (x : Ptr) (incx : Int) (beta : Option T) (y : Ptr) (incy : Int)
    (uplo : rocblas_fill) (transa : rocblas_operation) (diag : rocblas_diagonal) (m1 : Int)
    (a : Ptr) (lda1 stridea : Int) (x1 : Ptr) (incx1 stridex batch_count : Int)
    (dev_bytes : Nat) :
    rocblas_gbmv_impl c p none transA m n kl ku alpha A lda x incx beta y incy
        = ⟨rocblas_status_invalid_handle, []⟩
    ∧ rocblas_trmv_strided_batched_impl c p none uplo transa diag m1 a lda1 stridea x1 incx1
        stridex batch_count dev_bytes = ⟨rocblas_status_invalid_handle, []⟩ :=
  ⟨rfl, rfl⟩

/-! ## Enumerated fields -/

/-- C2: (a) `rocblas_trsv_arg_check` answers `rocblas_status_invalid_value` as
soon as uplo, transA or diag is not a valid member, for every m, lda, incx,
batch_count, every A and B and every handle (null or not, either memory mode),
leaving `dev_bytes` untouched; (b) `rocblas_gbmv_impl` with a non-null handle
outside size-query mode answers `rocblas_status_invalid_value` when transA is
not a valid member, for all sizes and pointers, after the log records only. -/
theorem invalid_enum_returns_invalid_value {T : Type} [HostScalar T] (c : Collaborators T)
    (handle : rocblas_handle) (uplo : rocblas_fill) (transA : rocblas_operation)
    (diag : rocblas_diagonal) (m1 : Int) (A1 : Ptr) (lda1 : Int) (B : Ptr)
    (incx1 batch_count : Int) (dev_bytes : Nat)
    (p : rocblas_precision) (h : _rocblas_handle) (m n kl ku : Int) (alpha : Option T)
    (A : Ptr) (lda : Int) (x : Ptr) (incx : Int) (beta : Option T) (y : Ptr) (incy : Int) :
    (((uplo ≠ rocblas_fill_lower ∧ uplo ≠ rocblas_fill_upper)
        ∨ (transA ≠ rocblas_operation_none ∧ transA ≠ rocblas_operation_transpose
            ∧ transA ≠ rocblas_operation_conjugate_transpose)
        ∨ (diag ≠ rocblas_diagonal_unit ∧ diag ≠ rocblas_diagonal_non_unit)) →
      rocblas_trsv_arg_check c handle uplo transA diag m1 A1 lda1 B incx1 batch_count dev_bytes
        = some ⟨rocblas_status_invalid_value, dev_bytes, []⟩)
    ∧ (h.is_device_memory_size_query = false →
      (transA ≠ rocblas_operation_none ∧ transA ≠ rocblas_operation_transpose
            ∧ transA ≠ rocblas_operation_conjugate_transpose) →
      rocblas_gbmv_impl c p (some h) transA m n kl ku alpha A lda x incx beta y incy
        = ⟨rocblas_status_invalid_value,
            gbmv_logging p h transA m n kl ku alpha A lda x incx beta y incy⟩) := by
  refine ⟨?_, ?_⟩
  · intro hbad
    unfold rocblas_trsv_arg_check
    by_cases h1 : uplo ≠ rocblas_fill_lower ∧ uplo ≠ rocblas_fill_upper
    · rw [if_pos h1]
    · rw [if_neg h1]
      by_cases h2 : transA ≠ rocblas_operation_none ∧ transA ≠ rocblas_operation_transpose
          ∧ transA ≠ rocblas_operation_conjugate_transpose
      · rw [if_pos h2]
      · rw [if_neg h2]
        have h3 : diag ≠ rocblas_diagonal_unit ∧ diag ≠ rocblas_diagonal_non_unit := by
          rcases hbad with hb | hb | hb
          · exact absurd hb h1
          · exact absurd hb h2
          · exact hb
        rw [if_pos h3]
  · intro hq hbad
    simp only [rocblas_gbmv_impl, hq, Bool.false_eq_true, if_false]
    rw [if_pos hbad]

/-- C2, evaluated: `rocblas_fill_full` with a null handle and null A in trsv,
and an out-of-range transpose mode with all-null pointers in gbmv. -/
theorem invalid_enum_returns_invalid_value_witness :
    rocblas_trsv_arg_check all_success none rocblas_fill_full rocblas_operation_none
        rocblas_diagonal_unit (-1) none 0 none 0 (-1) 77
      = some ⟨rocblas_status_invalid_value, 77, []⟩
    ∧ rocblas_gbmv_impl all_success rocblas_precision.float (some plain_handle)
        (rocblas_operation.invalid 0) (-1) (-1) (-1) (-1) none none 0 none 0 none none 0
      = ⟨rocblas_status_invalid_value, []⟩ :=
  ⟨(invalid_enum_returns_invalid_value all_success none rocblas_fill_full
      rocblas_operation_none rocblas_diagonal_unit (-1) none 0 none 0 (-1) 77
      rocblas_precision.float plain_handle (-1) (-1) (-1) (-1) none none 0 none 0 none none 0).1
      (Or.inl (by decide)),
   (invalid_enum_returns_invalid_value all_success none rocblas_fill_full
      (rocblas_operation.invalid 0) rocblas_diagonal_unit (-1) none 0 none 0 (-1) 77
      rocblas_precision.float plain_handle (-1) (-1) (-1) (-1) none none 0 none 0 none none 0).2
      rfl (by decide)⟩

/-! ## Sizes -/

/-- C3: with valid uplo, transA and diag, `rocblas_trsv_arg_check` answers
`rocblas_status_invalid_size` whenever m < 0, lda < m, lda < 1, incx = 0 or
batch_count < 0, for every A and B and every handle (null or not, either
memory mode), also when m = 0 or batch_count = 0; `dev_bytes` is untouched. -/
theorem trsv_arg_check_invalid_size {T : Type} (c : Collaborators T) (handle : rocblas_handle)
    (uplo : rocblas_fill) (transA : rocblas_operation) (diag : rocblas_diagonal)
    (m : Int) (A : Ptr) (lda : Int) (B : Ptr) (incx batch_count : Int) (dev_bytes : Nat)
    (huplo : uplo = rocblas_fill_lower ∨ uplo = rocblas_fill_upper)
    (htrans : transA = rocblas_operation_none ∨ transA = rocblas_operation_transpose
      ∨ transA = rocblas_operation_conjugate_transpose)
    (hdiag : diag = rocblas_diagonal_unit ∨ diag = rocblas_diagonal_non_unit)
    (hsize : m < 0 ∨ lda < m ∨ lda < 1 ∨ incx = 0 ∨ batch_count < 0) :
    rocblas_trsv_arg_check c handle uplo transA diag m A lda B incx batch_count dev_bytes
      = some ⟨rocblas_status_invalid_size, dev_bytes, []⟩ := by
  unfold rocblas_trsv_arg_check
  have h1 : ¬ (uplo ≠ rocblas_fill_lower ∧ uplo ≠ rocblas_fill_upper) := by tauto
  have h2 : ¬ (transA ≠ rocblas_operation_none ∧ transA ≠ rocblas_operation_transpose
      ∧ transA ≠ rocblas_operation_conjugate_transpose) := by tauto
  have h3 : ¬ (diag ≠ rocblas_diagonal_unit ∧ diag ≠ rocblas_diagonal_non_unit) := by tauto
  rw [if_neg h1, if_neg h2, if_neg h3, if_pos hsize]

/-- C3, evaluated: m = 0 with lda = 0, a null handle and null A and B. -/
theorem trsv_arg_check_invalid_size_witness :
    rocblas_trsv_arg_check all_success none rocblas_fill_upper rocblas_operation_transpose
        rocblas_diagonal_non_unit 0 none 0 none 1 0 77
      = some ⟨rocblas_status_invalid_size, 77, []⟩ :=
  trsv_arg_check_invalid_size all_success none rocblas_fill_upper rocblas_operation_transpose
    rocblas_diagonal_non_unit 0 none 0 none 1 0 77 (Or.inr rfl) (Or.inr (Or.inl rfl))
    (Or.inr rfl) (Or.inr (Or.inr (Or.inl (by decide))))

/-- C4: `rocblas_gbmv_impl` with a non-null handle outside size-query mode and
a valid transA, when the exact value of kl + ku + 1 is a `rocblas_int`:
whenever m < 0, n < 0, lda < kl + ku + 1, incx = 0, incy = 0, kl < 0 or ku < 0
the call returns `rocblas_status_invalid_size` after the log records only, for
all alpha, beta, A, x, y, also when m = 0 or n = 0. -/
theorem gbmv_invalid_size {T : Type} [HostScalar T] (c : Collaborators T)
    (p : rocblas_precision) (h : _rocblas_handle) (transA : rocblas_operation)
    (m n kl ku : Int) (alpha : Option T) (A : Ptr) (lda : Int) (x : Ptr) (incx : Int)
    (beta : Option T) (y : Ptr) (incy : Int)
    (hq : h.is_device_memory_size_query = false)
    (htrans : transA = rocblas_operation_none ∨ transA = rocblas_operation_transpose
      ∨ transA = rocblas_operation_conjugate_transpose)
    (hsum : is_rocblas_int (kl + ku + 1))
    (hsize : m < 0 ∨ n < 0 ∨ lda < kl + ku + 1 ∨ incx = 0 ∨ incy = 0 ∨ kl < 0 ∨ ku < 0) :
    rocblas_gbmv_impl c p (some h) transA m n kl ku alpha A lda x incx beta y incy
      = ⟨rocblas_status_invalid_size,
          gbmv_logging p h transA m n kl ku alpha A lda x incx beta y incy⟩ := by
  have h2 : ¬ (transA ≠ rocblas_operation_none ∧ transA ≠ rocblas_operation_transpose
      ∧ transA ≠ rocblas_operation_conjugate_transpose) := by tauto
  have h3 : m < 0 ∨ n < 0 ∨ lda < add32 (add32 kl ku) 1 ∨ incx = 0 ∨ incy = 0
      ∨ kl < 0 ∨ ku < 0 := by
    rw [add32_add32_one_exact kl ku hsum]; exact hsize
  simp only [rocblas_gbmv_impl, hq, Bool.false_eq_true, if_false]
  rw [if_neg h2, if_pos h3]

/-- C4, evaluated: m = 0 and lda = 2 < 1 + 1 + 1 with all pointers null. -/
theorem gbmv_invalid_size_witness :
    rocblas_gbmv_impl all_success rocblas_precision.double (some plain_handle)
        rocblas_operation_none 0 5 1 1 none none 2 none 1 none none 1
      = ⟨rocblas_status_invalid_size, []⟩ :=
  gbmv_invalid_size all_success rocblas_precision.double plain_handle rocblas_operation_none
    0 5 1 1 none none 2 none 1 none none 1 rfl (Or.inl rfl) (by decide)
    (Or.inr (Or.inr (Or.inl (by decide))))


/-! ## Empty problems -/

/-- C5: (a) `rocblas_trsv_arg_check` with valid uplo, transA, diag, valid sizes
(m >= 0, lda >= max(1, m), incx != 0, batch_count >= 0), a handle outside
size-query mode and m = 0 or batch_count = 0 returns `rocblas_status_success`
for every A and B, leaving `dev_bytes` untouched and asking nothing of the
handle; (b) `rocblas_gbmv_impl` with a non-null handle outside size-query mode,
a valid transA, valid sizes and m = 0 or n = 0 returns
`rocblas_status_success` for every alpha, beta, A, x, y; its only actions are
the log records: no scalar is read, and neither the numeric checker nor the
kernel template is called. -/
theorem empty_problem_returns_success {T : Type} [HostScalar T] (c : Collaborators T)
    (h : _rocblas_handle) (uplo : rocblas_fill) (transA : rocblas_operation)
    (diag : rocblas_diagonal) (m1 : Int) (A1 : Ptr) (lda1 : Int) (B : Ptr)
    (incx1 batch_count : Int) (dev_bytes : Nat)
    (p : rocblas_precision) (m n kl ku : Int) (alpha : Option T)
    (A : Ptr) (lda : Int) (x : Ptr) (incx : Int) (beta : Option T) (y : Ptr) (incy : Int)
    (hq : h.is_device_memory_size_query = false)
    (htrans : transA = rocblas_operation_none ∨ transA = rocblas_operation_transpose
      ∨ transA = rocblas_operation_conjugate_transpose) :
    ((uplo = rocblas_fill_lower ∨ uplo = rocblas_fill_upper) →
      (diag = rocblas_diagonal_unit ∨ diag = rocblas_diagonal_non_unit) →
      0 ≤ m1 → m1 ≤ lda1 → 1 ≤ lda1 → incx1 ≠ 0 → 0 ≤ batch_count →
      (m1 = 0 ∨ batch_count = 0) →
      rocblas_trsv_arg_check c (some h) uplo transA diag m1 A1 lda1 B incx1 batch_count
        dev_bytes = some ⟨rocblas_status_success, dev_bytes, []⟩)
    ∧ (0 ≤ m → 0 ≤ n → kl + ku + 1 ≤ lda → incx ≠ 0 → incy ≠ 0 → 0 ≤ kl → 0 ≤ ku →
      (m = 0 ∨ n = 0) →
      rocblas_gbmv_impl c p (some h) transA m n kl ku alpha A lda x incx beta y incy
          = ⟨rocblas_status_success,
              gbmv_logging p h transA m n kl ku alpha A lda x incx beta y incy⟩
        ∧ ¬ reads_scalar
            (rocblas_gbmv_impl c p (some h) transA m n kl ku alpha A lda x incx beta y
              incy).events
        ∧ ¬ invokes Callee.rocblas_gbmv_check_numerics
            (rocblas_gbmv_impl c p (some h) transA m n kl ku alpha A lda x incx beta y
              incy).events
        ∧ ¬ invokes Callee.rocblas_gbmv_template
            (rocblas_gbmv_impl c p (some h) transA m n kl ku alpha A lda x incx beta y
              incy).events) := by
  have h2 : ¬ (transA ≠ rocblas_operation_none ∧ transA ≠ rocblas_operation_transpose
      ∧ transA ≠ rocblas_operation_conjugate_transpose) := by tauto
  refine ⟨?_, ?_⟩
  · intro huplo hdiag hm hlda hlda1 hincx hbc hempty
    have h1 : ¬ (uplo ≠ rocblas_fill_lower ∧ uplo ≠ rocblas_fill_upper) := by tauto
    have h3 : ¬ (diag ≠ rocblas_diagonal_unit ∧ diag ≠ rocblas_diagonal_non_unit) := by tauto
    have h4 : ¬ (m1 < 0 ∨ lda1 < m1 ∨ lda1 < 1 ∨ incx1 = 0 ∨ batch_count < 0) := by
      rintro (hh | hh | hh | hh | hh)
      · omega
      · omega
      · omega
      · exact hincx hh
      · omega
    unfold rocblas_trsv_arg_check
    rw [if_neg h1, if_neg h2, if_neg h3, if_neg h4, if_pos hempty]
    simp [hq]
  · intro hm hn hlda hincx hincy hkl hku hempty
    have hle := add32_add32_one_le kl ku hkl hku
    have h4 : ¬ (m < 0 ∨ n < 0 ∨ lda < add32 (add32 kl ku) 1 ∨ incx = 0 ∨ incy = 0
        ∨ kl < 0 ∨ ku < 0) := by
      rintro (hh | hh | hh | hh | hh | hh | hh)
      · omega
      · omega
      · omega
      · exact hincx hh
      · exact hincy hh
      · omega
      · omega
    have heq : rocblas_gbmv_impl c p (some h) transA m n kl ku alpha A lda x incx beta y incy
          = ⟨rocblas_status_success,
              gbmv_logging p h transA m n kl ku alpha A lda x incx beta y incy⟩ := by
      simp only [rocblas_gbmv_impl, hq, Bool.false_eq_true, if_false]
      rw [if_neg h2, if_neg h4, if_pos hempty]
    have hlog := gbmv_logging_is_log p h transA m n kl ku alpha A lda x incx beta y incy
    rw [heq]
    exact ⟨rfl, not_reads_scalar_of_is_log _ hlog, not_invokes_of_is_log _ _ hlog,
      not_invokes_of_is_log _ _ hlog⟩

/-- C5, evaluated: trsv with batch_count = 0 and gbmv with n = 0, all pointers null. -/
theorem empty_problem_returns_success_witness :
    rocblas_trsv_arg_check all_success (some plain_handle) rocblas_fill_lower
        rocblas_operation_none rocblas_diagonal_unit 4 none 4 none 1 0 77
      = some ⟨rocblas_status_success, 77, []⟩
    ∧ rocblas_gbmv_impl all_success rocblas_precision.float (some plain_handle)
        rocblas_operation_none 4 0 1 1 none none 3 none 1 none none 1
      = ⟨rocblas_status_success, []⟩ :=
  ⟨(empty_problem_returns_success all_success plain_handle rocblas_fill_lower
      rocblas_operation_none rocblas_diagonal_unit 4 none 4 none 1 0 77
      rocblas_precision.float 4 0 1 1 none none 3 none 1 none none 1 rfl (Or.inl rfl)).1
      (Or.inl rfl) (Or.inl rfl) (by decide) (by decide) (by decide) (by decide) (by decide)
      (Or.inr rfl),
   ((empty_problem_returns_success all_success plain_handle rocblas_fill_lower
      rocblas_operation_none rocblas_diagonal_unit 4 none 4 none 1 0 77
      rocblas_precision.float 4 0 1 1 none none 3 none 1 none none 1 rfl (Or.inl rfl)).2
      (by decide) (by decide) (by decide) (by decide) (by decide) (by decide) (by decide)
      (Or.inr rfl)).1⟩


/-- The size test of line 113 of gbmv fails on sizes that are valid in exact arithmetic. -/
theorem gbmv_size_test_passes (m n kl ku lda incx incy : Int) (hm : 0 ≤ m) (hn : 0 ≤ n)
    (hlda : kl + ku + 1 ≤ lda) (hincx : incx ≠ 0) (hincy : incy ≠ 0) (hkl : 0 ≤ kl)
    (hku : 0 ≤ ku) :
    ¬ (m < 0 ∨ n < 0 ∨ lda < add32 (add32 kl ku) 1 ∨ incx = 0 ∨ incy = 0 ∨ kl < 0 ∨ ku < 0) := by
  have hle := add32_add32_one_le kl ku hkl hku
  rintro (hh | hh | hh | hh | hh | hh | hh)
  · omega
  · omega
  · omega
  · exact hincx hh
  · exact hincy hh
  · omega
  · omega

/-- On a call that passes the handle, enumeration and size tests and is not
empty, `rocblas_gbmv_impl` is the scalar and operand stage of lines 119-215. -/
theorem gbmv_impl_nondegenerate {T : Type} [HostScalar T] (c : Collaborators T)
    (p : rocblas_precision) (h : _rocblas_handle) (transA : rocblas_operation)
    (m n kl ku : Int) (alpha : Option T) (A : Ptr) (lda : Int) (x : Ptr) (incx : Int)
    (beta : Option T) (y : Ptr) (incy : Int)
    (hq : h.is_device_memory_size_query = false)
    (htrans : transA = rocblas_operation_none ∨ transA = rocblas_operation_transpose
      ∨ transA = rocblas_operation_conjugate_transpose)
    (hm : 0 < m) (hn : 0 < n) (hlda : kl + ku + 1 ≤ lda) (hincx : incx ≠ 0) (hincy : incy ≠ 0)
    (hkl : 0 ≤ kl) (hku : 0 ≤ ku) :
    rocblas_gbmv_impl c p (some h) transA m n kl ku alpha A lda x incx beta y incy
      = match alpha, beta with
        | some a, some b =>
          if h.pointer_mode = rocblas_pointer_mode_host then
            if HostScalar.is_zero a then
              if HostScalar.eq_one b then
                ⟨rocblas_status_success,
                  gbmv_logging p h transA m n kl ku alpha A lda x incx beta y incy
                    ++ [Event.deref_alpha, Event.deref_beta]⟩
              else
                gbmv_from_y c p h transA m n kl ku alpha A lda x incx beta y incy
                  (gbmv_logging p h transA m n kl ku alpha A lda x incx beta y incy
                    ++ [Event.deref_alpha, Event.deref_beta])
            else if A = none ∨ x = none then
              ⟨rocblas_status_invalid_pointer,
                gbmv_logging p h transA m n kl ku alpha A lda x incx beta y incy
                  ++ [Event.deref_alpha]⟩
            else
              gbmv_from_y c p h transA m n kl ku alpha A lda x incx beta y incy
                (gbmv_logging p h transA m n kl ku alpha A lda x incx beta y incy
                  ++ [Event.deref_alpha])
          else if A = none ∨ x = none then
            ⟨rocblas_status_invalid_pointer,
              gbmv_logging p h transA m n kl ku alpha A lda x incx beta y incy⟩
          else
            gbmv_from_y c p h transA m n kl ku alpha A lda x incx beta y incy
              (gbmv_logging p h transA m n kl ku alpha A lda x incx beta y incy)
        | _, _ => ⟨rocblas_status_invalid_pointer,
              gbmv_logging p h transA m n kl ku alpha A lda x incx beta y incy⟩ := by
  have h2 : ¬ (transA ≠ rocblas_operation_none ∧ transA ≠ rocblas_operation_transpose
      ∧ transA ≠ rocblas_operation_conjugate_transpose) := by tauto
  have h4 := gbmv_size_test_passes m n kl ku lda incx incy (by omega) (by omega) hlda hincx
    hincy hkl hku
  have h5 : ¬ (m = 0 ∨ n = 0) := by omega
  simp only [rocblas_gbmv_impl, hq, Bool.false_eq_true, if_false]
  rw [if_neg h2, if_neg h4, if_neg h5]

/-! ## Scalar pointers -/

/-- C6: `rocblas_gbmv_impl` with a non-null handle outside size-query mode, a
valid transA, valid sizes, m > 0 and n > 0 returns
`rocblas_status_invalid_pointer` when alpha is null or beta is null, in both
pointer modes and for every A, x and y; its only actions are the log records,
so neither `*alpha` nor `*beta` is evaluated. -/
theorem gbmv_null_scalar_invalid_pointer {T : Type} [HostScalar T] (c : Collaborators T)
    (p : rocblas_precision) (h : _rocblas_handle) (transA : rocblas_operation)
    (m n kl ku : Int) (alpha : Option T) (A : Ptr) (lda : Int) (x : Ptr) (incx : Int)
    (beta : Option T) (y : Ptr) (incy : Int)
    (hq : h.is_device_memory_size_query = false)
    (htrans : transA = rocblas_operation_none ∨ transA = rocblas_operation_transpose
      ∨ transA = rocblas_operation_conjugate_transpose)
    (hm : 0 < m) (hn : 0 < n) (hlda : kl + ku + 1 ≤ lda) (hincx : incx ≠ 0) (hincy : incy ≠ 0)
    (hkl : 0 ≤ kl) (hku : 0 ≤ ku) (hnull : alpha = none ∨ beta = none) :
    rocblas_gbmv_impl c p (some h) transA m n kl ku alpha A lda x incx beta y incy
        = ⟨rocblas_status_invalid_pointer,
            gbmv_logging p h transA m n kl ku alpha A lda x incx beta y incy⟩
      ∧ ¬ reads_scalar
          (rocblas_gbmv_impl c p (some h) transA m n kl ku alpha A lda x incx beta y
            incy).events := by
  have heq : rocblas_gbmv_impl c p (some h) transA m n kl ku alpha A lda x incx beta y incy
        = ⟨rocblas_status_invalid_pointer,
            gbmv_logging p h transA m n kl ku alpha A lda x incx beta y incy⟩ := by
    rw [gbmv_impl_nondegenerate c p h transA m n kl ku alpha A lda x incx beta y incy hq htrans
      hm hn hlda hincx hincy hkl hku]
    rcases hnull with hnull | hnull
    · subst hnull; rfl
    · subst hnull; cases alpha <;> rfl
  rw [heq]
  exact ⟨rfl, not_reads_scalar_of_is_log _
    (gbmv_logging_is_log p h transA m n kl ku alpha A lda x incx beta y incy)⟩

/-- C6, evaluated: device pointer mode, alpha non-null, beta null. -/
theorem gbmv_null_scalar_invalid_pointer_witness :
    rocblas_gbmv_impl all_success rocblas_precision.float
        (some ⟨0, 0, rocblas_pointer_mode_device, false⟩) rocblas_operation_none 3 3 1 1
        (some 0) (some 4) 3 (some 5) 1 none (some 6) 1
      = ⟨rocblas_status_invalid_pointer, []⟩ :=
  (gbmv_null_scalar_invalid_pointer all_success rocblas_precision.float
    ⟨0, 0, rocblas_pointer_mode_device, false⟩ rocblas_operation_none 3 3 1 1
    (some 0) (some 4) 3 (some 5) 1 none (some 6) 1 rfl (Or.inl rfl) (by decide) (by decide)
    (by decide) (by decide) (by decide) (by decide) (by decide) (Or.inr rfl)).1

/-- C7: the no-op fast path of `rocblas_gbmv_impl`.  With a non-null handle
outside size-query mode, a valid transA, valid sizes, m > 0, n > 0, non-null
alpha and beta, pointer mode HOST, `*alpha = 0` and `*beta = 1`, the call
returns `rocblas_status_success` for every A, x and y; after the log records it
only reads the two scalars, and calls neither the numeric checker nor the
kernel template. -/
theorem gbmv_fast_path_success {T : Type} [HostScalar T] (c : Collaborators T)
    (p : rocblas_precision) (h : _rocblas_handle) (transA : rocblas_operation)
    (m n kl ku : Int) (a : T) (A : Ptr) (lda : Int) (x : Ptr) (incx : Int)
    (b : T) (y : Ptr) (incy : Int)
    (hq : h.is_device_memory_size_query = false)
    (htrans : transA = rocblas_operation_none ∨ transA = rocblas_operation_transpose
      ∨ transA = rocblas_operation_conjugate_transpose)
    (hm : 0 < m) (hn : 0 < n) (hlda : kl + ku + 1 ≤ lda) (hincx : incx ≠ 0) (hincy : incy ≠ 0)
    (hkl : 0 ≤ kl) (hku : 0 ≤ ku)
    (hhost : h.pointer_mode = rocblas_pointer_mode_host)
    (ha : HostScalar.is_zero a = true) (hb : HostScalar.eq_one b = true) :
    rocblas_gbmv_impl c p (some h) transA m n kl ku (some a) A lda x incx (some b) y incy
        = ⟨rocblas_status_success,
            gbmv_logging p h transA m n kl ku (some a) A lda x incx (some b) y incy
              ++ [Event.deref_alpha, Event.deref_beta]⟩
      ∧ ¬ invokes Callee.rocblas_gbmv_check_numerics
          (rocblas_gbmv_impl c p (some h) transA m n kl ku (some a) A lda x incx (some b) y
            incy).events
      ∧ ¬ invokes Callee.rocblas_gbmv_template
          (rocblas_gbmv_impl c p (some h) transA m n kl ku (some a) A lda x incx (some b) y
            incy).events := by
  have heq : rocblas_gbmv_impl c p (some h) transA m n kl ku (some a) A lda x incx (some b) y
      incy = ⟨rocblas_status_success,
            gbmv_logging p h transA m n kl ku (some a) A lda x incx (some b) y incy
              ++ [Event.deref_alpha, Event.deref_beta]⟩ := by
    rw [gbmv_impl_nondegenerate c p h transA m n kl ku (some a) A lda x incx (some b) y incy hq
      htrans hm hn hlda hincx hincy hkl hku]
    simp [hhost, ha, hb]
  have hlog := gbmv_logging_is_log p h transA m n kl ku (some a) A lda x incx (some b) y incy
  have hno : ∀ f, ¬ invokes f
      (gbmv_logging p h transA m n kl ku (some a) A lda x incx (some b) y incy
        ++ [Event.deref_alpha, Event.deref_beta]) := by
    rintro f ⟨args, hmem⟩
    rcases List.mem_append.1 hmem with hmem | hmem
    · exact not_invokes_of_is_log f _ hlog ⟨args, hmem⟩
    · simp at hmem
  rw [heq]
  exact ⟨rfl, hno _, hno _⟩

/-- C7, evaluated: alpha = 0, beta = 1 in host mode with A, x and y all null. -/
theorem gbmv_fast_path_success_witness :
    rocblas_gbmv_impl all_success rocblas_precision.float (some plain_handle)
        rocblas_operation_none 3 3 1 1 (some 0) none 3 none 1 (some 1) none 1
      = ⟨rocblas_status_success, [Event.deref_alpha, Event.deref_beta]⟩ :=
  (gbmv_fast_path_success all_success rocblas_precision.float plain_handle
    rocblas_operation_none 3 3 1 1 0 none 3 none 1 1 none 1 rfl (Or.inl rfl) (by decide)
    (by decide) (by decide) (by decide) (by decide) (by decide) (by decide) rfl (by decide)
    (by decide)).1


/-! ## Operand pointers -/

/-- C8 as stated fails: in host pointer mode with `*alpha = 0` and `*beta = 2`
the no-op fast path does not apply (beta is not 1), yet a call with a null A
(non-null x and y, m = n = 3, kl = ku = 1, lda = 3) is not rejected: lines
122-126 skip the test of A and x, and the call goes on to the kernel template
and returns its status. -/
theorem gbmv_null_A_zero_alpha_not_rejected :
    plain_handle.is_device_memory_size_query = false
    ∧ plain_handle.pointer_mode = rocblas_pointer_mode_host
    ∧ HostScalar.is_zero (0 : ℚ) = true
    ∧ HostScalar.eq_one (2 : ℚ) = false
    ∧ rocblas_gbmv_impl all_success rocblas_precision.float (some plain_handle)
        rocblas_operation_none 3 3 1 1 (some 0) none 3 (some 5) 1 (some 2) (some 6) 1
      = ⟨rocblas_status_success, [Event.deref_alpha, Event.deref_beta,
          Event.call Callee.rocblas_gbmv_template
            (gbmv_template_args plain_handle rocblas_operation_none 3 3 1 1 (some 0) none 3
              (some 5) 1 (some 2) (some 6) 1)]⟩
    ∧ (rocblas_gbmv_impl all_success rocblas_precision.float (some plain_handle)
        rocblas_operation_none 3 3 1 1 (some 0) none 3 (some 5) 1 (some 2) (some 6) 1).status
      ≠ rocblas_status_invalid_pointer := by
  refine ⟨rfl, rfl, by decide, by decide, by decide, by decide⟩

/-- C8, amended: for every non-degenerate call (m > 0, n > 0) of
`rocblas_gbmv_impl` with a non-null handle outside size-query mode, a valid
transA, valid sizes and non-null alpha and beta, (i) a null y yields
`rocblas_status_invalid_pointer` unless the no-op fast path (pointer mode
HOST, `*alpha = 0`, `*beta = 1`) applies, and (ii) a null A or a null x yields
`rocblas_status_invalid_pointer` unless the pointer mode is HOST and
`*alpha = 0`. -/
theorem gbmv_null_operand_invalid_pointer {T : Type} [HostScalar T] (c : Collaborators T)
    (p : rocblas_precision) (h : _rocblas_handle) (transA : rocblas_operation)
    (m n kl ku : Int) (a : T) (A : Ptr) (lda : Int) (x : Ptr) (incx : Int)
    (b : T) (y : Ptr) (incy : Int)
    (hq : h.is_device_memory_size_query = false)
    (htrans : transA = rocblas_operation_none ∨ transA = rocblas_operation_transpose
      ∨ transA = rocblas_operation_conjugate_transpose)
    (hm : 0 < m) (hn : 0 < n) (hlda : kl + ku + 1 ≤ lda) (hincx : incx ≠ 0) (hincy : incy ≠ 0)
    (hkl : 0 ≤ kl) (hku : 0 ≤ ku) :
    (y = none →
      ¬ (h.pointer_mode = rocblas_pointer_mode_host ∧ HostScalar.is_zero a = true
          ∧ HostScalar.eq_one b = true) →
      (rocblas_gbmv_impl c p (some h) transA m n kl ku (some a) A lda x incx (some b) y
        incy).status = rocblas_status_invalid_pointer)
    ∧ ((A = none ∨ x = none) →
      ¬ (h.pointer_mode = rocblas_pointer_mode_host ∧ HostScalar.is_zero a = true) →
      (rocblas_gbmv_impl c p (some h) transA m n kl ku (some a) A lda x incx (some b) y
        incy).status = rocblas_status_invalid_pointer) := by
  rw [gbmv_impl_nondegenerate c p h transA m n kl ku (some a) A lda x incx (some b) y incy hq
    htrans hm hn hlda hincx hincy hkl hku]
  refine ⟨?_, ?_⟩
  · intro hy hfast
    subst hy
    by_cases hhost : h.pointer_mode = rocblas_pointer_mode_host
    · by_cases ha : HostScalar.is_zero a = true
      · have hb : ¬ HostScalar.eq_one b = true := fun hb => hfast ⟨hhost, ha, hb⟩
        simp [hhost, ha, hb, gbmv_from_y]
      · by_cases hAx : A = none ∨ x = none
        · simp [hhost, ha, hAx]
        · simp [hhost, ha, hAx, gbmv_from_y]
    · by_cases hAx : A = none ∨ x = none
      · simp [hhost, hAx]
      · simp [hhost, hAx, gbmv_from_y]
  · intro hAx hzero
    by_cases hhost : h.pointer_mode = rocblas_pointer_mode_host
    · have ha : ¬ HostScalar.is_zero a = true := fun ha => hzero ⟨hhost, ha⟩
      simp [hhost, ha, hAx]
    · simp [hhost, hAx]

/-- C8 amended, evaluated: a null y with alpha = 0 and beta = 2 in host mode,
and a null x with alpha = 3 in host mode. -/
theorem gbmv_null_operand_invalid_pointer_witness :
    (rocblas_gbmv_impl all_success rocblas_precision.float (some plain_handle)
        rocblas_operation_none 3 3 1 1 (some 0) (some 4) 3 (some 5) 1 (some 2) none 1).status
      = rocblas_status_invalid_pointer
    ∧ (rocblas_gbmv_impl all_success rocblas_precision.float (some plain_handle)
        rocblas_operation_none 3 3 1 1 (some 3) (some 4) 3 none 1 (some 2) (some 6) 1).status
      = rocblas_status_invalid_pointer :=
  ⟨(gbmv_null_operand_invalid_pointer all_success rocblas_precision.float plain_handle
      rocblas_operation_none 3 3 1 1 0 (some 4) 3 (some 5) 1 2 none 1 rfl (Or.inl rfl)
      (by decide) (by decide) (by decide) (by decide) (by decide) (by decide) (by decide)).1
      rfl (by decide),
   (gbmv_null_operand_invalid_pointer all_success rocblas_precision.float plain_handle
      rocblas_operation_none 3 3 1 1 3 (some 4) 3 none 1 2 (some 6) 1 rfl (Or.inl rfl)
      (by decide) (by decide) (by decide) (by decide) (by decide) (by decide) (by decide)).2
      (Or.inr rfl) (by decide)⟩

/-- C9: `rocblas_trsv_arg_check` with valid uplo, transA, diag, valid sizes,
m > 0 and batch_count > 0 returns `rocblas_status_invalid_pointer` when A is
null or B is null, for every handle; `dev_bytes` is not written and nothing is
asked of the handle. -/
theorem trsv_arg_check_null_operand_invalid_pointer {T : Type} (c : Collaborators T)
    (handle : rocblas_handle) (uplo : rocblas_fill) (transA : rocblas_operation)
    (diag : rocblas_diagonal) (m : Int) (A : Ptr) (lda : Int) (B : Ptr)
    (incx batch_count : Int) (dev_bytes : Nat)
    (huplo : uplo = rocblas_fill_lower ∨ uplo = rocblas_fill_upper)
    (htrans : transA = rocblas_operation_none ∨ transA = rocblas_operation_transpose
      ∨ transA = rocblas_operation_conjugate_transpose)
    (hdiag : diag = rocblas_diagonal_unit ∨ diag = rocblas_diagonal_non_unit)
    (hm : 0 < m) (hlda : m ≤ lda) (hincx : incx ≠ 0) (hbc : 0 < batch_count)
    (hnull : A = none ∨ B = none) :
    rocblas_trsv_arg_check c handle uplo transA diag m A lda B incx batch_count dev_bytes
      = some ⟨rocblas_status_invalid_pointer, dev_bytes, []⟩ := by
  have h1 : ¬ (uplo ≠ rocblas_fill_lower ∧ uplo ≠ rocblas_fill_upper) := by tauto
  have h2 : ¬ (transA ≠ rocblas_operation_none ∧ transA ≠ rocblas_operation_transpose
      ∧ transA ≠ rocblas_operation_conjugate_transpose) := by tauto
  have h3 : ¬ (diag ≠ rocblas_diagonal_unit ∧ diag ≠ rocblas_diagonal_non_unit) := by tauto
  have h4 : ¬ (m < 0 ∨ lda < m ∨ lda < 1 ∨ incx = 0 ∨ batch_count < 0) := by
    rintro (hh | hh | hh | hh | hh)
    · omega
    · omega
    · omega
    · exact hincx hh
    · omega
  have h5 : ¬ (m = 0 ∨ batch_count = 0) := by omega
  unfold rocblas_trsv_arg_check
  rw [if_neg h1, if_neg h2, if_neg h3, if_neg h4, if_neg h5, if_pos hnull]

/-- C9, evaluated: size-query mode, m = lda = 10, batch_count = 3, null B. -/
theorem trsv_arg_check_null_operand_invalid_pointer_witness :
    rocblas_trsv_arg_check all_success (some ⟨0, 0, rocblas_pointer_mode_host, true⟩)
        rocblas_fill_lower rocblas_operation_none rocblas_diagonal_unit 10 (some 1) 10 none 1 3
        77
      = some ⟨rocblas_status_invalid_pointer, 77, []⟩ :=
  trsv_arg_check_null_operand_invalid_pointer all_success
    (some ⟨0, 0, rocblas_pointer_mode_host, true⟩) rocblas_fill_lower rocblas_operation_none
    rocblas_diagonal_unit 10 (some 1) 10 none 1 3 77 (Or.inl rfl) (Or.inl rfl) (Or.inl rfl)
    (by decide) (by decide) (by decide) (by decide) (Or.inr rfl)


/-! ## Scratch size of trsv -/

/-- When the size-query macro never answers CONTINUE, a CONTINUE from
`rocblas_trsv_arg_check` comes with a positive batch_count and with `dev_bytes`
set by line 47. -/
theorem trsv_arg_check_continue_inv {T : Type} (c : Collaborators T) (handle : rocblas_handle)
    (uplo : rocblas_fill) (transA : rocblas_operation) (diag : rocblas_diagonal)
    (m : Int) (A : Ptr) (lda : Int) (B : Ptr) (incx batch_count : Int) (dev_bytes : Nat)
    (hquery : ∀ h, c.return_zero_device_memory_size h ≠ rocblas_status_continue)
    (r : ArgCheckOutcome T)
    (hr : rocblas_trsv_arg_check c handle uplo transA diag m A lda B incx batch_count dev_bytes
      = some r)
    (hs : r.status = rocblas_status_continue) :
    0 < batch_count
      ∧ r.dev_bytes = mul_size_t sizeof_rocblas_int (to_size_t batch_count) := by
  unfold rocblas_trsv_arg_check at hr
  split_ifs at hr with h1 h2 h3 h4 h5 h6
  · cases hr; cases hs
  · cases hr; cases hs
  · cases hr; cases hs
  · cases hr; cases hs
  · cases handle with
    | none => cases hr
    | some h =>
      simp only [] at hr
      split_ifs at hr
      · cases hr; exact absurd hs (hquery h)
      · cases hr; cases hs
  · cases hr; cases hs
  · have hbc : 0 < batch_count := by
      have h4' : ¬ batch_count < 0 := fun hh => h4 (Or.inr (Or.inr (Or.inr (Or.inr hh))))
      have h5' : ¬ batch_count = 0 := fun hh => h5 (Or.inr hh)
      omega
    cases handle with
    | none => cases hr
    | some h =>
      simp only [] at hr
      split_ifs at hr
      · cases hr; exact ⟨hbc, rfl⟩
      · cases hr; exact ⟨hbc, rfl⟩

/-- C10: the scratch size of `rocblas_trsv_arg_check`, for batch_count a
`rocblas_int` and a size-query macro that never answers CONTINUE.  (1) Whenever
the validator returns `rocblas_status_continue`, `dev_bytes` is
4 * batch_count.  (2) Two calls with the same batch_count that both return
CONTINUE report the same `dev_bytes`, whatever their handle, uplo, transA,
diag, m, A, lda, B and incx.  (3) In size-query mode with valid enumerations
and sizes, m > 0, batch_count > 0 and non-null A and B, the one action is
`set_optimal_device_memory_size(4 * batch_count)`, whose status is returned.
(4) m = 10, lda = 10, incx = 1, batch_count = 3 outside size-query mode gives
CONTINUE with `dev_bytes` = 12. -/
theorem trsv_arg_check_dev_bytes {T : Type} (c : Collaborators T) (handle : rocblas_handle)
    (uplo : rocblas_fill) (transA : rocblas_operation) (diag : rocblas_diagonal)
    (m : Int) (A : Ptr) (lda : Int) (B : Ptr) (incx batch_count : Int) (dev_bytes : Nat)
    (handle2 : rocblas_handle) (uplo2 : rocblas_fill) (transA2 : rocblas_operation)
    (diag2 : rocblas_diagonal) (m2 : Int) (A2 : Ptr) (lda2 : Int) (B2 : Ptr) (incx2 : Int)
    (dev_bytes2 : Nat)
    (hbc : is_rocblas_int batch_count)
    (hquery : ∀ h, c.return_zero_device_memory_size h ≠ rocblas_status_continue) :
    (∀ r, rocblas_trsv_arg_check c handle uplo transA diag m A lda B incx batch_count dev_bytes
        = some r → r.status = rocblas_status_continue →
        (r.dev_bytes : Int) = 4 * batch_count)
    ∧ (∀ r r2,
        rocblas_trsv_arg_check c handle uplo transA diag m A lda B incx batch_count dev_bytes
          = some r →
        rocblas_trsv_arg_check c handle2 uplo2 transA2 diag2 m2 A2 lda2 B2 incx2 batch_count
          dev_bytes2 = some r2 →
        r.status = rocblas_status_continue → r2.status = rocblas_status_continue →
        r.dev_bytes = r2.dev_bytes)
    ∧ (∀ h, handle = some h → h.is_device_memory_size_query = true →
        (uplo = rocblas_fill_lower ∨ uplo = rocblas_fill_upper) →
        (transA = rocblas_operation_none ∨ transA = rocblas_operation_transpose
          ∨ transA = rocblas_operation_conjugate_transpose) →
        (diag = rocblas_diagonal_unit ∨ diag = rocblas_diagonal_non_unit) →
        0 < m → m ≤ lda → incx ≠ 0 → 0 < batch_count → A ≠ none → B ≠ none →
        rocblas_trsv_arg_check c handle uplo transA diag m A lda B incx batch_count dev_bytes
          = some ⟨c.set_optimal_device_memory_size h (4 * batch_count).toNat,
              (4 * batch_count).toNat,
              [Event.set_optimal_device_memory_size (4 * batch_count).toNat]⟩)
    ∧ (∀ h, handle = some h → h.is_device_memory_size_query = false →
        (uplo = rocblas_fill_lower ∨ uplo = rocblas_fill_upper) →
        (transA = rocblas_operation_none ∨ transA = rocblas_operation_transpose
          ∨ transA = rocblas_operation_conjugate_transpose) →
        (diag = rocblas_diagonal_unit ∨ diag = rocblas_diagonal_non_unit) →
        A ≠ none → B ≠ none →
        rocblas_trsv_arg_check c handle uplo transA diag 10 A 10 B 1 3 dev_bytes
          = some ⟨rocblas_status_continue, 12, []⟩) := by
  refine ⟨?_, ?_, ?_, ?_⟩
  · intro r hr hs
    obtain ⟨hpos, hdev⟩ := trsv_arg_check_continue_inv c handle uplo transA diag m A lda B incx
      batch_count dev_bytes hquery r hr hs
    rw [hdev]
    exact dev_bytes_exact batch_count (by omega) hbc
  · intro r r2 hr hr2 hs hs2
    rw [(trsv_arg_check_continue_inv c handle uplo transA diag m A lda B incx
        batch_count dev_bytes hquery r hr hs).2,
      (trsv_arg_check_continue_inv c handle2 uplo2 transA2 diag2 m2 A2 lda2 B2 incx2
        batch_count dev_bytes2 hquery r2 hr2 hs2).2]
  · intro h hh hq huplo htrans hdiag hm hlda hincx hpos hA hB
    have h1 : ¬ (uplo ≠ rocblas_fill_lower ∧ uplo ≠ rocblas_fill_upper) := by tauto
    have h2 : ¬ (transA ≠ rocblas_operation_none ∧ transA ≠ rocblas_operation_transpose
        ∧ transA ≠ rocblas_operation_conjugate_transpose) := by tauto
    have h3 : ¬ (diag ≠ rocblas_diagonal_unit ∧ diag ≠ rocblas_diagonal_non_unit) := by tauto
    have h4 : ¬ (m < 0 ∨ lda < m ∨ lda < 1 ∨ incx = 0 ∨ batch_count < 0) := by
      rintro (hh | hh | hh | hh | hh)
      · omega
      · omega
      · omega
      · exact hincx hh
      · omega
    have h5 : ¬ (m = 0 ∨ batch_count = 0) := by omega
    have h6 : ¬ (A = none ∨ B = none) := by tauto
    have hdev : mul_size_t sizeof_rocblas_int (to_size_t batch_count)
        = (4 * batch_count).toNat := by
      have := dev_bytes_exact batch_count (by omega) hbc
      omega
    subst hh
    unfold rocblas_trsv_arg_check
    rw [if_neg h1, if_neg h2, if_neg h3, if_neg h4, if_neg h5, if_neg h6]
    simp only [hq, if_true, hdev]
  · intro h hh hq huplo htrans hdiag hA hB
    have h1 : ¬ (uplo ≠ rocblas_fill_lower ∧ uplo ≠ rocblas_fill_upper) := by tauto
    have h2 : ¬ (transA ≠ rocblas_operation_none ∧ transA ≠ rocblas_operation_transpose
        ∧ transA ≠ rocblas_operation_conjugate_transpose) := by tauto
    have h3 : ¬ (diag ≠ rocblas_diagonal_unit ∧ diag ≠ rocblas_diagonal_non_unit) := by tauto
    have h6 : ¬ (A = none ∨ B = none) := by tauto
    subst hh
    unfold rocblas_trsv_arg_check
    rw [if_neg h1, if_neg h2, if_neg h3, if_neg (by decide), if_neg (by decide), if_neg h6]
    simp only [hq, Bool.false_eq_true, if_false]
    rfl

/-- C10, evaluated: m = 10, lda = 10, incx = 1, batch_count = 3 gives CONTINUE
with 12 bytes, and in size-query mode 12 bytes are reported to the handle. -/
theorem trsv_arg_check_dev_bytes_witness :
    is_rocblas_int 3
    ∧ ((12 : Nat) : Int) = 4 * 3
    ∧ rocblas_trsv_arg_check all_success (some plain_handle) rocblas_fill_lower
        rocblas_operation_none rocblas_diagonal_unit 10 (some 1) 10 (some 2) 1 3 77
      = some ⟨rocblas_status_continue, 12, []⟩
    ∧ rocblas_trsv_arg_check all_success (some ⟨0, 0, rocblas_pointer_mode_host, true⟩)
        rocblas_fill_lower rocblas_operation_none rocblas_diagonal_unit 10 (some 1) 10 (some 2)
        1 3 77
      = some ⟨rocblas_status_success, 12, [Event.set_optimal_device_memory_size 12]⟩ :=
  ⟨by decide,
   (trsv_arg_check_dev_bytes all_success (some plain_handle) rocblas_fill_lower
      rocblas_operation_none rocblas_diagonal_unit 10 (some 1) 10 (some 2) 1 3 77
      none rocblas_fill_upper rocblas_operation_none rocblas_diagonal_unit 5 none 5 none 1 0
      (by decide) (fun _ => by simp [all_success])).1 ⟨rocblas_status_continue, 12, []⟩ rfl rfl,
   (trsv_arg_check_dev_bytes all_success (some plain_handle) rocblas_fill_lower
      rocblas_operation_none rocblas_diagonal_unit 10 (some 1) 10 (some 2) 1 3 77
      none rocblas_fill_upper rocblas_operation_none rocblas_diagonal_unit 5 none 5 none 1 0
      (by decide) (fun _ => by simp [all_success])).2.2.2 plain_handle rfl rfl
      (Or.inl rfl) (Or.inl rfl) (Or.inl rfl) (by decide) (by decide),
   (trsv_arg_check_dev_bytes all_success (some ⟨0, 0, rocblas_pointer_mode_host, true⟩)
      rocblas_fill_lower rocblas_operation_none rocblas_diagonal_unit 10 (some 1) 10 (some 2)
      1 3 77
      none rocblas_fill_upper rocblas_operation_none rocblas_diagonal_unit 5 none 5 none 1 0
      (by decide) (fun _ => by simp [all_success])).2.2.1 ⟨0, 0, rocblas_pointer_mode_host, true⟩ rfl rfl
      (Or.inl rfl) (Or.inl rfl) (Or.inl rfl) (by decide) (by decide) (by decide) (by decide)
      (by decide) (by decide)⟩

/-! ## Auxiliary facts on action lists -/

/-- Log records hold no call of a library function. -/
theorem calls_of_of_is_log {T : Type} (f : Callee) (ev : List (Event T))
    (h : ∀ e ∈ ev, e.is_log = true) : calls_of f ev = [] := by
  unfold calls_of
  rw [List.filterMap_eq_nil_iff]
  intro e he
  have := h e he
  cases e <;> simp [Event.is_log] at this ⊢

/-- Log records hold no `device_malloc` request. -/
theorem device_malloc_requests_of_is_log {T : Type} (ev : List (Event T))
    (h : ∀ e ∈ ev, e.is_log = true) : device_malloc_requests ev = [] := by
  unfold device_malloc_requests
  rw [List.filterMap_eq_nil_iff]
  intro e he
  have := h e he
  cases e <;> simp [Event.is_log] at this ⊢

/-- The calls in a concatenation of action lists. -/
theorem calls_of_append {T : Type} (f : Callee) (ev1 ev2 : List (Event T)) :
    calls_of f (ev1 ++ ev2) = calls_of f ev1 ++ calls_of f ev2 := by
  unfold calls_of
  exact List.filterMap_append _ _ _

/-- The allocation requests in a concatenation of action lists. -/
theorem device_malloc_requests_append {T : Type} (ev1 ev2 : List (Event T)) :
    device_malloc_requests (ev1 ++ ev2) = device_malloc_requests ev1 ++ device_malloc_requests ev2 := by
  unfold device_malloc_requests
  exact List.filterMap_append _ _ _

/-- An action list without calls of `f` does not invoke `f`. -/
theorem not_invokes_of_calls_of_eq_nil {T : Type} (f : Callee) (ev : List (Event T))
    (h : calls_of f ev = []) : ¬ invokes f ev := by
  rintro ⟨args, hmem⟩
  unfold calls_of at h
  rw [List.filterMap_eq_nil_iff] at h
  have := h _ hmem
  simp at this

/-- Lines 45-122 of trmv_strided_batched emit log records only. -/
theorem trmv_strided_batched_logging_is_log {T : Type} (p : rocblas_precision)
    (h : _rocblas_handle) (uplo : rocblas_fill) (transa : rocblas_operation)
    (diag : rocblas_diagonal) (m : Int) (a : Ptr) (lda stridea : Int) (x : Ptr)
    (incx stridex batch_count : Int) :
    ∀ e ∈ (trmv_strided_batched_logging p h uplo transa diag m a lda stridea x incx stridex
      batch_count : List (Event T)), e.is_log = true := by
  unfold trmv_strided_batched_logging
  simp only []
  split_ifs <;> simp [Event.is_log]

/-! ## Size queries -/

/-- C11 as stated fails: in size-query mode, with valid enumerations and sizes
(m = lda = 10, incx = 1, batch_count = 3), a call of `rocblas_trsv_arg_check`
with null A and null B is rejected by line 43 before the query is looked at:
it returns `rocblas_status_invalid_pointer`, reports nothing to the handle and
leaves `dev_bytes` as it was. -/
theorem trsv_arg_check_size_query_null_operands_rejected :
    size_query_handle.is_device_memory_size_query = true
    ∧ rocblas_trsv_arg_check all_success (some size_query_handle) rocblas_fill_lower
        rocblas_operation_none rocblas_diagonal_unit 10 none 10 none 1 3 77
      = some ⟨rocblas_status_invalid_pointer, 77, []⟩
    ∧ rocblas_trsv_arg_check all_success (some size_query_handle) rocblas_fill_lower
        rocblas_operation_none rocblas_diagonal_unit 10 none 10 none 1 3 77
      ≠ some ⟨rocblas_status_success, 12, [Event.set_optimal_device_memory_size 12]⟩ := by
  refine ⟨rfl, by decide, by decide⟩

/-- C11, amended: for `rocblas_trsv_arg_check` with the handle in size-query
mode, valid uplo, transA and diag, valid sizes, m > 0 and batch_count > 0 (a
`rocblas_int`): (i) a call with a null A or a null B returns
`rocblas_status_invalid_pointer`, reports nothing to the handle and does not
write `dev_bytes`; (ii) a call with non-null A and B reports the required-bytes
value 4 * batch_count (which is positive) to the handle through
`set_optimal_device_memory_size`, does nothing else, and returns the status
of that request, hence SUCCESS when the request answers SUCCESS. -/
theorem trsv_arg_check_size_query {T : Type} (c : Collaborators T) (h : _rocblas_handle)
    (uplo : rocblas_fill) (transA : rocblas_operation) (diag : rocblas_diagonal)
    (m : Int) (A : Ptr) (lda : Int) (B : Ptr) (incx batch_count : Int) (dev_bytes : Nat)
    (hq : h.is_device_memory_size_query = true)
    (huplo : uplo = rocblas_fill_lower ∨ uplo = rocblas_fill_upper)
    (htrans : transA = rocblas_operation_none ∨ transA = rocblas_operation_transpose
      ∨ transA = rocblas_operation_conjugate_transpose)
    (hdiag : diag = rocblas_diagonal_unit ∨ diag = rocblas_diagonal_non_unit)
    (hm : 0 < m) (hlda : m ≤ lda) (hincx : incx ≠ 0) (hbc : 0 < batch_count)
    (hint : is_rocblas_int batch_count) :
    ((A = none ∨ B = none) →
      rocblas_trsv_arg_check c (some h) uplo transA diag m A lda B incx batch_count dev_bytes
        = some ⟨rocblas_status_invalid_pointer, dev_bytes, []⟩)
    ∧ (A ≠ none → B ≠ none →
      rocblas_trsv_arg_check c (some h) uplo transA diag m A lda B incx batch_count dev_bytes
          = some ⟨c.set_optimal_device_memory_size h (4 * batch_count).toNat,
              (4 * batch_count).toNat,
              [Event.set_optimal_device_memory_size (4 * batch_count).toNat]⟩
        ∧ 0 < (4 * batch_count).toNat
        ∧ (c.set_optimal_device_memory_size h (4 * batch_count).toNat = rocblas_status_success →
            rocblas_trsv_arg_check c (some h) uplo transA diag m A lda B incx batch_count
              dev_bytes
            = some ⟨rocblas_status_success, (4 * batch_count).toNat,
                [Event.set_optimal_device_memory_size (4 * batch_count).toNat]⟩)) := by
  have h1 : ¬ (uplo ≠ rocblas_fill_lower ∧ uplo ≠ rocblas_fill_upper) := by tauto
  have h2 : ¬ (transA ≠ rocblas_operation_none ∧ transA ≠ rocblas_operation_transpose
      ∧ transA ≠ rocblas_operation_conjugate_transpose) := by tauto
  have h3 : ¬ (diag ≠ rocblas_diagonal_unit ∧ diag ≠ rocblas_diagonal_non_unit) := by tauto
  have h4 : ¬ (m < 0 ∨ lda < m ∨ lda < 1 ∨ incx = 0 ∨ batch_count < 0) := by
    rintro (hh | hh | hh | hh | hh)
    · omega
    · omega
    · omega
    · exact hincx hh
    · omega
  have h5 : ¬ (m = 0 ∨ batch_count = 0) := by omega
  refine ⟨?_, ?_⟩
  · intro hnull
    unfold rocblas_trsv_arg_check
    rw [if_neg h1, if_neg h2, if_neg h3, if_neg h4, if_neg h5, if_pos hnull]
  · intro hA hB
    have h6 : ¬ (A = none ∨ B = none) := by tauto
    have hdev : mul_size_t sizeof_rocblas_int (to_size_t batch_count)
        = (4 * batch_count).toNat := by
      have := dev_bytes_exact batch_count (by omega) hint
      omega
    have heq : rocblas_trsv_arg_check c (some h) uplo transA diag m A lda B incx batch_count
        dev_bytes = some ⟨c.set_optimal_device_memory_size h (4 * batch_count).toNat,
              (4 * batch_count).toNat,
              [Event.set_optimal_device_memory_size (4 * batch_count).toNat]⟩ := by
      unfold rocblas_trsv_arg_check
      rw [if_neg h1, if_neg h2, if_neg h3, if_neg h4, if_neg h5, if_neg h6]
      simp only [hq, if_true, hdev]
    refine ⟨heq, by omega, ?_⟩
    intro hs
    rw [heq, hs]

/-- C11 amended, evaluated: batch_count = 3 in size-query mode, once with a
null B and once with both operands present. -/
theorem trsv_arg_check_size_query_witness :
    rocblas_trsv_arg_check all_success (some size_query_handle) rocblas_fill_upper
        rocblas_operation_transpose rocblas_diagonal_non_unit 10 (some 1) 10 none 1 3 77
      = some ⟨rocblas_status_invalid_pointer, 77, []⟩
    ∧ rocblas_trsv_arg_check all_success (some size_query_handle) rocblas_fill_upper
        rocblas_operation_transpose rocblas_diagonal_non_unit 10 (some 1) 10 (some 2) 1 3 77
      = some ⟨rocblas_status_success, 12, [Event.set_optimal_device_memory_size 12]⟩ :=
  ⟨(trsv_arg_check_size_query all_success size_query_handle rocblas_fill_upper
      rocblas_operation_transpose rocblas_diagonal_non_unit 10 (some 1) 10 none 1 3 77 rfl
      (Or.inr rfl) (Or.inr (Or.inl rfl)) (Or.inr rfl) (by decide) (by decide) (by decide)
      (by decide) (by decide)).1 (Or.inr rfl),
   ((trsv_arg_check_size_query all_success size_query_handle rocblas_fill_upper
      rocblas_operation_transpose rocblas_diagonal_non_unit 10 (some 1) 10 (some 2) 1 3 77 rfl
      (Or.inr rfl) (Or.inr (Or.inl rfl)) (Or.inr rfl) (by decide) (by decide) (by decide)
      (by decide) (by decide)).2 (by decide) (by decide)).2.2 rfl⟩

/-- C12 as stated fails: `rocblas_gbmv_impl` answers the size query at line 38,
before any validation.  With the handle in size-query mode a call with an
invalid transA and a call with a valid transA and m = -1 both end in the macro
`RETURN_ZERO_DEVICE_MEMORY_SIZE_IF_QUERIED`; as both get the macro's answer
for that handle, no behaviour of the macro makes the first
`rocblas_status_invalid_value` and the second `rocblas_status_invalid_size`. -/
theorem gbmv_size_query_skips_validation :
    rocblas_gbmv_impl all_success rocblas_precision.float (some size_query_handle)
        (rocblas_operation.invalid 0) 3 3 1 1 (some 1) (some 4) 3 (some 5) 1 (some 1) (some 6) 1
      = ⟨rocblas_status_success, [Event.return_zero_device_memory_size]⟩
    ∧ rocblas_gbmv_impl all_success rocblas_precision.float (some size_query_handle)
        rocblas_operation_none (-1) 3 1 1 (some 1) (some 4) 3 (some 5) 1 (some 1) (some 6) 1
      = ⟨rocblas_status_success, [Event.return_zero_device_memory_size]⟩
    ∧ ¬ ∃ c : Collaborators ℚ,
        (rocblas_gbmv_impl c rocblas_precision.float (some size_query_handle)
          (rocblas_operation.invalid 0) 3 3 1 1 (some 1) (some 4) 3 (some 5) 1 (some 1)
          (some 6) 1).status = rocblas_status_invalid_value
        ∧ (rocblas_gbmv_impl c rocblas_precision.float (some size_query_handle)
          rocblas_operation_none (-1) 3 1 1 (some 1) (some 4) 3 (some 5) 1 (some 1)
          (some 6) 1).status = rocblas_status_invalid_size := by
  refine ⟨by decide, by decide, ?_⟩
  rintro ⟨c, h1, h2⟩
  have e1 : (rocblas_gbmv_impl c rocblas_precision.float (some size_query_handle)
          (rocblas_operation.invalid 0) 3 3 1 1 (some 1) (some 4) 3 (some 5) 1 (some 1)
          (some 6) 1).status = c.return_zero_device_memory_size size_query_handle := rfl
  have e2 : (rocblas_gbmv_impl c rocblas_precision.float (some size_query_handle)
          rocblas_operation_none (-1) 3 1 1 (some 1) (some 4) 3 (some 5) 1 (some 1)
          (some 6) 1).status = c.return_zero_device_memory_size size_query_handle := rfl
  rw [e1] at h1
  rw [e2, h1] at h2
  cases h2

/-- C12, amended: in `rocblas_gbmv_impl` the size-query short-circuit of line
38 precedes validation.  With a non-null handle in size-query mode every call,
whatever its transA and sizes, is answered by
`RETURN_ZERO_DEVICE_MEMORY_SIZE_IF_QUERIED` and does nothing else (no log
record, no validation).  With the handle outside size-query mode an invalid
transA yields `rocblas_status_invalid_value`, and with a valid transA an
invalid size (m < 0, n < 0, lda < kl + ku + 1 with the sum a `rocblas_int`,
incx = 0, incy = 0, kl < 0 or ku < 0) yields `rocblas_status_invalid_size`. -/
theorem gbmv_size_query_then_validation {T : Type} [HostScalar T] (c : Collaborators T)
    (p : rocblas_precision) (h : _rocblas_handle) (transA : rocblas_operation)
    (m n kl ku : Int) (alpha : Option T) (A : Ptr) (lda : Int) (x : Ptr) (incx : Int)
    (beta : Option T) (y : Ptr) (incy : Int) :
    (h.is_device_memory_size_query = true →
      rocblas_gbmv_impl c p (some h) transA m n kl ku alpha A lda x incx beta y incy
        = ⟨c.return_zero_device_memory_size h, [Event.return_zero_device_memory_size]⟩)
    ∧ (h.is_device_memory_size_query = false →
      (transA ≠ rocblas_operation_none ∧ transA ≠ rocblas_operation_transpose
        ∧ transA ≠ rocblas_operation_conjugate_transpose) →
      (rocblas_gbmv_impl c p (some h) transA m n kl ku alpha A lda x incx beta y incy).status
        = rocblas_status_invalid_value)
    ∧ (h.is_device_memory_size_query = false →
      (transA = rocblas_operation_none ∨ transA = rocblas_operation_transpose
        ∨ transA = rocblas_operation_conjugate_transpose) →
      is_rocblas_int (kl + ku + 1) →
      (m < 0 ∨ n < 0 ∨ lda < kl + ku + 1 ∨ incx = 0 ∨ incy = 0 ∨ kl < 0 ∨ ku < 0) →
      (rocblas_gbmv_impl c p (some h) transA m n kl ku alpha A lda x incx beta y incy).status
        = rocblas_status_invalid_size) := by
  refine ⟨?_, ?_, ?_⟩
  · intro hq
    simp only [rocblas_gbmv_impl, hq, if_true]
  · intro hq hbad
    simp only [rocblas_gbmv_impl, hq, Bool.false_eq_true, if_false]
    rw [if_pos hbad]
  · intro hq htrans hsum hsize
    have h2 : ¬ (transA ≠ rocblas_operation_none ∧ transA ≠ rocblas_operation_transpose
        ∧ transA ≠ rocblas_operation_conjugate_transpose) := by tauto
    have h3 : m < 0 ∨ n < 0 ∨ lda < add32 (add32 kl ku) 1 ∨ incx = 0 ∨ incy = 0
        ∨ kl < 0 ∨ ku < 0 := by
      rw [add32_add32_one_exact kl ku hsum]; exact hsize
    simp only [rocblas_gbmv_impl, hq, Bool.false_eq_true, if_false]
    rw [if_neg h2, if_pos h3]

/-- C12 amended, evaluated: n = -1 in size-query mode, an invalid
transA outside it, and n = -1 outside it. -/
theorem gbmv_size_query_then_validation_witness :
    rocblas_gbmv_impl all_success rocblas_precision.float (some size_query_handle)
        rocblas_operation.rocblas_operation_none 3 (-1) 1 1 none none 3 none 1 none none 1
      = ⟨rocblas_status_success, [Event.return_zero_device_memory_size]⟩
    ∧ (rocblas_gbmv_impl all_success rocblas_precision.float (some plain_handle)
        (rocblas_operation.invalid 0) 3 (-1) 1 1 none none 3 none 1 none none 1).status
      = rocblas_status_invalid_value
    ∧ (rocblas_gbmv_impl all_success rocblas_precision.float (some plain_handle)
        rocblas_operation.rocblas_operation_none 3 (-1) 1 1 none none 3 none 1 none none 1).status
      = rocblas_status_invalid_size :=
  ⟨(gbmv_size_query_then_validation all_success rocblas_precision.float size_query_handle
      rocblas_operation.rocblas_operation_none 3 (-1) 1 1 none none 3 none 1 none none 1).1 rfl,
   (gbmv_size_query_then_validation all_success rocblas_precision.float plain_handle
      (rocblas_operation.invalid 0) 3 (-1) 1 1 none none 3 none 1 none none 1).2.1 rfl
      (by decide),
   (gbmv_size_query_then_validation all_success rocblas_precision.float plain_handle
      rocblas_operation.rocblas_operation_none 3 (-1) 1 1 none none 3 none 1 none none 1).2.2 rfl
      (Or.inl rfl) (by decide) (Or.inr (Or.inl (by decide)))⟩

/-! ## The stages of trmv_strided_batched -/

/-- The log records `rocblas_trmv_strided_batched_impl` emits before it
validates: those of lines 45-122 outside size-query mode, none inside. -/
theorem trmv_strided_batched_prologue_is_log {T : Type} (p : rocblas_precision)
    (h : _rocblas_handle) (uplo : rocblas_fill) (transa : rocblas_operation)
    (diag : rocblas_diagonal) (m : Int) (a : Ptr) (lda stridea : Int) (x : Ptr)
    (incx stridex batch_count : Int) :
    ∀ e ∈ (if ¬ h.is_device_memory_size_query = true then
        (trmv_strided_batched_logging p h uplo transa diag m a lda stridea x incx stridex
          batch_count : List (Event T))
      else []), e.is_log = true := by
  split_ifs
  · simp
  · exact trmv_strided_batched_logging_is_log p h uplo transa diag m a lda stridea x incx
      stridex batch_count

/-- C13: in `rocblas_trmv_strided_batched_impl` with a non-null handle, every
status other than `rocblas_status_continue` that `rocblas_trmv_arg_check`
returns is returned as it is; the validator is called once, and there is no
`device_malloc` request, no numeric check and no kernel template call. -/
theorem trmv_strided_batched_validator_status_returned {T : Type} (c : Collaborators T)
    (p : rocblas_precision) (h : _rocblas_handle) (uplo : rocblas_fill)
    (transa : rocblas_operation) (diag : rocblas_diagonal) (m : Int) (a : Ptr)
    (lda stridea : Int) (x : Ptr) (incx stridex batch_count : Int) (dev_bytes : Nat)
    (hs : (c.rocblas_trmv_arg_check
        (trmv_arg_check_args h uplo transa diag m a lda x incx batch_count) dev_bytes).1
      ≠ rocblas_status_continue) :
    (rocblas_trmv_strided_batched_impl c p (some h) uplo transa diag m a lda stridea x incx
        stridex batch_count dev_bytes).status
      = (c.rocblas_trmv_arg_check
          (trmv_arg_check_args h uplo transa diag m a lda x incx batch_count) dev_bytes).1
    ∧ calls_of Callee.rocblas_trmv_arg_check
        (rocblas_trmv_strided_batched_impl c p (some h) uplo transa diag m a lda stridea x incx
          stridex batch_count dev_bytes).events
      = [trmv_arg_check_args h uplo transa diag m a lda x incx batch_count]
    ∧ device_malloc_requests
        (rocblas_trmv_strided_batched_impl c p (some h) uplo transa diag m a lda stridea x incx
          stridex batch_count dev_bytes).events = []
    ∧ ¬ invokes Callee.rocblas_trmv_check_numerics
        (rocblas_trmv_strided_batched_impl c p (some h) uplo transa diag m a lda stridea x incx
          stridex batch_count dev_bytes).events
    ∧ ¬ invokes Callee.rocblas_internal_trmv_template
        (rocblas_trmv_strided_batched_impl c p (some h) uplo transa diag m a lda stridea x incx
          stridex batch_count dev_bytes).events := by
  have hlog := trmv_strided_batched_prologue_is_log (T := T) p h uplo transa diag m a lda
    stridea x incx stridex batch_count
  have heq : rocblas_trmv_strided_batched_impl c p (some h) uplo transa diag m a lda stridea x
      incx stridex batch_count dev_bytes
      = ⟨(c.rocblas_trmv_arg_check
            (trmv_arg_check_args h uplo transa diag m a lda x incx batch_count) dev_bytes).1,
          (if ¬ h.is_device_memory_size_query = true then
              trmv_strided_batched_logging p h uplo transa diag m a lda stridea x incx stridex
                batch_count
            else [])
          ++ [Event.call Callee.rocblas_trmv_arg_check
                (trmv_arg_check_args h uplo transa diag m a lda x incx batch_count)]⟩ := by
    simp only [rocblas_trmv_strided_batched_impl]
    rw [if_pos hs]
  rw [heq]
  have hc : ∀ f, calls_of f
      ((if ¬ h.is_device_memory_size_query = true then
              (trmv_strided_batched_logging p h uplo transa diag m a lda stridea x incx stridex
                batch_count : List (Event T))
            else [])
          ++ [Event.call Callee.rocblas_trmv_arg_check
                (trmv_arg_check_args h uplo transa diag m a lda x incx batch_count)])
      = calls_of f [Event.call Callee.rocblas_trmv_arg_check
                (trmv_arg_check_args h uplo transa diag m a lda x incx batch_count)] := by
    intro f
    rw [calls_of_append, calls_of_of_is_log f _ hlog, List.nil_append]
  refine ⟨rfl, ?_, ?_, ?_, ?_⟩
  · rw [hc]; simp [calls_of]
  · rw [device_malloc_requests_append, device_malloc_requests_of_is_log _ hlog]
    simp [device_malloc_requests]
  · apply not_invokes_of_calls_of_eq_nil
    rw [hc]; simp [calls_of]
  · apply not_invokes_of_calls_of_eq_nil
    rw [hc]; simp [calls_of]

/-- C13, evaluated: the validator answers `rocblas_status_invalid_size`. -/
theorem trmv_strided_batched_validator_status_returned_witness :
    (rocblas_trmv_strided_batched_impl
        (fixed_answers rocblas_status_success (rocblas_status_invalid_size, 0) (some 4096)
          rocblas_status_success rocblas_status_success)
        rocblas_precision.float (some plain_handle) rocblas_fill_lower rocblas_operation_none
        rocblas_diagonal_unit (-1) none 0 0 none 0 0 (-1) 77).status
      = rocblas_status_invalid_size :=
  (trmv_strided_batched_validator_status_returned
    (fixed_answers rocblas_status_success (rocblas_status_invalid_size, 0) (some 4096)
      rocblas_status_success rocblas_status_success)
    rocblas_precision.float plain_handle rocblas_fill_lower rocblas_operation_none
    rocblas_diagonal_unit (-1) none 0 0 none 0 0 (-1) 77 (by decide)).1

/-- C14: in `rocblas_trmv_strided_batched_impl` with a non-null handle, when
`rocblas_trmv_arg_check` returns `rocblas_status_continue` the call makes
exactly one `device_malloc` request, for the `dev_bytes` value the validator
left; if that request yields no workspace the call returns
`rocblas_status_memory_error` and calls neither the numeric checker nor the
kernel template. -/
theorem trmv_strided_batched_single_allocation {T : Type} (c : Collaborators T)
    (p : rocblas_precision) (h : _rocblas_handle) (uplo : rocblas_fill)
    (transa : rocblas_operation) (diag : rocblas_diagonal) (m : Int) (a : Ptr)
    (lda stridea : Int) (x : Ptr) (incx stridex batch_count : Int) (dev_bytes : Nat)
    (hs : (c.rocblas_trmv_arg_check
        (trmv_arg_check_args h uplo transa diag m a lda x incx batch_count) dev_bytes).1
      = rocblas_status_continue) :
    device_malloc_requests
        (rocblas_trmv_strided_batched_impl c p (some h) uplo transa diag m a lda stridea x incx
          stridex batch_count dev_bytes).events
      = [(c.rocblas_trmv_arg_check
          (trmv_arg_check_args h uplo transa diag m a lda x incx batch_count) dev_bytes).2]
    ∧ (c.device_malloc h (c.rocblas_trmv_arg_check
          (trmv_arg_check_args h uplo transa diag m a lda x incx batch_count) dev_bytes).2
        = none →
      (rocblas_trmv_strided_batched_impl c p (some h) uplo transa diag m a lda stridea x incx
          stridex batch_count dev_bytes).status = rocblas_status_memory_error
      ∧ ¬ invokes Callee.rocblas_trmv_check_numerics
          (rocblas_trmv_strided_batched_impl c p (some h) uplo transa diag m a lda stridea x
            incx stridex batch_count dev_bytes).events
      ∧ ¬ invokes Callee.rocblas_internal_trmv_template
          (rocblas_trmv_strided_batched_impl c p (some h) uplo transa diag m a lda stridea x
            incx stridex batch_count dev_bytes).events) := by
  have hlog := trmv_strided_batched_prologue_is_log (T := T) p h uplo transa diag m a lda
    stridea x incx stridex batch_count
  have hs' : ¬ (c.rocblas_trmv_arg_check
        (trmv_arg_check_args h uplo transa diag m a lda x incx batch_count) dev_bytes).1
      ≠ rocblas_status_continue := by simp [hs]
  simp only [rocblas_trmv_strided_batched_impl, trmv_strided_batched_launch]
  rw [if_neg hs']
  generalize (if ¬ h.is_device_memory_size_query = true then
      (trmv_strided_batched_logging p h uplo transa diag m a lda stridea x incx stridex
        batch_count : List (Event T)) else []) = log at hlog ⊢
  have hm := device_malloc_requests_of_is_log log hlog
  have hc := fun f => calls_of_of_is_log f log hlog
  refine ⟨?_, ?_⟩
  · split_ifs <;>
      simp [device_malloc_requests_append, hm] <;> simp [device_malloc_requests]
  · intro hw
    rw [if_pos hw]
    refine ⟨rfl, ?_, ?_⟩
    · apply not_invokes_of_calls_of_eq_nil
      simp [calls_of_append, hc]; simp [calls_of]
    · apply not_invokes_of_calls_of_eq_nil
      simp [calls_of_append, hc]; simp [calls_of]

/-- C14, evaluated: the validator asks for 12 bytes and `device_malloc` yields
nothing. -/
theorem trmv_strided_batched_single_allocation_witness :
    device_malloc_requests
        (rocblas_trmv_strided_batched_impl
          (fixed_answers rocblas_status_success (rocblas_status_continue, 12) none
            rocblas_status_success rocblas_status_success)
          rocblas_precision.float (some plain_handle) rocblas_fill_lower rocblas_operation_none
          rocblas_diagonal_unit 10 (some 1) 10 100 (some 2) 1 10 3 77).events = [12]
    ∧ (rocblas_trmv_strided_batched_impl
          (fixed_answers rocblas_status_success (rocblas_status_continue, 12) none
            rocblas_status_success rocblas_status_success)
          rocblas_precision.float (some plain_handle) rocblas_fill_lower rocblas_operation_none
          rocblas_diagonal_unit 10 (some 1) 10 100 (some 2) 1 10 3 77).status
        = rocblas_status_memory_error :=
  ⟨(trmv_strided_batched_single_allocation
      (fixed_answers rocblas_status_success (rocblas_status_continue, 12) none
        rocblas_status_success rocblas_status_success)
      rocblas_precision.float plain_handle rocblas_fill_lower rocblas_operation_none
      rocblas_diagonal_unit 10 (some 1) 10 100 (some 2) 1 10 3 77 rfl).1,
   ((trmv_strided_batched_single_allocation
      (fixed_answers rocblas_status_success (rocblas_status_continue, 12) none
        rocblas_status_success rocblas_status_success)
      rocblas_precision.float plain_handle rocblas_fill_lower rocblas_operation_none
      rocblas_diagonal_unit 10 (some 1) 10 100 (some 2) 1 10 3 77 rfl).2 rfl).1⟩

/-! ## The execution stage -/

/-- The actions of gbmv up to line 131 hold no call of a library function. -/
theorem calls_of_gbmv_validation_events {T : Type} [HostScalar T] (f : Callee)
    (p : rocblas_precision) (h : _rocblas_handle) (transA : rocblas_operation)
    (m n kl ku : Int) (a : T) (A : Ptr) (lda : Int) (x : Ptr) (incx : Int) (b : T) (y : Ptr)
    (incy : Int) :
    calls_of f (gbmv_validation_events p h transA m n kl ku a A lda x incx b y incy) = [] := by
  unfold gbmv_validation_events
  rw [calls_of_append, calls_of_of_is_log f _
    (gbmv_logging_is_log p h transA m n kl ku (some a) A lda x incx (some b) y incy)]
  split_ifs <;> simp [calls_of]

/-- A call of `rocblas_gbmv_impl` that reaches the execution stage is the stage
of lines 133-215 run after the actions of lines 40-131. -/
theorem gbmv_impl_of_reaches_execution {T : Type} [HostScalar T] (c : Collaborators T)
    (p : rocblas_precision) (h : _rocblas_handle) (transA : rocblas_operation)
    (m n kl ku : Int) (a : T) (A : Ptr) (lda : Int) (x : Ptr) (incx : Int) (b : T) (y : Ptr)
    (incy : Int)
    (hr : gbmv_reaches_execution h transA m n kl ku a A lda x incx b y incy) :
    rocblas_gbmv_impl c p (some h) transA m n kl ku (some a) A lda x incx (some b) y incy
      = gbmv_from_y c p h transA m n kl ku (some a) A lda x incx (some b) y incy
          (gbmv_validation_events p h transA m n kl ku a A lda x incx b y incy) := by
  obtain ⟨hq, htrans, hm, hn, hlda, hincx, hincy, hkl, hku, hfast, hAx, -⟩ := hr
  have h2 : ¬ (transA ≠ rocblas_operation_none ∧ transA ≠ rocblas_operation_transpose
      ∧ transA ≠ rocblas_operation_conjugate_transpose) := by tauto
  have h4 : ¬ (m < 0 ∨ n < 0 ∨ lda < add32 (add32 kl ku) 1 ∨ incx = 0 ∨ incy = 0
      ∨ kl < 0 ∨ ku < 0) := by
    rintro (hh | hh | hh | hh | hh | hh | hh)
    · omega
    · omega
    · omega
    · exact hincx hh
    · exact hincy hh
    · omega
    · omega
  have h5 : ¬ (m = 0 ∨ n = 0) := by omega
  simp only [rocblas_gbmv_impl, hq, Bool.false_eq_true, if_false, gbmv_validation_events]
  rw [if_neg h2, if_neg h4, if_neg h5]
  by_cases hhost : h.pointer_mode = rocblas_pointer_mode_host
  · by_cases ha : HostScalar.is_zero a = true
    · have hb : ¬ HostScalar.eq_one b = true := fun hb => hfast ⟨hhost, ha, hb⟩
      simp [hhost, ha, hb]
    · have hAx' : ¬ (A = none ∨ x = none) := by
        rcases hAx with hh | hh
        · exact absurd hh.2 ha
        · tauto
      simp [hhost, ha, hAx']
  · have hAx' : ¬ (A = none ∨ x = none) := by
      rcases hAx with hh | hh
      · exact absurd hh.1 hhost
      · tauto
    simp [hhost, hAx']

/-- C15: the numeric check of the input aborts the call.  With
`handle->check_numerics` non-zero: (a) a call of `rocblas_gbmv_impl` that has
passed validation and whose input check (`is_input = true`) returns a status
other than `rocblas_status_success` returns that status, after exactly that one
checker call and without any call of the kernel template; (b) the same holds
for `rocblas_trmv_strided_batched_impl` once `rocblas_trmv_arg_check` has
returned CONTINUE and `device_malloc` has yielded a workspace. -/
theorem input_numeric_check_aborts {T : Type} [HostScalar T] (c : Collaborators T)
    (p : rocblas_precision) (h : _rocblas_handle) (transA : rocblas_operation)
    (m n kl ku : Int) (a : T) (A : Ptr) (lda : Int) (x : Ptr) (incx : Int) (b : T) (y : Ptr)
    (incy : Int) (uplo : rocblas_fill) (transa : rocblas_operation) (diag : rocblas_diagonal)
    (m1 : Int) (a1 : Ptr) (lda1 stridea : Int) (x1 : Ptr) (incx1 stridex batch_count : Int)
    (dev_bytes : Nat) (workspace : Nat)
    (hcn : h.check_numerics ≠ 0) :
    (gbmv_reaches_execution h transA m n kl ku a A lda x incx b y incy →
      c.rocblas_gbmv_check_numerics
          (gbmv_check_numerics_args p h transA m n A lda x incx y incy h.check_numerics true)
        ≠ rocblas_status_success →
      (rocblas_gbmv_impl c p (some h) transA m n kl ku (some a) A lda x incx (some b) y
          incy).status
        = c.rocblas_gbmv_check_numerics
            (gbmv_check_numerics_args p h transA m n A lda x incx y incy h.check_numerics true)
      ∧ calls_of Callee.rocblas_gbmv_check_numerics
          (rocblas_gbmv_impl c p (some h) transA m n kl ku (some a) A lda x incx (some b) y
            incy).events
        = [gbmv_check_numerics_args p h transA m n A lda x incx y incy h.check_numerics true]
      ∧ ¬ invokes Callee.rocblas_gbmv_template
          (rocblas_gbmv_impl c p (some h) transA m n kl ku (some a) A lda x incx (some b) y
            incy).events)
    ∧ ((c.rocblas_trmv_arg_check
          (trmv_arg_check_args h uplo transa diag m1 a1 lda1 x1 incx1 batch_count) dev_bytes).1
        = rocblas_status_continue →
      c.device_malloc h (c.rocblas_trmv_arg_check
          (trmv_arg_check_args h uplo transa diag m1 a1 lda1 x1 incx1 batch_count) dev_bytes).2
        = some workspace →
      c.rocblas_trmv_check_numerics
          (trmv_check_numerics_args p h m1 a1 lda1 stridea x1 incx1 stridex batch_count
            h.check_numerics true)
        ≠ rocblas_status_success →
      (rocblas_trmv_strided_batched_impl c p (some h) uplo transa diag m1 a1 lda1 stridea x1
          incx1 stridex batch_count dev_bytes).status
        = c.rocblas_trmv_check_numerics
            (trmv_check_numerics_args p h m1 a1 lda1 stridea x1 incx1 stridex batch_count
              h.check_numerics true)
      ∧ calls_of Callee.rocblas_trmv_check_numerics
          (rocblas_trmv_strided_batched_impl c p (some h) uplo transa diag m1 a1 lda1 stridea
            x1 incx1 stridex batch_count dev_bytes).events
        = [trmv_check_numerics_args p h m1 a1 lda1 stridea x1 incx1 stridex batch_count
            h.check_numerics true]
      ∧ ¬ invokes Callee.rocblas_internal_trmv_template
          (rocblas_trmv_strided_batched_impl c p (some h) uplo transa diag m1 a1 lda1 stridea
            x1 incx1 stridex batch_count dev_bytes).events) := by
  refine ⟨?_, ?_⟩
  · intro hr hbad
    have hy : ¬ y = none := hr.2.2.2.2.2.2.2.2.2.2.2
    have hpre := fun f => calls_of_gbmv_validation_events f p h transA m n kl ku a A lda x
      incx b y incy
    rw [gbmv_impl_of_reaches_execution c p h transA m n kl ku a A lda x incx b y incy hr]
    simp only [gbmv_from_y]
    rw [if_neg hy, if_pos hcn, if_pos hbad]
    refine ⟨rfl, ?_, ?_⟩
    · simp [calls_of_append, hpre]; simp [calls_of]
    · apply not_invokes_of_calls_of_eq_nil
      simp [calls_of_append, hpre]; simp [calls_of]
  · intro hs hw hbad
    have hlog := trmv_strided_batched_prologue_is_log (T := T) p h uplo transa diag m1 a1 lda1
      stridea x1 incx1 stridex batch_count
    have hs' : ¬ (c.rocblas_trmv_arg_check
          (trmv_arg_check_args h uplo transa diag m1 a1 lda1 x1 incx1 batch_count) dev_bytes).1
        ≠ rocblas_status_continue := by simp [hs]
    have hw' : ¬ c.device_malloc h (c.rocblas_trmv_arg_check
          (trmv_arg_check_args h uplo transa diag m1 a1 lda1 x1 incx1 batch_count) dev_bytes).2
        = none := by simp [hw]
    simp only [rocblas_trmv_strided_batched_impl]
    rw [if_neg hs', if_neg hw', if_pos hcn, if_pos hbad]
    generalize (if ¬ h.is_device_memory_size_query = true then
      (trmv_strided_batched_logging p h uplo transa diag m1 a1 lda1 stridea x1 incx1 stridex
        batch_count : List (Event T)) else []) = log at hlog ⊢
    have hc := fun f => calls_of_of_is_log f log hlog
    refine ⟨rfl, ?_, ?_⟩
    · simp [calls_of_append, hc]; simp [calls_of]
    · apply not_invokes_of_calls_of_eq_nil
      simp [calls_of_append, hc]; simp [calls_of]

/-- C15, evaluated: numeric checking on and a checker that reports
`rocblas_status_check_numerics_fail`, for gbmv and for trmv_strided_batched. -/
theorem input_numeric_check_aborts_witness :
    (rocblas_gbmv_impl
        (fixed_answers rocblas_status_success (rocblas_status_continue, 12) (some 4096)
          rocblas_status_check_numerics_fail rocblas_status_success)
        rocblas_precision.float (some ⟨0, 1, rocblas_pointer_mode_host, false⟩)
        rocblas_operation_none 3 3 1 1 (some 2) (some 4) 3 (some 5) 1 (some 1) (some 6) 1).status
      = rocblas_status_check_numerics_fail
    ∧ (rocblas_trmv_strided_batched_impl
        (fixed_answers rocblas_status_success (rocblas_status_continue, 12) (some 4096)
          rocblas_status_check_numerics_fail rocblas_status_success)
        rocblas_precision.float (some ⟨0, 1, rocblas_pointer_mode_host, false⟩)
        rocblas_fill_lower rocblas_operation_none rocblas_diagonal_unit 10 (some 1) 10 100
        (some 2) 1 10 3 77).status
      = rocblas_status_check_numerics_fail :=
  ⟨((input_numeric_check_aborts
      (fixed_answers rocblas_status_success (rocblas_status_continue, 12) (some 4096)
        rocblas_status_check_numerics_fail rocblas_status_success)
      rocblas_precision.float ⟨0, 1, rocblas_pointer_mode_host, false⟩
      rocblas_operation_none 3 3 1 1 2 (some 4) 3 (some 5) 1 1 (some 6) 1
      rocblas_fill_lower rocblas_operation_none rocblas_diagonal_unit 10 (some 1) 10 100
      (some 2) 1 10 3 77 4096 (by decide)).1 (by decide) (by decide)).1,
   ((input_numeric_check_aborts
      (fixed_answers rocblas_status_success (rocblas_status_continue, 12) (some 4096)
        rocblas_status_check_numerics_fail rocblas_status_success)
      rocblas_precision.float ⟨0, 1, rocblas_pointer_mode_host, false⟩
      rocblas_operation_none 3 3 1 1 2 (some 4) 3 (some 5) 1 1 (some 6) 1
      rocblas_fill_lower rocblas_operation_none rocblas_diagonal_unit 10 (some 1) 10 100
      (some 2) 1 10 3 77 4096 (by decide)).2 rfl rfl (by decide)).1⟩

/-- Whether a call of gbmv reaches the execution stage does not depend on the
handle's `check_numerics`. -/
theorem gbmv_reaches_execution_check_numerics {T : Type} [HostScalar T] (h : _rocblas_handle)
    (k : Int) (transA : rocblas_operation) (m n kl ku : Int) (a : T) (A : Ptr) (lda : Int)
    (x : Ptr) (incx : Int) (b : T) (y : Ptr) (incy : Int)
    (hr : gbmv_reaches_execution h transA m n kl ku a A lda x incx b y incy) :
    gbmv_reaches_execution { h with check_numerics := k } transA m n kl ku a A lda x incx b y
      incy := hr

/-- Outcome of the execution stage of gbmv without numeric checking: one call
of the kernel template, whose status is returned. -/
theorem gbmv_from_y_unchecked {T : Type} (c : Collaborators T) (p : rocblas_precision)
    (h : _rocblas_handle) (transA : rocblas_operation) (m n kl ku : Int) (alpha : Option T)
    (A : Ptr) (lda : Int) (x : Ptr) (incx : Int) (beta : Option T) (y : Ptr) (incy : Int)
    (ev : List (Event T)) (hy : y ≠ none) (hcn : h.check_numerics = 0) :
    gbmv_from_y c p h transA m n kl ku alpha A lda x incx beta y incy ev
      = ⟨c.rocblas_gbmv_template
            (gbmv_template_args h transA m n kl ku alpha A lda x incx beta y incy),
          ev ++ [Event.call Callee.rocblas_gbmv_template
            (gbmv_template_args h transA m n kl ku alpha A lda x incx beta y incy)]⟩ := by
  simp only [gbmv_from_y, gbmv_launch]
  rw [if_neg hy, if_neg (by simp [hcn])]
  split_ifs <;> first | rfl | contradiction

/-- Outcome of the execution stage of gbmv with numeric checking when both
checks succeed: the status of the kernel template, which is called once with
the arguments of lines 164-184. -/
theorem gbmv_from_y_checked {T : Type} (c : Collaborators T) (p : rocblas_precision)
    (h : _rocblas_handle) (transA : rocblas_operation) (m n kl ku : Int) (alpha : Option T)
    (A : Ptr) (lda : Int) (x : Ptr) (incx : Int) (beta : Option T) (y : Ptr) (incy : Int)
    (ev : List (Event T)) (hy : y ≠ none) (hcn : h.check_numerics ≠ 0)
    (hin : c.rocblas_gbmv_check_numerics
      (gbmv_check_numerics_args p h transA m n A lda x incx y incy h.check_numerics true)
      = rocblas_status_success)
    (hout : c.rocblas_gbmv_check_numerics
      (gbmv_check_numerics_args p h transA m n A lda x incx y incy h.check_numerics false)
      = rocblas_status_success) :
    (gbmv_from_y c p h transA m n kl ku alpha A lda x incx beta y incy ev).status
      = c.rocblas_gbmv_template
          (gbmv_template_args h transA m n kl ku alpha A lda x incx beta y incy)
    ∧ calls_of Callee.rocblas_gbmv_template
        (gbmv_from_y c p h transA m n kl ku alpha A lda x incx beta y incy ev).events
      = calls_of Callee.rocblas_gbmv_template ev
        ++ [gbmv_template_args h transA m n kl ku alpha A lda x incx beta y incy] := by
  simp only [gbmv_from_y, gbmv_launch]
  rw [if_neg hy, if_pos hcn, if_neg (by simp [hin])]
  split_ifs with h1 h2
  · exact ⟨rfl, by simp [calls_of_append]; simp [calls_of]⟩
  · exact absurd hout h2
  · exact ⟨rfl, by simp [calls_of_append]; simp [calls_of]⟩

/-- Outcome of trmv_strided_batched without numeric checking, once the
validator has answered CONTINUE and a workspace was obtained: one call of the
kernel template, whose status is returned, and no call of the checker. -/
theorem trmv_strided_batched_impl_unchecked {T : Type} (c : Collaborators T)
    (p : rocblas_precision) (h : _rocblas_handle) (uplo : rocblas_fill)
    (transa : rocblas_operation) (diag : rocblas_diagonal) (m : Int) (a : Ptr)
    (lda stridea : Int) (x : Ptr) (incx stridex batch_count : Int) (dev_bytes : Nat)
    (workspace : Nat)
    (hs : (c.rocblas_trmv_arg_check
        (trmv_arg_check_args h uplo transa diag m a lda x incx batch_count) dev_bytes).1
      = rocblas_status_continue)
    (hw : c.device_malloc h (c.rocblas_trmv_arg_check
        (trmv_arg_check_args h uplo transa diag m a lda x incx batch_count) dev_bytes).2
      = some workspace)
    (hcn : h.check_numerics = 0) :
    (rocblas_trmv_strided_batched_impl c p (some h) uplo transa diag m a lda stridea x incx
        stridex batch_count dev_bytes).status
      = c.rocblas_internal_trmv_template
          (trmv_template_args h uplo transa diag m a lda stridea x incx stridex (some workspace)
            batch_count)
    ∧ calls_of Callee.rocblas_internal_trmv_template
        (rocblas_trmv_strided_batched_impl c p (some h) uplo transa diag m a lda stridea x incx
          stridex batch_count dev_bytes).events
      = [trmv_template_args h uplo transa diag m a lda stridea x incx stridex (some workspace)
          batch_count]
    ∧ calls_of Callee.rocblas_trmv_check_numerics
        (rocblas_trmv_strided_batched_impl c p (some h) uplo transa diag m a lda stridea x incx
          stridex batch_count dev_bytes).events = [] := by
  have hlog := trmv_strided_batched_prologue_is_log (T := T) p h uplo transa diag m a lda
    stridea x incx stridex batch_count
  simp only [rocblas_trmv_strided_batched_impl, trmv_strided_batched_launch]
  rw [if_neg (by simp [hs]), if_neg (by simp [hw]), if_neg (by simp [hcn]), hw]
  generalize (if ¬ h.is_device_memory_size_query = true then
    (trmv_strided_batched_logging p h uplo transa diag m a lda stridea x incx stridex
      batch_count : List (Event T)) else []) = log at hlog ⊢
  have hc := fun f => calls_of_of_is_log f log hlog
  split_ifs
  · exact ⟨rfl, by simp [calls_of_append, hc]; simp [calls_of],
      by simp [calls_of_append, hc]; simp [calls_of]⟩
  · contradiction
  · contradiction
  · exact ⟨rfl, by simp [calls_of_append, hc]; simp [calls_of],
      by simp [calls_of_append, hc]; simp [calls_of]⟩

/-- Outcome of trmv_strided_batched with numeric checking when both checks
succeed, once the validator has answered CONTINUE and a workspace was
obtained: the status of the kernel template, which is called once with the
arguments of lines 159-176. -/
theorem trmv_strided_batched_impl_checked {T : Type} (c : Collaborators T)
    (p : rocblas_precision) (h : _rocblas_handle) (uplo : rocblas_fill)
    (transa : rocblas_operation) (diag : rocblas_diagonal) (m : Int) (a : Ptr)
    (lda stridea : Int) (x : Ptr) (incx stridex batch_count : Int) (dev_bytes : Nat)
    (workspace : Nat)
    (hs : (c.rocblas_trmv_arg_check
        (trmv_arg_check_args h uplo transa diag m a lda x incx batch_count) dev_bytes).1
      = rocblas_status_continue)
    (hw : c.device_malloc h (c.rocblas_trmv_arg_check
        (trmv_arg_check_args h uplo transa diag m a lda x incx batch_count) dev_bytes).2
      = some workspace)
    (hcn : h.check_numerics ≠ 0)
    (hin : c.rocblas_trmv_check_numerics
      (trmv_check_numerics_args p h m a lda stridea x incx stridex batch_count h.check_numerics
        true) = rocblas_status_success)
    (hout : c.rocblas_trmv_check_numerics
      (trmv_check_numerics_args p h m a lda stridea x incx stridex batch_count h.check_numerics
        false) = rocblas_status_success) :
    (rocblas_trmv_strided_batched_impl c p (some h) uplo transa diag m a lda stridea x incx
        stridex batch_count dev_bytes).status
      = c.rocblas_internal_trmv_template
          (trmv_template_args h uplo transa diag m a lda stridea x incx stridex (some workspace)
            batch_count)
    ∧ calls_of Callee.rocblas_internal_trmv_template
        (rocblas_trmv_strided_batched_impl c p (some h) uplo transa diag m a lda stridea x incx
          stridex batch_count dev_bytes).events
      = [trmv_template_args h uplo transa diag m a lda stridea x incx stridex (some workspace)
          batch_count] := by
  have hlog := trmv_strided_batched_prologue_is_log (T := T) p h uplo transa diag m a lda
    stridea x incx stridex batch_count
  simp only [rocblas_trmv_strided_batched_impl, trmv_strided_batched_launch]
  rw [if_neg (by simp [hs]), if_neg (by simp [hw]), if_pos hcn, if_neg (by simp [hin]), hw]
  generalize (if ¬ h.is_device_memory_size_query = true then
    (trmv_strided_batched_logging p h uplo transa diag m a lda stridea x incx stridex
      batch_count : List (Event T)) else []) = log at hlog ⊢
  have hc := fun f => calls_of_of_is_log f log hlog
  split_ifs
  · exact ⟨rfl, by simp [calls_of_append, hc]; simp [calls_of]⟩
  · contradiction
  · exact ⟨rfl, by simp [calls_of_append, hc]; simp [calls_of]⟩

/-- C16: numeric checking is orthogonal to execution, for every call that
reaches the execution stage (gbmv: validation passed; trmv_strided_batched:
the validator answered CONTINUE and a workspace was obtained).  (a) With
`check_numerics = 0` the numeric checker is never called, the kernel template
is called exactly once and its status is the returned status.  (b) With
`check_numerics` non-zero and both the input and the output check answering
SUCCESS, the kernel template is again called exactly once, with the argument
list built by the same expressions, and its status is the returned status;
against the same call with `check_numerics = 0` the template's arguments
after the handle are identical, and the returned status is the same whenever
the collaborators (kernel template, and for trmv also the validator and
`device_malloc`) answer alike for two handles that differ in `check_numerics`
only. -/
theorem numeric_check_orthogonal {T : Type} [HostScalar T] (c : Collaborators T)
    (p : rocblas_precision) (h : _rocblas_handle) (transA : rocblas_operation)
    (m n kl ku : Int) (a : T) (A : Ptr) (lda : Int) (x : Ptr) (incx : Int) (b : T) (y : Ptr)
    (incy : Int) (uplo : rocblas_fill) (transa : rocblas_operation) (diag : rocblas_diagonal)
    (m1 : Int) (a1 : Ptr) (lda1 stridea : Int) (x1 : Ptr) (incx1 stridex batch_count : Int)
    (dev_bytes : Nat) (workspace : Nat) :
    (gbmv_reaches_execution h transA m n kl ku a A lda x incx b y incy →
      (h.check_numerics = 0 →
        calls_of Callee.rocblas_gbmv_check_numerics
            (rocblas_gbmv_impl c p (some h) transA m n kl ku (some a) A lda x incx (some b) y
              incy).events = []
        ∧ calls_of Callee.rocblas_gbmv_template
            (rocblas_gbmv_impl c p (some h) transA m n kl ku (some a) A lda x incx (some b) y
              incy).events
          = [gbmv_template_args h transA m n kl ku (some a) A lda x incx (some b) y incy]
        ∧ (rocblas_gbmv_impl c p (some h) transA m n kl ku (some a) A lda x incx (some b) y
              incy).status
          = c.rocblas_gbmv_template
              (gbmv_template_args h transA m n kl ku (some a) A lda x incx (some b) y incy))
      ∧ (h.check_numerics ≠ 0 →
        c.rocblas_gbmv_check_numerics
            (gbmv_check_numerics_args p h transA m n A lda x incx y incy h.check_numerics true)
          = rocblas_status_success →
        c.rocblas_gbmv_check_numerics
            (gbmv_check_numerics_args p h transA m n A lda x incx y incy h.check_numerics false)
          = rocblas_status_success →
        calls_of Callee.rocblas_gbmv_template
            (rocblas_gbmv_impl c p (some h) transA m n kl ku (some a) A lda x incx (some b) y
              incy).events
          = [gbmv_template_args h transA m n kl ku (some a) A lda x incx (some b) y incy]
        ∧ (rocblas_gbmv_impl c p (some h) transA m n kl ku (some a) A lda x incx (some b) y
              incy).status
          = c.rocblas_gbmv_template
              (gbmv_template_args h transA m n kl ku (some a) A lda x incx (some b) y incy)
        ∧ (gbmv_template_args h transA m n kl ku (some a) A lda x incx (some b) y incy).tail
          = (gbmv_template_args { h with check_numerics := 0 } transA m n kl ku (some a) A lda
              x incx (some b) y incy).tail
        ∧ (c.rocblas_gbmv_template
              (gbmv_template_args h transA m n kl ku (some a) A lda x incx (some b) y incy)
            = c.rocblas_gbmv_template
              (gbmv_template_args { h with check_numerics := 0 } transA m n kl ku (some a) A
                lda x incx (some b) y incy) →
          (rocblas_gbmv_impl c p (some h) transA m n kl ku (some a) A lda x incx (some b) y
              incy).status
            = (rocblas_gbmv_impl c p (some { h with check_numerics := 0 }) transA m n kl ku
                (some a) A lda x incx (some b) y incy).status)))
    ∧ ((c.rocblas_trmv_arg_check
          (trmv_arg_check_args h uplo transa diag m1 a1 lda1 x1 incx1 batch_count) dev_bytes).1
        = rocblas_status_continue →
      c.device_malloc h (c.rocblas_trmv_arg_check
          (trmv_arg_check_args h uplo transa diag m1 a1 lda1 x1 incx1 batch_count) dev_bytes).2
        = some workspace →
      (h.check_numerics = 0 →
        calls_of Callee.rocblas_trmv_check_numerics
            (rocblas_trmv_strided_batched_impl c p (some h) uplo transa diag m1 a1 lda1 stridea
              x1 incx1 stridex batch_count dev_bytes).events = []
        ∧ calls_of Callee.rocblas_internal_trmv_template
            (rocblas_trmv_strided_batched_impl c p (some h) uplo transa diag m1 a1 lda1 stridea
              x1 incx1 stridex batch_count dev_bytes).events
          = [trmv_template_args h uplo transa diag m1 a1 lda1 stridea x1 incx1 stridex
              (some workspace) batch_count]
        ∧ (rocblas_trmv_strided_batched_impl c p (some h) uplo transa diag m1 a1 lda1 stridea
              x1 incx1 stridex batch_count dev_bytes).status
          = c.rocblas_internal_trmv_template
              (trmv_template_args h uplo transa diag m1 a1 lda1 stridea x1 incx1 stridex
                (some workspace) batch_count))
      ∧ (h.check_numerics ≠ 0 →
        c.rocblas_trmv_check_numerics
            (trmv_check_numerics_args p h m1 a1 lda1 stridea x1 incx1 stridex batch_count
              h.check_numerics true) = rocblas_status_success →
        c.rocblas_trmv_check_numerics
            (trmv_check_numerics_args p h m1 a1 lda1 stridea x1 incx1 stridex batch_count
              h.check_numerics false) = rocblas_status_success →
        calls_of Callee.rocblas_internal_trmv_template
            (rocblas_trmv_strided_batched_impl c p (some h) uplo transa diag m1 a1 lda1 stridea
              x1 incx1 stridex batch_count dev_bytes).events
          = [trmv_template_args h uplo transa diag m1 a1 lda1 stridea x1 incx1 stridex
              (some workspace) batch_count]
        ∧ (rocblas_trmv_strided_batched_impl c p (some h) uplo transa diag m1 a1 lda1 stridea
              x1 incx1 stridex batch_count dev_bytes).status
          = c.rocblas_internal_trmv_template
              (trmv_template_args h uplo transa diag m1 a1 lda1 stridea x1 incx1 stridex
                (some workspace) batch_count)
        ∧ (trmv_template_args h uplo transa diag m1 a1 lda1 stridea x1 incx1 stridex
              (some workspace) batch_count : List (Arg T)).tail
          = (trmv_template_args { h with check_numerics := 0 } uplo transa diag m1 a1 lda1
              stridea x1 incx1 stridex (some workspace) batch_count).tail
        ∧ (c.rocblas_trmv_arg_check
              (trmv_arg_check_args { h with check_numerics := 0 } uplo transa diag m1 a1 lda1
                x1 incx1 batch_count) dev_bytes
            = c.rocblas_trmv_arg_check
              (trmv_arg_check_args h uplo transa diag m1 a1 lda1 x1 incx1 batch_count)
              dev_bytes →
          c.device_malloc { h with check_numerics := 0 } (c.rocblas_trmv_arg_check
              (trmv_arg_check_args h uplo transa diag m1 a1 lda1 x1 incx1 batch_count)
              dev_bytes).2 = some workspace →
          c.rocblas_internal_trmv_template
              (trmv_template_args h uplo transa diag m1 a1 lda1 stridea x1 incx1 stridex
                (some workspace) batch_count)
            = c.rocblas_internal_trmv_template
              (trmv_template_args { h with check_numerics := 0 } uplo transa diag m1 a1 lda1
                stridea x1 incx1 stridex (some workspace) batch_count) →
          (rocblas_trmv_strided_batched_impl c p (some h) uplo transa diag m1 a1 lda1 stridea
              x1 incx1 stridex batch_count dev_bytes).status
            = (rocblas_trmv_strided_batched_impl c p (some { h with check_numerics := 0 }) uplo
                transa diag m1 a1 lda1 stridea x1 incx1 stridex batch_count
                dev_bytes).status))) := by
  refine ⟨?_, ?_⟩
  · intro hr
    have hy : y ≠ none := hr.2.2.2.2.2.2.2.2.2.2.2
    have hpre := fun f => calls_of_gbmv_validation_events f p h transA m n kl ku a A lda x
      incx b y incy
    have himpl := gbmv_impl_of_reaches_execution c p h transA m n kl ku a A lda x incx b y incy
      hr
    refine ⟨?_, ?_⟩
    · intro hcn
      rw [himpl, gbmv_from_y_unchecked c p h transA m n kl ku (some a) A lda x incx (some b) y
        incy _ hy hcn]
      refine ⟨?_, ?_, rfl⟩
      · simp [calls_of_append, hpre]; simp [calls_of]
      · simp [calls_of_append, hpre]; simp [calls_of]
    · intro hcn hin hout
      obtain ⟨hst, hcalls⟩ := gbmv_from_y_checked c p h transA m n kl ku (some a) A lda x incx
        (some b) y incy (gbmv_validation_events p h transA m n kl ku a A lda x incx b y incy)
        hy hcn hin hout
      rw [himpl]
      refine ⟨?_, hst, rfl, ?_⟩
      · rw [hcalls, hpre]; rfl
      · intro hframe
        rw [hst, hframe,
          gbmv_impl_of_reaches_execution c p { h with check_numerics := 0 } transA m n kl ku a
            A lda x incx b y incy
            (gbmv_reaches_execution_check_numerics h 0 transA m n kl ku a A lda x incx b y incy
              hr),
          gbmv_from_y_unchecked c p { h with check_numerics := 0 } transA m n kl ku (some a) A
            lda x incx (some b) y incy _ hy rfl]
  · intro hs hw
    refine ⟨?_, ?_⟩
    · intro hcn
      obtain ⟨hst, hcalls, hchk⟩ := trmv_strided_batched_impl_unchecked c p h uplo transa diag
        m1 a1 lda1 stridea x1 incx1 stridex batch_count dev_bytes workspace hs hw hcn
      exact ⟨hchk, hcalls, hst⟩
    · intro hcn hin hout
      obtain ⟨hst, hcalls⟩ := trmv_strided_batched_impl_checked c p h uplo transa diag
        m1 a1 lda1 stridea x1 incx1 stridex batch_count dev_bytes workspace hs hw hcn hin hout
      refine ⟨hcalls, hst, rfl, ?_⟩
      intro hfv hfw hft
      have hs0 : (c.rocblas_trmv_arg_check
          (trmv_arg_check_args { h with check_numerics := 0 } uplo transa diag m1 a1 lda1
            x1 incx1 batch_count) dev_bytes).1 = rocblas_status_continue := by
        rw [hfv]; exact hs
      have hw0 : c.device_malloc { h with check_numerics := 0 } (c.rocblas_trmv_arg_check
          (trmv_arg_check_args { h with check_numerics := 0 } uplo transa diag m1 a1 lda1
            x1 incx1 batch_count) dev_bytes).2 = some workspace := by
        rw [hfv]; exact hfw
      rw [hst, hft,
        (trmv_strided_batched_impl_unchecked c p { h with check_numerics := 0 } uplo transa
          diag m1 a1 lda1 stridea x1 incx1 stridex batch_count dev_bytes workspace hs0 hw0
          rfl).1]

/-- C16, evaluated with a kernel template that answers
`rocblas_status_internal_error` and checkers that answer SUCCESS: the kernel's
status is returned without numeric checking (gbmv, trmv_strided_batched), and
with numeric checking the returned status is that of the same call with
`check_numerics = 0`. -/
theorem numeric_check_orthogonal_witness :
    (rocblas_gbmv_impl
        (fixed_answers rocblas_status_success (rocblas_status_continue, 12) (some 4096)
          rocblas_status_success rocblas_status_internal_error)
        rocblas_precision.float (some plain_handle) rocblas_operation_none 3 3 1 1 (some 2)
        (some 4) 3 (some 5) 1 (some 1) (some 6) 1).status = rocblas_status_internal_error
    ∧ (rocblas_gbmv_impl
        (fixed_answers rocblas_status_success (rocblas_status_continue, 12) (some 4096)
          rocblas_status_success rocblas_status_internal_error)
        rocblas_precision.float (some ⟨0, 1, rocblas_pointer_mode_host, false⟩)
        rocblas_operation_none 3 3 1 1 (some 2) (some 4) 3 (some 5) 1 (some 1) (some 6) 1).status
      = (rocblas_gbmv_impl
        (fixed_answers rocblas_status_success (rocblas_status_continue, 12) (some 4096)
          rocblas_status_success rocblas_status_internal_error)
        rocblas_precision.float (some ⟨0, 0, rocblas_pointer_mode_host, false⟩)
        rocblas_operation_none 3 3 1 1 (some 2) (some 4) 3 (some 5) 1 (some 1) (some 6) 1).status
    ∧ (rocblas_trmv_strided_batched_impl
        (fixed_answers rocblas_status_success (rocblas_status_continue, 12) (some 4096)
          rocblas_status_success rocblas_status_internal_error)
        rocblas_precision.float (some plain_handle) rocblas_fill_lower rocblas_operation_none
        rocblas_diagonal_unit 10 (some 1) 10 100 (some 2) 1 10 3 77).status
      = rocblas_status_internal_error
    ∧ (rocblas_trmv_strided_batched_impl
        (fixed_answers rocblas_status_success (rocblas_status_continue, 12) (some 4096)
          rocblas_status_success rocblas_status_internal_error)
        rocblas_precision.float (some ⟨0, 1, rocblas_pointer_mode_host, false⟩)
        rocblas_fill_lower rocblas_operation_none rocblas_diagonal_unit 10 (some 1) 10 100
        (some 2) 1 10 3 77).status
      = (rocblas_trmv_strided_batched_impl
        (fixed_answers rocblas_status_success (rocblas_status_continue, 12) (some 4096)
          rocblas_status_success rocblas_status_internal_error)
        rocblas_precision.float (some ⟨0, 0, rocblas_pointer_mode_host, false⟩)
        rocblas_fill_lower rocblas_operation_none rocblas_diagonal_unit 10 (some 1) 10 100
        (some 2) 1 10 3 77).status :=
  ⟨((((numeric_check_orthogonal
      (fixed_answers rocblas_status_success (rocblas_status_continue, 12) (some 4096)
        rocblas_status_success rocblas_status_internal_error)
      rocblas_precision.float plain_handle rocblas_operation_none 3 3 1 1 2 (some 4) 3 (some 5)
      1 1 (some 6) 1 rocblas_fill_lower rocblas_operation_none rocblas_diagonal_unit 10 (some 1)
      10 100 (some 2) 1 10 3 77 4096).1 (by decide)).1 rfl).2).2,
   (((((numeric_check_orthogonal
      (fixed_answers rocblas_status_success (rocblas_status_continue, 12) (some 4096)
        rocblas_status_success rocblas_status_internal_error)
      rocblas_precision.float ⟨0, 1, rocblas_pointer_mode_host, false⟩ rocblas_operation_none
      3 3 1 1 2 (some 4) 3 (some 5) 1 1 (some 6) 1 rocblas_fill_lower rocblas_operation_none
      rocblas_diagonal_unit 10 (some 1) 10 100 (some 2) 1 10 3 77 4096).1 (by decide)).2
      (by decide) rfl rfl).2).2).2 rfl,
   ((((numeric_check_orthogonal
      (fixed_answers rocblas_status_success (rocblas_status_continue, 12) (some 4096)
        rocblas_status_success rocblas_status_internal_error)
      rocblas_precision.float plain_handle rocblas_operation_none 3 3 1 1 2 (some 4) 3 (some 5)
      1 1 (some 6) 1 rocblas_fill_lower rocblas_operation_none rocblas_diagonal_unit 10 (some 1)
      10 100 (some 2) 1 10 3 77 4096).2 rfl rfl).1 rfl).2).2,
   (((((numeric_check_orthogonal
      (fixed_answers rocblas_status_success (rocblas_status_continue, 12) (some 4096)
        rocblas_status_success rocblas_status_internal_error)
      rocblas_precision.float ⟨0, 1, rocblas_pointer_mode_host, false⟩ rocblas_operation_none
      3 3 1 1 2 (some 4) 3 (some 5) 1 1 (some 6) 1 rocblas_fill_lower rocblas_operation_none
      rocblas_diagonal_unit 10 (some 1) 10 100 (some 2) 1 10 3 77 4096).2 rfl rfl).2
      (by decide) rfl rfl).2).2).2 rfl rfl rfl⟩

/-! ## Statuses that reach the caller -/

/-- The execution stage of gbmv never answers CONTINUE when the numeric
checker and the kernel template never do. -/
theorem gbmv_from_y_ne_continue {T : Type} (c : Collaborators T) (p : rocblas_precision)
    (h : _rocblas_handle) (transA : rocblas_operation) (m n kl ku : Int) (alpha : Option T)
    (A : Ptr) (lda : Int) (x : Ptr) (incx : Int) (beta : Option T) (y : Ptr) (incy : Int)
    (ev : List (Event T))
    (hcheck : ∀ args, c.rocblas_gbmv_check_numerics args ≠ rocblas_status_continue)
    (hkernel : ∀ args, c.rocblas_gbmv_template args ≠ rocblas_status_continue) :
    (gbmv_from_y c p h transA m n kl ku alpha A lda x incx beta y incy ev).status
      ≠ rocblas_status_continue := by
  simp only [gbmv_from_y, gbmv_launch]
  split_ifs <;> first | exact hcheck _ | exact hkernel _ | (intro hc; cases hc)

/-- The routine trmv_strided_batched never answers CONTINUE when the numeric
checker and the kernel template never do. -/
theorem trmv_strided_batched_impl_ne_continue {T : Type} (c : Collaborators T)
    (p : rocblas_precision) (handle : rocblas_handle) (uplo : rocblas_fill)
    (transa : rocblas_operation) (diag : rocblas_diagonal) (m : Int) (a : Ptr)
    (lda stridea : Int) (x : Ptr) (incx stridex batch_count : Int) (dev_bytes : Nat)
    (hcheck : ∀ args, c.rocblas_trmv_check_numerics args ≠ rocblas_status_continue)
    (hkernel : ∀ args, c.rocblas_internal_trmv_template args ≠ rocblas_status_continue) :
    (rocblas_trmv_strided_batched_impl c p handle uplo transa diag m a lda stridea x incx
        stridex batch_count dev_bytes).status ≠ rocblas_status_continue := by
  cases handle with
  | none => intro hc; cases hc
  | some h =>
    simp only [rocblas_trmv_strided_batched_impl, trmv_strided_batched_launch]
    split_ifs with h1 <;>
      first | exact h1 | exact hcheck _ | exact hkernel _ | (intro hc; cases hc)

/-- With a null scalar pointer gbmv answers the size-query macro or a
validation status. -/
theorem gbmv_impl_null_scalar_ne_continue {T : Type} [HostScalar T] (c : Collaborators T)
    (p : rocblas_precision) (h : _rocblas_handle) (transA : rocblas_operation)
    (m n kl ku : Int) (alpha : Option T) (A : Ptr) (lda : Int) (x : Ptr) (incx : Int)
    (beta : Option T) (y : Ptr) (incy : Int) (hnull : alpha = none ∨ beta = none)
    (hquery : h.is_device_memory_size_query = true →
      c.return_zero_device_memory_size h ≠ rocblas_status_continue) :
    (rocblas_gbmv_impl c p (some h) transA m n kl ku alpha A lda x incx beta y incy).status
      ≠ rocblas_status_continue := by
  rcases hnull with hnull | hnull
  · subst hnull
    unfold rocblas_gbmv_impl
    simp only []
    split_ifs with hq <;> first | exact hquery hq | (intro hc; cases hc)
  · subst hnull
    cases alpha <;>
    · unfold rocblas_gbmv_impl
      simp only []
      split_ifs with hq <;> first | exact hquery hq | (intro hc; cases hc)

/-- With non-null scalar pointers gbmv never answers CONTINUE when the size-query
macro, the numeric checker and the kernel template never do. -/
theorem gbmv_impl_scalars_ne_continue {T : Type} [HostScalar T] (c : Collaborators T)
    (p : rocblas_precision) (h : _rocblas_handle) (transA : rocblas_operation)
    (m n kl ku : Int) (a b : T) (A : Ptr) (lda : Int) (x : Ptr) (incx : Int)
    (y : Ptr) (incy : Int)
    (hcheck : ∀ args, c.rocblas_gbmv_check_numerics args ≠ rocblas_status_continue)
    (hkernel : ∀ args, c.rocblas_gbmv_template args ≠ rocblas_status_continue)
    (hquery : h.is_device_memory_size_query = true →
      c.return_zero_device_memory_size h ≠ rocblas_status_continue) :
    (rocblas_gbmv_impl c p (some h) transA m n kl ku (some a) A lda x incx (some b) y
        incy).status ≠ rocblas_status_continue := by
  have hfrom := fun ev => gbmv_from_y_ne_continue c p h transA m n kl ku (some a) A lda x incx
    (some b) y incy ev hcheck hkernel
  unfold rocblas_gbmv_impl
  simp only []
  split_ifs with hq <;> first | exact hquery hq | exact hfrom _ | (intro hc; cases hc)

/-- C17: CONTINUE never reaches the caller.  Provided the numeric checker and
the kernel template never return `rocblas_status_continue`,
`rocblas_trmv_strided_batched_impl` never returns it, whatever
`rocblas_trmv_arg_check`, `device_malloc` and the handle (null or not, any
state) are; and `rocblas_gbmv_impl` never returns it either, for every handle
outside size-query mode, and inside it as long as the answer of the macro
`RETURN_ZERO_DEVICE_MEMORY_SIZE_IF_QUERIED` is not CONTINUE. -/
theorem continue_never_returned {T : Type} [HostScalar T] (c : Collaborators T)
    (p : rocblas_precision) (handle : rocblas_handle) (transA : rocblas_operation)
    (m n kl ku : Int) (alpha : Option T) (A : Ptr) (lda : Int) (x : Ptr) (incx : Int)
    (beta : Option T) (y : Ptr) (incy : Int) (uplo : rocblas_fill)
    (transa : rocblas_operation) (diag : rocblas_diagonal) (m1 : Int) (a1 : Ptr)
    (lda1 stridea : Int) (x1 : Ptr) (incx1 stridex batch_count : Int) (dev_bytes : Nat)
    (hcheck_gbmv : ∀ args, c.rocblas_gbmv_check_numerics args ≠ rocblas_status_continue)
    (hkernel_gbmv : ∀ args, c.rocblas_gbmv_template args ≠ rocblas_status_continue)
    (hcheck_trmv : ∀ args, c.rocblas_trmv_check_numerics args ≠ rocblas_status_continue)
    (hkernel_trmv : ∀ args, c.rocblas_internal_trmv_template args ≠ rocblas_status_continue) :
    (rocblas_trmv_strided_batched_impl c p handle uplo transa diag m1 a1 lda1 stridea x1 incx1
        stridex batch_count dev_bytes).status ≠ rocblas_status_continue
    ∧ ((∀ h, handle = some h → h.is_device_memory_size_query = true →
          c.return_zero_device_memory_size h ≠ rocblas_status_continue) →
      (rocblas_gbmv_impl c p handle transA m n kl ku alpha A lda x incx beta y incy).status
        ≠ rocblas_status_continue) := by
  refine ⟨trmv_strided_batched_impl_ne_continue c p handle uplo transa diag m1 a1 lda1 stridea
    x1 incx1 stridex batch_count dev_bytes hcheck_trmv hkernel_trmv, ?_⟩
  intro hquery
  cases handle with
  | none => intro hc; cases hc
  | some h =>
    cases alpha with
    | none =>
      exact gbmv_impl_null_scalar_ne_continue c p h transA m n kl ku none A lda x incx beta y
        incy (Or.inl rfl) (hquery h rfl)
    | some a =>
      cases beta with
      | none =>
        exact gbmv_impl_null_scalar_ne_continue c p h transA m n kl ku (some a) A lda x incx
          none y incy (Or.inr rfl) (hquery h rfl)
      | some b =>
        exact gbmv_impl_scalars_ne_continue c p h transA m n kl ku a b A lda x incx y incy
          hcheck_gbmv hkernel_gbmv (hquery h rfl)

/-- C17, evaluated: a validator that answers CONTINUE, a handle in normal
mode; trmv_strided_batched and gbmv both end with SUCCESS. -/
theorem continue_never_returned_witness :
    (rocblas_trmv_strided_batched_impl all_success rocblas_precision.float (some plain_handle)
        rocblas_fill_lower rocblas_operation_none rocblas_diagonal_unit 10 (some 1) 10 100
        (some 2) 1 10 3 77).status ≠ rocblas_status_continue
    ∧ (rocblas_gbmv_impl all_success rocblas_precision.float (some size_query_handle)
        rocblas_operation_none 3 3 1 1 (some 2) (some 4) 3 (some 5) 1 (some 1) (some 6) 1).status
      ≠ rocblas_status_continue :=
  ⟨(continue_never_returned all_success rocblas_precision.float (some plain_handle)
      rocblas_operation_none 3 3 1 1 (some 2) (some 4) 3 (some 5) 1 (some 1) (some 6) 1
      rocblas_fill_lower rocblas_operation_none rocblas_diagonal_unit 10 (some 1) 10 100
      (some 2) 1 10 3 77 (fun _ => by simp [all_success]) (fun _ => by simp [all_success])
      (fun _ => by simp [all_success]) (fun _ => by simp [all_success])).1,
   (continue_never_returned all_success rocblas_precision.float (some size_query_handle)
      rocblas_operation_none 3 3 1 1 (some 2) (some 4) 3 (some 5) 1 (some 1) (some 6) 1
      rocblas_fill_lower rocblas_operation_none rocblas_diagonal_unit 10 (some 1) 10 100
      (some 2) 1 10 3 77 (fun _ => by simp [all_success]) (fun _ => by simp [all_success])
      (fun _ => by simp [all_success]) (fun _ => by simp [all_success])).2
      (fun _ _ _ => by simp [all_success])⟩

/-! ## Shape invariant of trsv -/

/-- C18: whenever `rocblas_trsv_arg_check` returns a status other than
`rocblas_status_invalid_value` and `rocblas_status_invalid_size` (SUCCESS and
CONTINUE among them), the arguments satisfy m >= 0, batch_count >= 0,
incx != 0, lda >= 1 and lda >= m. -/
theorem trsv_arg_check_shape_invariant {T : Type} (c : Collaborators T)
    (handle : rocblas_handle) (uplo : rocblas_fill) (transA : rocblas_operation)
    (diag : rocblas_diagonal) (m : Int) (A : Ptr) (lda : Int) (B : Ptr)
    (incx batch_count : Int) (dev_bytes : Nat) (r : ArgCheckOutcome T)
    (hr : rocblas_trsv_arg_check c handle uplo transA diag m A lda B incx batch_count dev_bytes
      = some r)
    (hv : r.status ≠ rocblas_status_invalid_value)
    (hs : r.status ≠ rocblas_status_invalid_size) :
    0 ≤ m ∧ 0 ≤ batch_count ∧ incx ≠ 0 ∧ 1 ≤ lda ∧ m ≤ lda := by
  by_cases h4 : m < 0 ∨ lda < m ∨ lda < 1 ∨ incx = 0 ∨ batch_count < 0
  · exfalso
    unfold rocblas_trsv_arg_check at hr
    split_ifs at hr <;> cases hr <;> first | exact hv rfl | exact hs rfl
  · refine ⟨by omega, by omega, ?_, by omega, by omega⟩
    exact fun hh => h4 (Or.inr (Or.inr (Or.inr (Or.inl hh))))

/-- C18, evaluated: the call m = lda = 10, incx = 1, batch_count = 3 returns
CONTINUE, and its sizes satisfy the invariant. -/
theorem trsv_arg_check_shape_invariant_witness :
    rocblas_trsv_arg_check all_success (some plain_handle) rocblas_fill_lower
        rocblas_operation_none rocblas_diagonal_unit 10 (some 1) 10 (some 2) 1 3 77
      = some ⟨rocblas_status_continue, 12, []⟩
    ∧ ((0 : Int) ≤ 10 ∧ (0 : Int) ≤ 3 ∧ (1 : Int) ≠ 0 ∧ (1 : Int) ≤ 10 ∧ (10 : Int) ≤ 10) :=
  ⟨rfl, trsv_arg_check_shape_invariant all_success (some plain_handle) rocblas_fill_lower
    rocblas_operation_none rocblas_diagonal_unit 10 (some 1) 10 (some 2) 1 3 77
    ⟨rocblas_status_continue, 12, []⟩ rfl (by decide) (by decide)⟩

/-! ## Sizes of her2_strided_batched -/

/-- Outside size-query mode the status of `rocblas_trsv_arg_check` is the one
of the first failing check. -/
theorem trsv_arg_check_status_eq {T : Type} (c : Collaborators T) (h : _rocblas_handle)
    (uplo : rocblas_fill) (transA : rocblas_operation) (diag : rocblas_diagonal)
    (m : Int) (A : Ptr) (lda : Int) (B : Ptr) (incx batch_count : Int) (dev_bytes : Nat)
    (hq : h.is_device_memory_size_query = false) :
    Option.map ArgCheckOutcome.status
        (rocblas_trsv_arg_check c (some h) uplo transA diag m A lda B incx batch_count dev_bytes)
      = some (trsv_first_failing_check uplo transA diag m A lda B incx batch_count) := by
  unfold rocblas_trsv_arg_check trsv_first_failing_check
  by_cases h1 : uplo ≠ rocblas_fill_lower ∧ uplo ≠ rocblas_fill_upper
  · rw [if_pos h1, if_pos (fun hh => h1.1 (hh.1.elim id (fun g => absurd g h1.2)))]; rfl
  rw [if_neg h1]
  by_cases h2 : transA ≠ rocblas_operation_none ∧ transA ≠ rocblas_operation_transpose
      ∧ transA ≠ rocblas_operation_conjugate_transpose
  · have hE : ¬ ((uplo = rocblas_fill_lower ∨ uplo = rocblas_fill_upper)
        ∧ (transA = rocblas_operation_none ∨ transA = rocblas_operation_transpose
            ∨ transA = rocblas_operation_conjugate_transpose)
        ∧ (diag = rocblas_diagonal_unit ∨ diag = rocblas_diagonal_non_unit)) := by tauto
    rw [if_pos h2, if_pos hE]; rfl
  rw [if_neg h2]
  by_cases h3 : diag ≠ rocblas_diagonal_unit ∧ diag ≠ rocblas_diagonal_non_unit
  · have hE : ¬ ((uplo = rocblas_fill_lower ∨ uplo = rocblas_fill_upper)
        ∧ (transA = rocblas_operation_none ∨ transA = rocblas_operation_transpose
            ∨ transA = rocblas_operation_conjugate_transpose)
        ∧ (diag = rocblas_diagonal_unit ∨ diag = rocblas_diagonal_non_unit)) := by tauto
    rw [if_pos h3, if_pos hE]; rfl
  rw [if_neg h3]
  have hE : (uplo = rocblas_fill_lower ∨ uplo = rocblas_fill_upper)
      ∧ (transA = rocblas_operation_none ∨ transA = rocblas_operation_transpose
          ∨ transA = rocblas_operation_conjugate_transpose)
      ∧ (diag = rocblas_diagonal_unit ∨ diag = rocblas_diagonal_non_unit) := by tauto
  rw [if_neg (not_not.mpr hE)]
  by_cases h4 : m < 0 ∨ lda < m ∨ lda < 1 ∨ incx = 0 ∨ batch_count < 0
  · have hS : ¬ (0 ≤ m ∧ m ≤ lda ∧ 1 ≤ lda ∧ incx ≠ 0 ∧ 0 ≤ batch_count) := by
      rintro ⟨g1, g2, g3, g4, g5⟩
      rcases h4 with hh | hh | hh | hh | hh
      · omega
      · omega
      · omega
      · exact g4 hh
      · omega
    rw [if_pos h4, if_pos hS]
    rfl
  have hS : 0 ≤ m ∧ m ≤ lda ∧ 1 ≤ lda ∧ incx ≠ 0 ∧ 0 ≤ batch_count := by
    refine ⟨by omega, by omega, by omega, ?_, by omega⟩
    exact fun g => h4 (Or.inr (Or.inr (Or.inr (Or.inl g))))
  rw [if_neg h4, if_neg (not_not.mpr hS)]
  by_cases h5 : m = 0 ∨ batch_count = 0
  · rw [if_pos h5, if_pos h5]; simp [hq]
  rw [if_neg h5, if_neg h5]
  by_cases h6 : A = none ∨ B = none
  · rw [if_pos h6, if_pos h6]; rfl
  rw [if_neg h6, if_neg h6]
  simp [hq]

/-- C22: exact characterisation of CONTINUE.  With the handle outside
size-query mode, `rocblas_trsv_arg_check` returns a status (it does not fault),
and that status is `rocblas_status_continue` if and only if uplo is lower or
upper, transA is none, transpose or conjugate_transpose, diag is unit or
non_unit, m > 0, lda >= m, incx != 0, batch_count > 0 and A and B are
non-null; in every other case the status is invalid_value, invalid_size,
success or invalid_pointer, the one of the first failing check in the order
enumerated fields, sizes, empty problem, operand pointers. -/
theorem trsv_arg_check_continue_iff {T : Type} (c : Collaborators T) (h : _rocblas_handle)
    (uplo : rocblas_fill) (transA : rocblas_operation) (diag : rocblas_diagonal)
    (m : Int) (A : Ptr) (lda : Int) (B : Ptr) (incx batch_count : Int) (dev_bytes : Nat)
    (hq : h.is_device_memory_size_query = false) :
    ∃ r, rocblas_trsv_arg_check c (some h) uplo transA diag m A lda B incx batch_count dev_bytes
        = some r
      ∧ r.status = trsv_first_failing_check uplo transA diag m A lda B incx batch_count
      ∧ (r.status = rocblas_status_continue ↔
          ((uplo = rocblas_fill_lower ∨ uplo = rocblas_fill_upper)
            ∧ (transA = rocblas_operation_none ∨ transA = rocblas_operation_transpose
                ∨ transA = rocblas_operation_conjugate_transpose)
            ∧ (diag = rocblas_diagonal_unit ∨ diag = rocblas_diagonal_non_unit)
            ∧ 0 < m ∧ m ≤ lda ∧ incx ≠ 0 ∧ 0 < batch_count ∧ A ≠ none ∧ B ≠ none))
      ∧ (r.status ≠ rocblas_status_continue →
          r.status = rocblas_status_invalid_value ∨ r.status = rocblas_status_invalid_size
            ∨ r.status = rocblas_status_success ∨ r.status = rocblas_status_invalid_pointer) := by
  have hst := trsv_arg_check_status_eq c h uplo transA diag m A lda B incx batch_count
    dev_bytes hq
  cases hres : rocblas_trsv_arg_check c (some h) uplo transA diag m A lda B incx batch_count
      dev_bytes with
  | none => rw [hres] at hst; cases hst
  | some r =>
    rw [hres] at hst
    have hr : r.status = trsv_first_failing_check uplo transA diag m A lda B incx batch_count :=
      Option.some.inj hst
    refine ⟨r, rfl, hr, ?_, ?_⟩
    · rw [hr]
      unfold trsv_first_failing_check
      constructor
      · intro hc
        split_ifs at hc with g1 g2 g3 g4
        refine ⟨g1.1, g1.2.1, g1.2.2, by omega, g2.2.1, g2.2.2.2.1, by omega, ?_, ?_⟩
        · exact fun hA => g4 (Or.inl hA)
        · exact fun hB => g4 (Or.inr hB)
      · rintro ⟨e1, e2, e3, hm, hlda, hincx, hbc, hA, hB⟩
        have hE : (uplo = rocblas_fill_lower ∨ uplo = rocblas_fill_upper)
            ∧ (transA = rocblas_operation_none ∨ transA = rocblas_operation_transpose
                ∨ transA = rocblas_operation_conjugate_transpose)
            ∧ (diag = rocblas_diagonal_unit ∨ diag = rocblas_diagonal_non_unit) := ⟨e1, e2, e3⟩
        have hS : 0 ≤ m ∧ m ≤ lda ∧ 1 ≤ lda ∧ incx ≠ 0 ∧ 0 ≤ batch_count :=
          ⟨by omega, hlda, by omega, hincx, by omega⟩
        have h5 : ¬ (m = 0 ∨ batch_count = 0) := by omega
        have h6 : ¬ (A = none ∨ B = none) := by tauto
        rw [if_neg (not_not.mpr hE), if_neg (not_not.mpr hS), if_neg h5, if_neg h6]
    · rw [hr]
      unfold trsv_first_failing_check
      intro hc
      split_ifs at hc ⊢ <;> simp at hc ⊢

/-- C22, evaluated: null B with otherwise valid arguments is the first failing
check (operand pointers), and with both operands present the validator
answers CONTINUE. -/
theorem trsv_arg_check_continue_iff_witness :
    trsv_first_failing_check rocblas_fill_lower rocblas_operation_none rocblas_diagonal_unit
        10 (some 1) 10 none 1 3 = rocblas_status_invalid_pointer
    ∧ ∃ r, rocblas_trsv_arg_check all_success (some plain_handle) rocblas_fill_lower
          rocblas_operation_none rocblas_diagonal_unit 10 (some 1) 10 (some 2) 1 3 77 = some r
        ∧ r.status = rocblas_status_continue :=
  ⟨by decide,
   (trsv_arg_check_continue_iff all_success plain_handle rocblas_fill_lower
      rocblas_operation_none rocblas_diagonal_unit 10 (some 1) 10 (some 2) 1 3 77 rfl).elim
      fun r hr => ⟨r, hr.1, hr.2.1.trans (by decide)⟩⟩

/-! ## Host alpha = 0 with beta != 1 -/

/-- With numeric checking on, the first call of the checker in the execution
stage of gbmv is the check of the input. -/
theorem gbmv_from_y_checker_first {T : Type} (c : Collaborators T) (p : rocblas_precision)
    (h : _rocblas_handle) (transA : rocblas_operation) (m n kl ku : Int) (alpha : Option T)
    (A : Ptr) (lda : Int) (x : Ptr) (incx : Int) (beta : Option T) (y : Ptr) (incy : Int)
    (ev : List (Event T)) (hy : y ≠ none) (hcn : h.check_numerics ≠ 0)
    (hev : calls_of Callee.rocblas_gbmv_check_numerics ev = []) :
    (calls_of Callee.rocblas_gbmv_check_numerics
        (gbmv_from_y c p h transA m n kl ku alpha A lda x incx beta y incy ev).events).head?
      = some (gbmv_check_numerics_args p h transA m n A lda x incx y incy h.check_numerics
          true) := by
  simp only [gbmv_from_y, gbmv_launch]
  rw [if_neg hy, if_pos hcn]
  split_ifs <;> simp [calls_of_append, hev] <;> simp [calls_of]

/-- C23: `rocblas_gbmv_impl` with a host alpha = 0 and beta != 1 (non-null
handle outside size-query mode, valid transA and sizes, m > 0, n > 0, non-null
alpha and beta, pointer mode HOST).  The call reads both scalars and goes on
to line 133 for every A and x, null or not: A and x are never tested.  A null
y yields `rocblas_status_invalid_pointer` whatever A and x are; with a non-null
y the call proceeds: to the numeric check of the input when `check_numerics`
is set, and straight to the kernel template, called once, when it is not. -/
theorem gbmv_zero_alpha_skips_A_x {T : Type} [HostScalar T] (c : Collaborators T)
    (p : rocblas_precision) (h : _rocblas_handle) (transA : rocblas_operation)
    (m n kl ku : Int) (a : T) (A : Ptr) (lda : Int) (x : Ptr) (incx : Int)
    (b : T) (y : Ptr) (incy : Int)
    (hq : h.is_device_memory_size_query = false)
    (htrans : transA = rocblas_operation_none ∨ transA = rocblas_operation_transpose
      ∨ transA = rocblas_operation_conjugate_transpose)
    (hm : 0 < m) (hn : 0 < n) (hlda : kl + ku + 1 ≤ lda) (hincx : incx ≠ 0) (hincy : incy ≠ 0)
    (hkl : 0 ≤ kl) (hku : 0 ≤ ku)
    (hhost : h.pointer_mode = rocblas_pointer_mode_host)
    (ha : HostScalar.is_zero a = true) (hb : HostScalar.eq_one b = false) :
    rocblas_gbmv_impl c p (some h) transA m n kl ku (some a) A lda x incx (some b) y incy
        = gbmv_from_y c p h transA m n kl ku (some a) A lda x incx (some b) y incy
            (gbmv_logging p h transA m n kl ku (some a) A lda x incx (some b) y incy
              ++ [Event.deref_alpha, Event.deref_beta])
    ∧ (y = none →
        (rocblas_gbmv_impl c p (some h) transA m n kl ku (some a) A lda x incx (some b) y
          incy).status = rocblas_status_invalid_pointer)
    ∧ (y ≠ none →
        (h.check_numerics ≠ 0 →
          (calls_of Callee.rocblas_gbmv_check_numerics
              (rocblas_gbmv_impl c p (some h) transA m n kl ku (some a) A lda x incx (some b) y
                incy).events).head?
            = some (gbmv_check_numerics_args p h transA m n A lda x incx y incy
                h.check_numerics true))
        ∧ (h.check_numerics = 0 →
          calls_of Callee.rocblas_gbmv_template
              (rocblas_gbmv_impl c p (some h) transA m n kl ku (some a) A lda x incx (some b) y
                incy).events
            = [gbmv_template_args h transA m n kl ku (some a) A lda x incx (some b) y incy])) := by
  have hlog := gbmv_logging_is_log p h transA m n kl ku (some a) A lda x incx (some b) y incy
  have hpre : ∀ f, calls_of f
      (gbmv_logging p h transA m n kl ku (some a) A lda x incx (some b) y incy
        ++ [Event.deref_alpha, Event.deref_beta]) = [] := by
    intro f
    rw [calls_of_append, calls_of_of_is_log f _ hlog]
    simp [calls_of]
  have heq : rocblas_gbmv_impl c p (some h) transA m n kl ku (some a) A lda x incx (some b) y
      incy = gbmv_from_y c p h transA m n kl ku (some a) A lda x incx (some b) y incy
            (gbmv_logging p h transA m n kl ku (some a) A lda x incx (some b) y incy
              ++ [Event.deref_alpha, Event.deref_beta]) := by
    rw [gbmv_impl_nondegenerate c p h transA m n kl ku (some a) A lda x incx (some b) y incy hq
      htrans hm hn hlda hincx hincy hkl hku]
    simp [hhost, ha, hb]
  refine ⟨heq, ?_, ?_⟩
  · intro hy
    rw [heq]
    simp [gbmv_from_y, hy]
  · intro hy
    rw [heq]
    refine ⟨?_, ?_⟩
    · intro hcn
      exact gbmv_from_y_checker_first c p h transA m n kl ku (some a) A lda x incx (some b) y
        incy _ hy hcn (hpre _)
    · intro hcn
      rw [gbmv_from_y_unchecked c p h transA m n kl ku (some a) A lda x incx (some b) y incy _
        hy hcn]
      show calls_of Callee.rocblas_gbmv_template (_ ++ _) = _
      rw [calls_of_append, hpre]
      simp [calls_of]

/-- C23, evaluated: alpha = 0, beta = 2 in host mode with A and x both null; a
null y is rejected, a non-null y reaches the kernel template. -/
theorem gbmv_zero_alpha_skips_A_x_witness :
    (rocblas_gbmv_impl all_success rocblas_precision.float (some plain_handle)
        rocblas_operation_none 3 3 1 1 (some 0) none 3 none 1 (some 2) none 1).status
      = rocblas_status_invalid_pointer
    ∧ calls_of Callee.rocblas_gbmv_template
        (rocblas_gbmv_impl all_success rocblas_precision.float (some plain_handle)
          rocblas_operation_none 3 3 1 1 (some 0) none 3 none 1 (some 2) (some 6) 1).events
      = [gbmv_template_args plain_handle rocblas_operation_none 3 3 1 1 (some 0) none 3 none 1
          (some 2) (some 6) 1] :=
  ⟨(gbmv_zero_alpha_skips_A_x all_success rocblas_precision.float plain_handle
      rocblas_operation_none 3 3 1 1 0 none 3 none 1 2 none 1 rfl (Or.inl rfl) (by decide)
      (by decide) (by decide) (by decide) (by decide) (by decide) (by decide) rfl (by decide)
      (by decide)).2.1 rfl,
   ((gbmv_zero_alpha_skips_A_x all_success rocblas_precision.float plain_handle
      rocblas_operation_none 3 3 1 1 0 none 3 none 1 2 (some 6) 1 rfl (Or.inl rfl) (by decide)
      (by decide) (by decide) (by decide) (by decide) (by decide) (by decide) rfl (by decide)
      (by decide)).2.2 (by decide)).2 rfl⟩

/-! ## Wraparound of the leading-dimension test -/

/-- C24 fails on the code: with kl = ku = 2^30 (both `rocblas_int`) the sum
kl + ku + 1 of line 113 wraps to -2147483647, so lda = 1 passes the test
`lda < kl + ku + 1` although 1 < 2147483649 in exact arithmetic; the call
(m = n = 1, incx = incy = 1, valid transA, non-null pointers, handle in normal
mode) is not rejected with `rocblas_status_invalid_size` but reaches the
kernel template. -/
theorem gbmv_lda_test_wraps :
    is_rocblas_int 1073741824 ∧ is_rocblas_int 1
    ∧ add32 (add32 1073741824 1073741824) 1 = -2147483647
    ∧ (1 : Int) < 1073741824 + 1073741824 + 1
    ∧ (rocblas_gbmv_impl all_success rocblas_precision.float (some plain_handle)
        rocblas_operation_none 1 1 1073741824 1073741824 (some 1) (some 4) 1 (some 5) 1
        (some 1) (some 6) 1).status ≠ rocblas_status_invalid_size
    ∧ rocblas_gbmv_impl all_success rocblas_precision.float (some plain_handle)
        rocblas_operation_none 1 1 1073741824 1073741824 (some 2) (some 4) 1 (some 5) 1
        (some 1) (some 6) 1
      = ⟨rocblas_status_success, [Event.deref_alpha,
          Event.call Callee.rocblas_gbmv_template
            (gbmv_template_args plain_handle rocblas_operation_none 1 1 1073741824 1073741824
              (some 2) (some 4) 1 (some 5) 1 (some 1) (some 6) 1)]⟩ := by
  refine ⟨by decide, by decide, by decide, by decide, by decide, by decide⟩

/-! ## Device pointer mode -/

/-- The execution stage of gbmv performs no host read of a scalar. -/
theorem gbmv_from_y_reads_scalar {T : Type} (c : Collaborators T) (p : rocblas_precision)
    (h : _rocblas_handle) (transA : rocblas_operation) (m n kl ku : Int) (alpha : Option T)
    (A : Ptr) (lda : Int) (x : Ptr) (incx : Int) (beta : Option T) (y : Ptr) (incy : Int)
    (ev : List (Event T)) (hev : ¬ reads_scalar ev) :
    ¬ reads_scalar
      (gbmv_from_y c p h transA m n kl ku alpha A lda x incx beta y incy ev).events := by
  unfold reads_scalar at hev ⊢
  simp only [gbmv_from_y, gbmv_launch]
  rw [not_or] at hev
  split_ifs <;> simp <;> exact hev

/-- In device pointer mode, outside size-query mode and with non-null scalar
pointers, `rocblas_gbmv_impl` is the chain of tests of lines 109-131 without
the host branch of line 122. -/
theorem gbmv_impl_device_mode {T : Type} [HostScalar T] (c : Collaborators T)
    (p : rocblas_precision) (h : _rocblas_handle) (transA : rocblas_operation)
    (m n kl ku : Int) (a : T) (A : Ptr) (lda : Int) (x : Ptr) (incx : Int) (b : T) (y : Ptr)
    (incy : Int)
    (hq : h.is_device_memory_size_query = false)
    (hdev : h.pointer_mode = rocblas_pointer_mode_device) :
    rocblas_gbmv_impl c p (some h) transA m n kl ku (some a) A lda x incx (some b) y incy
      = if transA ≠ rocblas_operation_none ∧ transA ≠ rocblas_operation_transpose
            ∧ transA ≠ rocblas_operation_conjugate_transpose then
          ⟨rocblas_status_invalid_value,
            gbmv_logging p h transA m n kl ku (some a) A lda x incx (some b) y incy⟩
        else if m < 0 ∨ n < 0 ∨ lda < add32 (add32 kl ku) 1 ∨ incx = 0 ∨ incy = 0
            ∨ kl < 0 ∨ ku < 0 then
          ⟨rocblas_status_invalid_size,
            gbmv_logging p h transA m n kl ku (some a) A lda x incx (some b) y incy⟩
        else if m = 0 ∨ n = 0 then
          ⟨rocblas_status_success,
            gbmv_logging p h transA m n kl ku (some a) A lda x incx (some b) y incy⟩
        else if A = none ∨ x = none then
          ⟨rocblas_status_invalid_pointer,
            gbmv_logging p h transA m n kl ku (some a) A lda x incx (some b) y incy⟩
        else
          gbmv_from_y c p h transA m n kl ku (some a) A lda x incx (some b) y incy
            (gbmv_logging p h transA m n kl ku (some a) A lda x incx (some b) y incy) := by
  have hnot : ¬ h.pointer_mode = rocblas_pointer_mode_host := by rw [hdev]; decide
  unfold rocblas_gbmv_impl
  simp only [hq, Bool.false_eq_true, if_false, if_neg hnot]

/-- Outside size-query mode a call of gbmv with a null scalar pointer performs
no action but its log records. -/
theorem gbmv_impl_null_scalar_events {T : Type} [HostScalar T] (c : Collaborators T)
    (p : rocblas_precision) (h : _rocblas_handle) (transA : rocblas_operation)
    (m n kl ku : Int) (alpha : Option T) (A : Ptr) (lda : Int) (x : Ptr) (incx : Int)
    (beta : Option T) (y : Ptr) (incy : Int) (hnull : alpha = none ∨ beta = none)
    (hq : h.is_device_memory_size_query = false) :
    (rocblas_gbmv_impl c p (some h) transA m n kl ku alpha A lda x incx beta y incy).events
      = gbmv_logging p h transA m n kl ku alpha A lda x incx beta y incy := by
  rcases hnull with hnull | hnull
  · subst hnull
    unfold rocblas_gbmv_impl
    simp only [hq, Bool.false_eq_true, if_false]
    split_ifs <;> rfl
  · subst hnull
    cases alpha <;>
    · unfold rocblas_gbmv_impl
      simp only [hq, Bool.false_eq_true, if_false]
      split_ifs <;> rfl

/-- In device pointer mode gbmv performs no host read of a scalar. -/
theorem gbmv_impl_device_mode_reads_scalar {T : Type} [HostScalar T] (c : Collaborators T)
    (p : rocblas_precision) (h : _rocblas_handle) (transA : rocblas_operation)
    (m n kl ku : Int) (alpha : Option T) (A : Ptr) (lda : Int) (x : Ptr) (incx : Int)
    (beta : Option T) (y : Ptr) (incy : Int)
    (hq : h.is_device_memory_size_query = false)
    (hdev : h.pointer_mode = rocblas_pointer_mode_device) :
    ¬ reads_scalar
      (rocblas_gbmv_impl c p (some h) transA m n kl ku alpha A lda x incx beta y incy).events := by
  have hlog := fun (al be : Option T) => not_reads_scalar_of_is_log _
    (gbmv_logging_is_log p h transA m n kl ku al A lda x incx be y incy)
  cases alpha with
  | none =>
    rw [gbmv_impl_null_scalar_events c p h transA m n kl ku none A lda x incx beta y incy
      (Or.inl rfl) hq]
    exact hlog _ _
  | some a =>
    cases beta with
    | none =>
      rw [gbmv_impl_null_scalar_events c p h transA m n kl ku (some a) A lda x incx none y incy
        (Or.inr rfl) hq]
      exact hlog _ _
    | some b =>
      rw [gbmv_impl_device_mode c p h transA m n kl ku a A lda x incx b y incy hq hdev]
      split_ifs
      · exact hlog _ _
      · exact hlog _ _
      · exact hlog _ _
      · exact hlog _ _
      · exact gbmv_from_y_reads_scalar c p h transA m n kl ku (some a) A lda x incx (some b) y
          incy _ (hlog _ _)

/-- C25: `rocblas_gbmv_impl` in device pointer mode never reads the scalars
on the host (non-null handle outside size-query mode).  (1) No call performs
a host read of `*alpha` or `*beta`.  (2) The verdict of validation is fixed by
the other arguments before the values behind alpha and beta are chosen:
either a status that every such call returns without any library call, or
none, and then every such call goes on to the execution stage with a non-null
y.  (3) With valid transA and sizes, m > 0, n > 0 and non-null alpha and beta,
a null A, x or y yields `rocblas_status_invalid_pointer` whatever the values
are. -/
theorem gbmv_device_mode_ignores_scalar_values {T : Type} [HostScalar T]
    (c : Collaborators T) (p : rocblas_precision) (h : _rocblas_handle)
    (transA : rocblas_operation) (m n kl ku : Int) (A : Ptr) (lda : Int) (x : Ptr)
    (incx : Int) (y : Ptr) (incy : Int)
    (hq : h.is_device_memory_size_query = false)
    (hdev : h.pointer_mode = rocblas_pointer_mode_device) :
    (∀ alpha beta : Option T, ¬ reads_scalar
        (rocblas_gbmv_impl c p (some h) transA m n kl ku alpha A lda x incx beta y incy).events)
    ∧ (∃ verdict : Option rocblas_status, ∀ a b : T,
        (∀ s, verdict = some s →
          (rocblas_gbmv_impl c p (some h) transA m n kl ku (some a) A lda x incx (some b) y
              incy).status = s
          ∧ ∀ f, calls_of f
              (rocblas_gbmv_impl c p (some h) transA m n kl ku (some a) A lda x incx (some b) y
                incy).events = [])
        ∧ (verdict = none →
          y ≠ none
          ∧ rocblas_gbmv_impl c p (some h) transA m n kl ku (some a) A lda x incx (some b) y
              incy
            = gbmv_from_y c p h transA m n kl ku (some a) A lda x incx (some b) y incy
                (gbmv_logging p h transA m n kl ku (some a) A lda x incx (some b) y incy)))
    ∧ ((transA = rocblas_operation_none ∨ transA = rocblas_operation_transpose
          ∨ transA = rocblas_operation_conjugate_transpose) →
        0 < m → 0 < n → kl + ku + 1 ≤ lda → incx ≠ 0 → incy ≠ 0 → 0 ≤ kl → 0 ≤ ku →
        (A = none ∨ x = none ∨ y = none) →
        ∀ a b : T,
          (rocblas_gbmv_impl c p (some h) transA m n kl ku (some a) A lda x incx (some b) y
            incy).status = rocblas_status_invalid_pointer) := by
  have hcalls : ∀ (a b : T) f,
      calls_of f (gbmv_logging p h transA m n kl ku (some a) A lda x incx (some b) y incy)
        = [] := fun a b f => calls_of_of_is_log f _
      (gbmv_logging_is_log p h transA m n kl ku (some a) A lda x incx (some b) y incy)
  refine ⟨fun alpha beta => gbmv_impl_device_mode_reads_scalar c p h transA m n kl ku alpha A
    lda x incx beta y incy hq hdev, ?_, ?_⟩
  · by_cases h1 : transA ≠ rocblas_operation_none ∧ transA ≠ rocblas_operation_transpose
        ∧ transA ≠ rocblas_operation_conjugate_transpose
    · refine ⟨some rocblas_status_invalid_value, fun a b => ⟨?_, fun hv => by cases hv⟩⟩
      rintro s ⟨rfl⟩
      rw [gbmv_impl_device_mode c p h transA m n kl ku a A lda x incx b y incy hq hdev,
        if_pos h1]
      exact ⟨rfl, hcalls a b⟩
    by_cases h2 : m < 0 ∨ n < 0 ∨ lda < add32 (add32 kl ku) 1 ∨ incx = 0 ∨ incy = 0
        ∨ kl < 0 ∨ ku < 0
    · refine ⟨some rocblas_status_invalid_size, fun a b => ⟨?_, fun hv => by cases hv⟩⟩
      rintro s ⟨rfl⟩
      rw [gbmv_impl_device_mode c p h transA m n kl ku a A lda x incx b y incy hq hdev,
        if_neg h1, if_pos h2]
      exact ⟨rfl, hcalls a b⟩
    by_cases h3 : m = 0 ∨ n = 0
    · refine ⟨some rocblas_status_success, fun a b => ⟨?_, fun hv => by cases hv⟩⟩
      rintro s ⟨rfl⟩
      rw [gbmv_impl_device_mode c p h transA m n kl ku a A lda x incx b y incy hq hdev,
        if_neg h1, if_neg h2, if_pos h3]
      exact ⟨rfl, hcalls a b⟩
    by_cases h4 : A = none ∨ x = none
    · refine ⟨some rocblas_status_invalid_pointer, fun a b => ⟨?_, fun hv => by cases hv⟩⟩
      rintro s ⟨rfl⟩
      rw [gbmv_impl_device_mode c p h transA m n kl ku a A lda x incx b y incy hq hdev,
        if_neg h1, if_neg h2, if_neg h3, if_pos h4]
      exact ⟨rfl, hcalls a b⟩
    by_cases h5 : y = none
    · refine ⟨some rocblas_status_invalid_pointer, fun a b => ⟨?_, fun hv => by cases hv⟩⟩
      rintro s ⟨rfl⟩
      rw [gbmv_impl_device_mode c p h transA m n kl ku a A lda x incx b y incy hq hdev,
        if_neg h1, if_neg h2, if_neg h3, if_neg h4]
      simp only [gbmv_from_y]
      rw [if_pos h5]
      exact ⟨rfl, hcalls a b⟩
    · refine ⟨none, fun a b => ⟨fun s hv => Option.noConfusion hv, fun _ => ⟨h5, ?_⟩⟩⟩
      rw [gbmv_impl_device_mode c p h transA m n kl ku a A lda x incx b y incy hq hdev,
        if_neg h1, if_neg h2, if_neg h3, if_neg h4]
  · intro htrans hm hn hlda hincx hincy hkl hku hnull a b
    have h1 : ¬ (transA ≠ rocblas_operation_none ∧ transA ≠ rocblas_operation_transpose
        ∧ transA ≠ rocblas_operation_conjugate_transpose) := by tauto
    have h2 := gbmv_size_test_passes m n kl ku lda incx incy (by omega) (by omega) hlda hincx
      hincy hkl hku
    have h3 : ¬ (m = 0 ∨ n = 0) := by omega
    rw [gbmv_impl_device_mode c p h transA m n kl ku a A lda x incx b y incy hq hdev,
      if_neg h1, if_neg h2, if_neg h3]
    by_cases h4 : A = none ∨ x = none
    · rw [if_pos h4]
    · rw [if_neg h4]
      have hy : y = none := by tauto
      simp only [gbmv_from_y]
      rw [if_pos hy]

/-- C25, evaluated in device pointer mode: a null x is rejected with alpha
behind a non-null pointer, whatever value it holds. -/
theorem gbmv_device_mode_ignores_scalar_values_witness :
    (rocblas_gbmv_impl all_success rocblas_precision.float
        (some ⟨0, 0, rocblas_pointer_mode_device, false⟩) rocblas_operation_none 3 3 1 1
        (some 0) (some 4) 3 none 1 (some 1) (some 6) 1).status
      = rocblas_status_invalid_pointer
    ∧ ¬ reads_scalar
        (rocblas_gbmv_impl all_success rocblas_precision.float
          (some ⟨0, 0, rocblas_pointer_mode_device, false⟩) rocblas_operation_none 3 3 1 1
          (some 0) (some 4) 3 (some 5) 1 (some 1) (some 6) 1).events :=
  ⟨(gbmv_device_mode_ignores_scalar_values all_success rocblas_precision.float
      ⟨0, 0, rocblas_pointer_mode_device, false⟩ rocblas_operation_none 3 3 1 1 (some 4) 3 none
      1 (some 6) 1 rfl rfl).2.2 (Or.inl rfl) (by decide) (by decide) (by decide) (by decide)
      (by decide) (by decide) (by decide) (Or.inr (Or.inl rfl)) 0 1,
   (gbmv_device_mode_ignores_scalar_values all_success rocblas_precision.float
      ⟨0, 0, rocblas_pointer_mode_device, false⟩ rocblas_operation_none 3 3 1 1 (some 4) 3
      (some 5) 1 (some 6) 1 rfl rfl).1 (some 0) (some 1)⟩

/-! ## The trace record of trmv_strided_batched -/

/-- C26 fails on the code: with trace logging on, the call uplo = lower,
transa = none, diag = unit, m = 10, a = 1, lda = 11, stridea = 100, x = 2,
incx = 1, stridex = 20, batch_count = 3 emits as its first action the record
name, uplo, transa, diag, m, a, lda, x, incx, stridea, incx, stridex,
batch_count: `x, incx` stand before stridea and incx is logged twice (lines
57-69), which is not the record in parameter order. -/
theorem trmv_strided_batched_trace_record_misordered :
    (rocblas_trmv_strided_batched_impl all_success rocblas_precision.float (some trace_handle)
        rocblas_fill_lower rocblas_operation_none rocblas_diagonal_unit 10 (some 1) 11 100
        (some 2) 1 20 3 77).events.head?
      = some (Event.log_trace [Arg.handle trace_handle, Arg.str "rocblas_strmv_strided_batched",
          Arg.fill rocblas_fill_lower, Arg.operation rocblas_operation_none,
          Arg.diagonal rocblas_diagonal_unit, Arg.int 10, Arg.ptr (some 1), Arg.int 11,
          Arg.ptr (some 2), Arg.int 1, Arg.int 100, Arg.int 1, Arg.int 20, Arg.int 3])
    ∧ (rocblas_trmv_strided_batched_impl all_success rocblas_precision.float (some trace_handle)
        rocblas_fill_lower rocblas_operation_none rocblas_diagonal_unit 10 (some 1) 11 100
        (some 2) 1 20 3 77).events.head?
      ≠ some (trmv_strided_batched_trace_by_parameters rocblas_precision.float trace_handle
          rocblas_fill_lower rocblas_operation_none rocblas_diagonal_unit 10 (some 1) 11 100
          (some 2) 1 20 3)
    ∧ trmv_strided_batched_trace_by_parameters rocblas_precision.float trace_handle
        rocblas_fill_lower rocblas_operation_none rocblas_diagonal_unit 10 (some 1) 11 100
        (some 2) 1 20 3
      ∉ (rocblas_trmv_strided_batched_impl all_success rocblas_precision.float
          (some trace_handle) rocblas_fill_lower rocblas_operation_none rocblas_diagonal_unit 10
          (some 1) 11 100 (some 2) 1 20 3 77).events := by
  refine ⟨by decide, by decide, by decide⟩

/-! ## Strides of trmv_strided_batched -/

/-- Every call of trmv_strided_batched with a non-null handle calls the
validator exactly once, without the strides. -/
theorem trmv_strided_batched_validator_calls {T : Type} (c : Collaborators T)
    (p : rocblas_precision) (h : _rocblas_handle) (uplo : rocblas_fill)
    (transa : rocblas_operation) (diag : rocblas_diagonal) (m : Int) (a : Ptr)
    (lda stridea : Int) (x : Ptr) (incx stridex batch_count : Int) (dev_bytes : Nat) :
    calls_of Callee.rocblas_trmv_arg_check
        (rocblas_trmv_strided_batched_impl c p (some h) uplo transa diag m a lda stridea x incx
          stridex batch_count dev_bytes).events
      = [trmv_arg_check_args h uplo transa diag m a lda x incx batch_count] := by
  have hlog := trmv_strided_batched_prologue_is_log (T := T) p h uplo transa diag m a lda
    stridea x incx stridex batch_count
  simp only [rocblas_trmv_strided_batched_impl, trmv_strided_batched_launch]
  generalize (if ¬ h.is_device_memory_size_query = true then
    (trmv_strided_batched_logging p h uplo transa diag m a lda stridea x incx stridex
      batch_count : List (Event T)) else []) = log at hlog ⊢
  have hc := calls_of_of_is_log Callee.rocblas_trmv_arg_check log hlog
  split_ifs <;> simp [calls_of_append, hc] <;> simp [calls_of]

/-- Without numeric checking, trmv_strided_batched calls the kernel template
exactly when the validator answers CONTINUE and `device_malloc` yields a
workspace. -/
theorem trmv_strided_batched_invokes_template_iff {T : Type} (c : Collaborators T)
    (p : rocblas_precision) (h : _rocblas_handle) (uplo : rocblas_fill)
    (transa : rocblas_operation) (diag : rocblas_diagonal) (m : Int) (a : Ptr)
    (lda stridea : Int) (x : Ptr) (incx stridex batch_count : Int) (dev_bytes : Nat)
    (hcn : h.check_numerics = 0) :
    invokes Callee.rocblas_internal_trmv_template
        (rocblas_trmv_strided_batched_impl c p (some h) uplo transa diag m a lda stridea x incx
          stridex batch_count dev_bytes).events
      ↔ ((c.rocblas_trmv_arg_check
            (trmv_arg_check_args h uplo transa diag m a lda x incx batch_count) dev_bytes).1
          = rocblas_status_continue
        ∧ c.device_malloc h (c.rocblas_trmv_arg_check
            (trmv_arg_check_args h uplo transa diag m a lda x incx batch_count) dev_bytes).2
          ≠ none) := by
  have hlog := trmv_strided_batched_prologue_is_log (T := T) p h uplo transa diag m a lda
    stridea x incx stridex batch_count
  constructor
  · intro hinv
    by_contra hnot
    apply not_invokes_of_calls_of_eq_nil _ _ _ hinv
    simp only [rocblas_trmv_strided_batched_impl]
    generalize (if ¬ h.is_device_memory_size_query = true then
      (trmv_strided_batched_logging p h uplo transa diag m a lda stridea x incx stridex
        batch_count : List (Event T)) else []) = log at hlog ⊢
    have hc := calls_of_of_is_log Callee.rocblas_internal_trmv_template log hlog
    by_cases hs : (c.rocblas_trmv_arg_check
        (trmv_arg_check_args h uplo transa diag m a lda x incx batch_count) dev_bytes).1
        = rocblas_status_continue
    · have hw : c.device_malloc h (c.rocblas_trmv_arg_check
          (trmv_arg_check_args h uplo transa diag m a lda x incx batch_count) dev_bytes).2
          = none := by
        by_contra hw
        exact hnot ⟨hs, hw⟩
      rw [if_neg (by simp [hs]), if_pos hw]
      simp [calls_of_append, hc]; simp [calls_of]
    · rw [if_pos hs]
      simp [calls_of_append, hc]; simp [calls_of]
  · rintro ⟨hs, hw⟩
    obtain ⟨ws, hws⟩ := Option.ne_none_iff_exists'.1 hw
    have hcalls := (trmv_strided_batched_impl_unchecked c p h uplo transa diag m a lda stridea
      x incx stridex batch_count dev_bytes ws hs hws hcn).2.1
    have hmem : trmv_template_args h uplo transa diag m a lda stridea x incx stridex (some ws)
        batch_count ∈ calls_of Callee.rocblas_internal_trmv_template
          (rocblas_trmv_strided_batched_impl c p (some h) uplo transa diag m a lda stridea x
            incx stridex batch_count dev_bytes).events := by
      rw [hcalls]; exact List.mem_singleton.2 rfl
    unfold calls_of at hmem
    obtain ⟨e, he, hee⟩ := List.mem_filterMap.1 hmem
    cases e with
    | call g args =>
      simp only [] at hee
      split_ifs at hee with hg
      subst hg
      exact ⟨args, he⟩
    | _ => simp at hee

/-- The calls of the kernel template by trmv_strided_batched, with numeric
checking or without: none, or exactly one whose arguments are those of lines
159-176, the strides among them as the impl received them. -/
theorem trmv_strided_batched_template_calls {T : Type} (c : Collaborators T)
    (p : rocblas_precision) (h : _rocblas_handle) (uplo : rocblas_fill)
    (transa : rocblas_operation) (diag : rocblas_diagonal) (m : Int) (a : Ptr)
    (lda stridea : Int) (x : Ptr) (incx stridex batch_count : Int) (dev_bytes : Nat) :
    calls_of Callee.rocblas_internal_trmv_template
        (rocblas_trmv_strided_batched_impl c p (some h) uplo transa diag m a lda stridea x incx
          stridex batch_count dev_bytes).events = []
    ∨ ∃ workspace : Nat,
      calls_of Callee.rocblas_internal_trmv_template
        (rocblas_trmv_strided_batched_impl c p (some h) uplo transa diag m a lda stridea x incx
          stridex batch_count dev_bytes).events
      = [[Arg.handle h, Arg.fill uplo, Arg.operation transa, Arg.diagonal diag, Arg.int m,
          Arg.ptr a, Arg.int 0, Arg.int lda, Arg.int stridea, Arg.ptr x, Arg.int 0,
          Arg.int incx, Arg.int stridex, Arg.ptr (some workspace), Arg.int m,
          Arg.int batch_count]] := by
  have hlog := trmv_strided_batched_prologue_is_log (T := T) p h uplo transa diag m a lda
    stridea x incx stridex batch_count
  simp only [rocblas_trmv_strided_batched_impl, trmv_strided_batched_launch]
  generalize (if ¬ h.is_device_memory_size_query = true then
    (trmv_strided_batched_logging p h uplo transa diag m a lda stridea x incx stridex
      batch_count : List (Event T)) else []) = log at hlog ⊢
  have hc := calls_of_of_is_log Callee.rocblas_internal_trmv_template log hlog
  by_cases hw : c.device_malloc h (c.rocblas_trmv_arg_check
      (trmv_arg_check_args h uplo transa diag m a lda x incx batch_count) dev_bytes).2 = none
  · left
    split_ifs <;> simp [calls_of_append, hc] <;> simp [calls_of]
  · obtain ⟨ws, hws⟩ := Option.ne_none_iff_exists'.1 hw
    split_ifs
    all_goals first
      | (left; simp [calls_of_append, hc]; simp [calls_of]; done)
      | (right; refine ⟨ws, ?_⟩; simp [calls_of_append, hc]
         simp [calls_of, trmv_template_args, hws])

/-- C27 as stated fails: the call m = lda = 10, incx = 1, batch_count = 3 with
stridea = 0 and stridex = 0 passes validation and reaches the kernel template,
which receives both zero strides together with batch_count = 3.  No validator
can prevent it short of refusing the same call with non-zero strides: it is
not given the strides (lines 126-127). -/
theorem trmv_strided_batched_zero_strides_reach_kernel :
    calls_of Callee.rocblas_internal_trmv_template
        (rocblas_trmv_strided_batched_impl all_success rocblas_precision.float
          (some plain_handle) rocblas_fill_lower rocblas_operation_none rocblas_diagonal_unit 10
          (some 1) 10 0 (some 2) 1 0 3 77).events
      = [[Arg.handle plain_handle, Arg.fill rocblas_fill_lower,
          Arg.operation rocblas_operation_none, Arg.diagonal rocblas_diagonal_unit, Arg.int 10,
          Arg.ptr (some 1), Arg.int 0, Arg.int 10, Arg.int 0, Arg.ptr (some 2), Arg.int 0,
          Arg.int 1, Arg.int 0, Arg.ptr (some 4096), Arg.int 10, Arg.int 3]]
    ∧ ¬ ((0 : Int) = 0 → (3 : Int) ≤ 1)
    ∧ ¬ ∃ c : Collaborators ℚ,
        invokes Callee.rocblas_internal_trmv_template
          (rocblas_trmv_strided_batched_impl c rocblas_precision.float (some plain_handle)
            rocblas_fill_lower rocblas_operation_none rocblas_diagonal_unit 10 (some 1) 10 100
            (some 2) 1 20 3 77).events
        ∧ ¬ invokes Callee.rocblas_internal_trmv_template
          (rocblas_trmv_strided_batched_impl c rocblas_precision.float (some plain_handle)
            rocblas_fill_lower rocblas_operation_none rocblas_diagonal_unit 10 (some 1) 10 0
            (some 2) 1 0 3 77).events := by
  refine ⟨by decide, by decide, ?_⟩
  rintro ⟨c, h1, h2⟩
  rw [trmv_strided_batched_invokes_template_iff c rocblas_precision.float plain_handle
    rocblas_fill_lower rocblas_operation_none rocblas_diagonal_unit 10 (some 1) 10 _ (some 2) 1
    _ 3 77 rfl] at h1 h2
  exact h2 h1

/-- C27, amended: `rocblas_trmv_strided_batched_impl` enforces no invariant on
the strides.  The validator `rocblas_trmv_arg_check` is called once, with the
ten arguments of lines 126-127, stridea and stridex not among them; with
numeric checking off, whether a call passes validation and reaches the kernel
template does not depend on the strides; and every call that reaches the
kernel template, with numeric checking or without, calls it once and hands it
stridea and stridex as they were passed, zero included, for every
batch_count. -/
theorem trmv_strided_batched_strides_forwarded {T : Type} (c : Collaborators T)
    (p : rocblas_precision) (h : _rocblas_handle) (uplo : rocblas_fill)
    (transa : rocblas_operation) (diag : rocblas_diagonal) (m : Int) (a : Ptr)
    (lda stridea : Int) (x : Ptr) (incx stridex batch_count : Int) (dev_bytes : Nat)
    (stridea2 stridex2 : Int) :
    calls_of Callee.rocblas_trmv_arg_check
        (rocblas_trmv_strided_batched_impl c p (some h) uplo transa diag m a lda stridea x incx
          stridex batch_count dev_bytes).events
      = [[Arg.handle h, Arg.fill uplo, Arg.operation transa, Arg.diagonal diag, Arg.int m,
          Arg.ptr a, Arg.int lda, Arg.ptr x, Arg.int incx, Arg.int batch_count]]
    ∧ (h.check_numerics = 0 →
        (invokes Callee.rocblas_internal_trmv_template
            (rocblas_trmv_strided_batched_impl c p (some h) uplo transa diag m a lda stridea x
              incx stridex batch_count dev_bytes).events
          ↔ invokes Callee.rocblas_internal_trmv_template
            (rocblas_trmv_strided_batched_impl c p (some h) uplo transa diag m a lda stridea2 x
              incx stridex2 batch_count dev_bytes).events))
    ∧ (invokes Callee.rocblas_internal_trmv_template
          (rocblas_trmv_strided_batched_impl c p (some h) uplo transa diag m a lda stridea x
            incx stridex batch_count dev_bytes).events →
        ∃ workspace : Nat,
          calls_of Callee.rocblas_internal_trmv_template
            (rocblas_trmv_strided_batched_impl c p (some h) uplo transa diag m a lda stridea x
              incx stridex batch_count dev_bytes).events
          = [[Arg.handle h, Arg.fill uplo, Arg.operation transa, Arg.diagonal diag, Arg.int m,
              Arg.ptr a, Arg.int 0, Arg.int lda, Arg.int stridea, Arg.ptr x, Arg.int 0,
              Arg.int incx, Arg.int stridex, Arg.ptr (some workspace), Arg.int m,
              Arg.int batch_count]]) := by
  refine ⟨trmv_strided_batched_validator_calls c p h uplo transa diag m a lda stridea x incx
    stridex batch_count dev_bytes, ?_, ?_⟩
  · intro hcn
    rw [trmv_strided_batched_invokes_template_iff c p h uplo transa diag m a lda stridea x incx
        stridex batch_count dev_bytes hcn,
      trmv_strided_batched_invokes_template_iff c p h uplo transa diag m a lda stridea2 x incx
        stridex2 batch_count dev_bytes hcn]
  · intro hinv
    rcases trmv_strided_batched_template_calls c p h uplo transa diag m a lda stridea x incx
      stridex batch_count dev_bytes with hnil | hcall
    · exact absurd hinv (not_invokes_of_calls_of_eq_nil _ _ hnil)
    · exact hcall

/-- C27 amended, evaluated: zero strides with batch_count = 3 are handed to
the kernel template, here with numeric checking on. -/
theorem trmv_strided_batched_strides_forwarded_witness :
    ∃ workspace : Nat,
      calls_of Callee.rocblas_internal_trmv_template
        (rocblas_trmv_strided_batched_impl all_success rocblas_precision.double
          (some ⟨0, 1, rocblas_pointer_mode_host, false⟩) rocblas_fill_upper
          rocblas_operation_none rocblas_diagonal_unit 10 (some 1) 10 0 (some 2) 1 0 3
          77).events
      = [[Arg.handle ⟨0, 1, rocblas_pointer_mode_host, false⟩, Arg.fill rocblas_fill_upper,
          Arg.operation rocblas_operation_none, Arg.diagonal rocblas_diagonal_unit, Arg.int 10,
          Arg.ptr (some 1), Arg.int 0, Arg.int 10, Arg.int 0, Arg.ptr (some 2), Arg.int 0,
          Arg.int 1, Arg.int 0, Arg.ptr (some workspace), Arg.int 10, Arg.int 3]] :=
  (trmv_strided_batched_strides_forwarded all_success rocblas_precision.double
    ⟨0, 1, rocblas_pointer_mode_host, false⟩ rocblas_fill_upper rocblas_operation_none
    rocblas_diagonal_unit 10 (some 1) 10 0 (some 2) 1 0 3 77 100 20).2.2
    ⟨[Arg.handle ⟨0, 1, rocblas_pointer_mode_host, false⟩, Arg.fill rocblas_fill_upper,
      Arg.operation rocblas_operation_none, Arg.diagonal rocblas_diagonal_unit, Arg.int 10,
      Arg.ptr (some 1), Arg.int 0, Arg.int 10, Arg.int 0, Arg.ptr (some 2), Arg.int 0,
      Arg.int 1, Arg.int 0, Arg.ptr (some 4096), Arg.int 10, Arg.int 3], by decide⟩

/-! ## Logging and validation -/

/-- The trace bit is one of the three logging bits. -/
theorem layer_mode_trace_is_logging (lm : Nat) (h : lm &&& rocblas_layer_mode_log_trace ≠ 0) :
    lm &&& (rocblas_layer_mode_log_trace ||| rocblas_layer_mode_log_bench
      ||| rocblas_layer_mode_log_profile) ≠ 0 := by
  intro h0
  apply h
  have e : rocblas_layer_mode_log_trace
      = (rocblas_layer_mode_log_trace ||| rocblas_layer_mode_log_bench
          ||| rocblas_layer_mode_log_profile) &&& rocblas_layer_mode_log_trace := by decide
  rw [e, ← Nat.and_assoc, h0, Nat.zero_and]

/-- With the trace bit set the log records of gbmv start with the trace record. -/
theorem gbmv_logging_head {T : Type} (p : rocblas_precision) (h : _rocblas_handle)
    (transA : rocblas_operation) (m n kl ku : Int) (alpha : Option T) (A : Ptr) (lda : Int)
    (x : Ptr) (incx : Int) (beta : Option T) (y : Ptr) (incy : Int)
    (htrace : h.layer_mode &&& rocblas_layer_mode_log_trace ≠ 0) :
    ∃ rest, gbmv_logging p h transA m n kl ku alpha A lda x incx beta y incy
      = gbmv_trace_record p h transA m n kl ku alpha A lda x incx beta y incy :: rest := by
  unfold gbmv_logging gbmv_trace_record
  simp only []
  rw [if_pos (layer_mode_trace_is_logging _ htrace), if_pos htrace]
  exact ⟨_, rfl⟩

/-- With the trace bit set the log records of trmv_strided_batched start with
the trace record. -/
theorem trmv_strided_batched_logging_head {T : Type} (p : rocblas_precision)
    (h : _rocblas_handle) (uplo : rocblas_fill) (transa : rocblas_operation)
    (diag : rocblas_diagonal) (m : Int) (a : Ptr) (lda stridea : Int) (x : Ptr)
    (incx stridex batch_count : Int)
    (htrace : h.layer_mode &&& rocblas_layer_mode_log_trace ≠ 0) :
    ∃ rest, (trmv_strided_batched_logging p h uplo transa diag m a lda stridea x incx stridex
        batch_count : List (Event T))
      = trmv_strided_batched_trace_record p h uplo transa diag m a lda stridea x incx stridex
          batch_count :: rest := by
  unfold trmv_strided_batched_logging trmv_strided_batched_trace_record
  simp only []
  rw [if_pos (layer_mode_trace_is_logging _ htrace), if_pos htrace]
  exact ⟨_, rfl⟩

/-- The actions of the execution stage of gbmv come after those performed
before it. -/
theorem gbmv_from_y_events_start {T : Type} (c : Collaborators T) (p : rocblas_precision)
    (h : _rocblas_handle) (transA : rocblas_operation) (m n kl ku : Int) (alpha : Option T)
    (A : Ptr) (lda : Int) (x : Ptr) (incx : Int) (beta : Option T) (y : Ptr) (incy : Int)
    (ev : List (Event T)) :
    ev <+: (gbmv_from_y c p h transA m n kl ku alpha A lda x incx beta y incy ev).events := by
  simp only [gbmv_from_y, gbmv_launch]
  split_ifs
  all_goals first
    | exact List.prefix_refl _
    | exact List.prefix_append _ _
    | exact (List.prefix_append _ _).trans (List.prefix_append _ _)
    | exact ((List.prefix_append _ _).trans (List.prefix_append _ _)).trans
        (List.prefix_append _ _)

/-- Outside size-query mode the actions of gbmv start with its log records. -/
theorem gbmv_impl_events_start {T : Type} [HostScalar T] (c : Collaborators T)
    (p : rocblas_precision) (h : _rocblas_handle) (transA : rocblas_operation)
    (m n kl ku : Int) (alpha : Option T) (A : Ptr) (lda : Int) (x : Ptr) (incx : Int)
    (beta : Option T) (y : Ptr) (incy : Int)
    (hq : h.is_device_memory_size_query = false) :
    gbmv_logging p h transA m n kl ku alpha A lda x incx beta y incy
      <+: (rocblas_gbmv_impl c p (some h) transA m n kl ku alpha A lda x incx beta y
        incy).events := by
  by_cases hnull : alpha = none ∨ beta = none
  · rw [gbmv_impl_null_scalar_events c p h transA m n kl ku alpha A lda x incx beta y incy
      hnull hq]
  · obtain ⟨a, rfl⟩ := Option.ne_none_iff_exists'.1 (fun e => hnull (Or.inl e))
    obtain ⟨b, rfl⟩ := Option.ne_none_iff_exists'.1 (fun e => hnull (Or.inr e))
    have hfrom := fun ev => gbmv_from_y_events_start c p h transA m n kl ku (some a) A lda x
      incx (some b) y incy ev
    unfold rocblas_gbmv_impl
    simp only [hq, Bool.false_eq_true, if_false]
    split_ifs
    all_goals first
      | exact List.prefix_refl _
      | exact List.prefix_append _ _
      | exact hfrom _
      | exact (List.prefix_append _ _).trans (hfrom _)

/-- Outside size-query mode the actions of trmv_strided_batched start with its
log records. -/
theorem trmv_strided_batched_impl_events_start {T : Type} (c : Collaborators T)
    (p : rocblas_precision) (h : _rocblas_handle) (uplo : rocblas_fill)
    (transa : rocblas_operation) (diag : rocblas_diagonal) (m : Int) (a : Ptr)
    (lda stridea : Int) (x : Ptr) (incx stridex batch_count : Int) (dev_bytes : Nat)
    (hq : h.is_device_memory_size_query = false) :
    (trmv_strided_batched_logging p h uplo transa diag m a lda stridea x incx stridex
        batch_count : List (Event T))
      <+: (rocblas_trmv_strided_batched_impl c p (some h) uplo transa diag m a lda stridea x
        incx stridex batch_count dev_bytes).events := by
  simp only [rocblas_trmv_strided_batched_impl, trmv_strided_batched_launch, hq,
    Bool.false_eq_true, not_false_eq_true, if_true]
  split_ifs
  all_goals first
    | exact List.prefix_append _ _
    | exact (List.prefix_append _ _).trans (List.prefix_append _ _)
    | exact ((List.prefix_append _ _).trans (List.prefix_append _ _)).trans
        (List.prefix_append _ _)
    | exact (((List.prefix_append _ _).trans (List.prefix_append _ _)).trans
        (List.prefix_append _ _)).trans (List.prefix_append _ _)
    | exact ((((List.prefix_append _ _).trans (List.prefix_append _ _)).trans
        (List.prefix_append _ _)).trans (List.prefix_append _ _)).trans (List.prefix_append _ _)

/-- In size-query mode trmv_strided_batched emits no log record. -/
theorem trmv_strided_batched_impl_size_query_no_log {T : Type} (c : Collaborators T)
    (p : rocblas_precision) (h : _rocblas_handle) (uplo : rocblas_fill)
    (transa : rocblas_operation) (diag : rocblas_diagonal) (m : Int) (a : Ptr)
    (lda stridea : Int) (x : Ptr) (incx stridex batch_count : Int) (dev_bytes : Nat)
    (hq : h.is_device_memory_size_query = true) :
    ∀ e ∈ (rocblas_trmv_strided_batched_impl c p (some h) uplo transa diag m a lda stridea x
        incx stridex batch_count dev_bytes).events, e.is_log = false := by
  simp only [rocblas_trmv_strided_batched_impl, trmv_strided_batched_launch, hq,
    not_true_eq_false, if_false, List.nil_append]
  split_ifs <;> simp [Event.is_log]

/-- The first action of a list that starts with the actions `r :: rest`. -/
theorem head_of_start {T : Type} (r : Event T) (l ev : List (Event T))
    (hl : ∃ rest, l = r :: rest) (hp : l <+: ev) : ev.head? = some r := by
  obtain ⟨rest, rfl⟩ := hl
  obtain ⟨t, rfl⟩ := hp
  rfl

/-- C29: logging happens before validation failures are surfaced.  With a
non-null handle outside size-query mode and trace logging enabled, the first
action of every call of `rocblas_gbmv_impl` and of
`rocblas_trmv_strided_batched_impl` is its trace record: it precedes every
argument check, so it is emitted also on the calls that return invalid_value,
invalid_size or invalid_pointer.  With the handle in size-query mode neither
routine emits a log record. -/
theorem trace_record_precedes_validation {T : Type} [HostScalar T] (c : Collaborators T)
    (p : rocblas_precision) (h : _rocblas_handle) (transA : rocblas_operation)
    (m n kl ku : Int) (alpha : Option T) (A : Ptr) (lda : Int) (x : Ptr) (incx : Int)
    (beta : Option T) (y : Ptr) (incy : Int) (uplo : rocblas_fill)
    (transa : rocblas_operation) (diag : rocblas_diagonal) (m1 : Int) (a1 : Ptr)
    (lda1 stridea : Int) (x1 : Ptr) (incx1 stridex batch_count : Int) (dev_bytes : Nat) :
    (h.is_device_memory_size_query = false →
      h.layer_mode &&& rocblas_layer_mode_log_trace ≠ 0 →
      (rocblas_gbmv_impl c p (some h) transA m n kl ku alpha A lda x incx beta y
          incy).events.head?
        = some (gbmv_trace_record p h transA m n kl ku alpha A lda x incx beta y incy)
      ∧ (rocblas_trmv_strided_batched_impl c p (some h) uplo transa diag m1 a1 lda1 stridea x1
          incx1 stridex batch_count dev_bytes).events.head?
        = some (trmv_strided_batched_trace_record p h uplo transa diag m1 a1 lda1 stridea x1
            incx1 stridex batch_count))
    ∧ (h.is_device_memory_size_query = true →
      (∀ e ∈ (rocblas_gbmv_impl c p (some h) transA m n kl ku alpha A lda x incx beta y
          incy).events, e.is_log = false)
      ∧ (∀ e ∈ (rocblas_trmv_strided_batched_impl c p (some h) uplo transa diag m1 a1 lda1
          stridea x1 incx1 stridex batch_count dev_bytes).events, e.is_log = false)) := by
  refine ⟨?_, ?_⟩
  · intro hq htrace
    exact ⟨head_of_start _ _ _
        (gbmv_logging_head p h transA m n kl ku alpha A lda x incx beta y incy htrace)
        (gbmv_impl_events_start c p h transA m n kl ku alpha A lda x incx beta y incy hq),
      head_of_start _ _ _
        (trmv_strided_batched_logging_head p h uplo transa diag m1 a1 lda1 stridea x1 incx1
          stridex batch_count htrace)
        (trmv_strided_batched_impl_events_start c p h uplo transa diag m1 a1 lda1 stridea x1
          incx1 stridex batch_count dev_bytes hq)⟩
  · intro hq
    refine ⟨?_, trmv_strided_batched_impl_size_query_no_log c p h uplo transa diag m1 a1 lda1
      stridea x1 incx1 stridex batch_count dev_bytes hq⟩
    simp only [rocblas_gbmv_impl, hq, if_true]
    simp [Event.is_log]

/-- C29, evaluated: with trace logging on, a gbmv call with an invalid transA
logs before it returns invalid_value; in size-query mode a trmv_strided_batched
call logs nothing. -/
theorem trace_record_precedes_validation_witness :
    rocblas_gbmv_impl all_success rocblas_precision.float (some trace_handle)
        (rocblas_operation.invalid 0) 3 3 1 1 none none 3 none 1 none none 1
      = ⟨rocblas_status_invalid_value,
          [gbmv_trace_record rocblas_precision.float trace_handle (rocblas_operation.invalid 0)
            3 3 1 1 none none 3 none 1 none none 1]⟩
    ∧ (rocblas_gbmv_impl all_success rocblas_precision.float (some trace_handle)
        (rocblas_operation.invalid 0) 3 3 1 1 none none 3 none 1 none none 1).events.head?
      = some (gbmv_trace_record rocblas_precision.float trace_handle
          (rocblas_operation.invalid 0) 3 3 1 1 none none 3 none 1 none none 1)
    ∧ (∀ e ∈ (rocblas_trmv_strided_batched_impl all_success rocblas_precision.float
          (some ⟨7, 0, rocblas_pointer_mode_host, true⟩) rocblas_fill_lower
          rocblas_operation_none rocblas_diagonal_unit 10 (some 1) 10 100 (some 2) 1 10 3
          77).events, e.is_log = false) :=
  ⟨by decide,
   ((trace_record_precedes_validation all_success rocblas_precision.float trace_handle
      (rocblas_operation.invalid 0) 3 3 1 1 none none 3 none 1 none none 1 rocblas_fill_lower
      rocblas_operation_none rocblas_diagonal_unit 10 (some 1) 10 100 (some 2) 1 10 3 77).1 rfl
      (by decide)).1,
   ((trace_record_precedes_validation all_success rocblas_precision.float
      ⟨7, 0, rocblas_pointer_mode_host, true⟩
      (rocblas_operation.invalid 0) 3 3 1 1 none none 3 none 1 none none 1 rocblas_fill_lower
      rocblas_operation_none rocblas_diagonal_unit 10 (some 1) 10 100 (some 2) 1 10 3 77).2
      rfl).2⟩

/-! ## Logging and control flow -/

/-- The control flow of a concatenation of action lists. -/
theorem control_flow_append {T : Type} (ev1 ev2 : List (Event T)) :
    control_flow (ev1 ++ ev2) = control_flow ev1 ++ control_flow ev2 := by
  unfold control_flow
  exact List.filterMap_append _ _ _

/-- Log records are no part of the control flow. -/
theorem control_flow_of_is_log {T : Type} (ev : List (Event T))
    (h : ∀ e ∈ ev, e.is_log = true) : control_flow ev = [] := by
  unfold control_flow
  rw [List.filterMap_eq_nil_iff]
  intro e he
  have := h e he
  cases e <;> simp [Event.is_log] at this ⊢

/-- Two handles that agree on everything but `layer_mode` are the same once
`layer_mode` is forgotten. -/
theorem forget_layer_mode_handle (h h1 : _rocblas_handle) (hs : same_but_layer_mode h h1) :
    ({ h1 with layer_mode := 0 } : _rocblas_handle) = { h with layer_mode := 0 } := by
  obtain ⟨e1, e2, e3⟩ := hs
  cases h
  cases h1
  simp only at e1 e2 e3
  subst e1 e2 e3
  rfl

/-- The argument list of the gbmv kernel template, `layer_mode` forgotten. -/
theorem forget_gbmv_template_args {T : Type} (h h1 : _rocblas_handle)
    (hs : same_but_layer_mode h h1) (transA : rocblas_operation) (m n kl ku : Int)
    (alpha : Option T) (A : Ptr) (lda : Int) (x : Ptr) (incx : Int) (beta : Option T) (y : Ptr)
    (incy : Int) :
    (gbmv_template_args h1 transA m n kl ku alpha A lda x incx beta y incy).map
        Arg.forget_layer_mode
      = (gbmv_template_args h transA m n kl ku alpha A lda x incx beta y incy).map
        Arg.forget_layer_mode := by
  simp only [gbmv_template_args, List.map, Arg.forget_layer_mode, hs.1, hs.2.1, hs.2.2]

/-- The argument list of the gbmv numeric checker, `layer_mode` forgotten. -/
theorem forget_gbmv_check_numerics_args {T : Type} (p : rocblas_precision)
    (h h1 : _rocblas_handle) (hs : same_but_layer_mode h h1) (transA : rocblas_operation)
    (m n : Int) (A : Ptr) (lda : Int) (x : Ptr) (incx : Int) (y : Ptr) (incy : Int)
    (k : Int) (is_input : Bool) :
    (gbmv_check_numerics_args p h1 transA m n A lda x incx y incy k is_input
        : List (Arg T)).map Arg.forget_layer_mode
      = (gbmv_check_numerics_args p h transA m n A lda x incx y incy k
          is_input).map Arg.forget_layer_mode := by
  simp only [gbmv_check_numerics_args, List.map, Arg.forget_layer_mode, hs.1, hs.2.1, hs.2.2]

/-- The argument list of the trmv validator, `layer_mode` forgotten. -/
theorem forget_trmv_arg_check_args {T : Type} (h h1 : _rocblas_handle)
    (hs : same_but_layer_mode h h1) (uplo : rocblas_fill) (transa : rocblas_operation)
    (diag : rocblas_diagonal) (m : Int) (a : Ptr) (lda : Int) (x : Ptr)
    (incx batch_count : Int) :
    (trmv_arg_check_args h1 uplo transa diag m a lda x incx batch_count : List (Arg T)).map
        Arg.forget_layer_mode
      = (trmv_arg_check_args h uplo transa diag m a lda x incx batch_count).map
        Arg.forget_layer_mode := by
  simp only [trmv_arg_check_args, List.map, Arg.forget_layer_mode, hs.1, hs.2.1, hs.2.2]

/-- The argument list of the trmv numeric checker, `layer_mode` forgotten. -/
theorem forget_trmv_check_numerics_args {T : Type} (p : rocblas_precision)
    (h h1 : _rocblas_handle) (hs : same_but_layer_mode h h1) (m : Int) (a : Ptr)
    (lda stridea : Int) (x : Ptr) (incx stridex batch_count : Int) (k : Int)
    (is_input : Bool) :
    (trmv_check_numerics_args p h1 m a lda stridea x incx stridex batch_count k
        is_input : List (Arg T)).map Arg.forget_layer_mode
      = (trmv_check_numerics_args p h m a lda stridea x incx stridex batch_count
          k is_input).map Arg.forget_layer_mode := by
  simp only [trmv_check_numerics_args, List.map, Arg.forget_layer_mode, hs.1, hs.2.1, hs.2.2]

/-- The argument list of the trmv kernel template, `layer_mode` forgotten. -/
theorem forget_trmv_template_args {T : Type} (h h1 : _rocblas_handle)
    (hs : same_but_layer_mode h h1) (uplo : rocblas_fill) (transa : rocblas_operation)
    (diag : rocblas_diagonal) (m : Int) (a : Ptr) (lda stridea : Int) (x : Ptr)
    (incx stridex : Int) (workspace : Ptr) (batch_count : Int) :
    (trmv_template_args h1 uplo transa diag m a lda stridea x incx stridex workspace
        batch_count : List (Arg T)).map Arg.forget_layer_mode
      = (trmv_template_args h uplo transa diag m a lda stridea x incx stridex workspace
          batch_count).map Arg.forget_layer_mode := by
  simp only [trmv_template_args, List.map, Arg.forget_layer_mode, hs.1, hs.2.1, hs.2.2]

/-- Under collaborators that do not look at `layer_mode`, the kernel stage of
gbmv returns the same status and has the same control flow for two handles
that differ in `layer_mode` only. -/
theorem gbmv_launch_layer_mode {T : Type} (c : Collaborators T) (hblind : layer_mode_blind c)
    (p : rocblas_precision) (h h1 : _rocblas_handle) (hs : same_but_layer_mode h h1)
    (transA : rocblas_operation) (m n kl ku : Int) (alpha : Option T) (A : Ptr) (lda : Int)
    (x : Ptr) (incx : Int) (beta : Option T) (y : Ptr) (incy : Int) (ev ev1 : List (Event T))
    (hev : control_flow ev1 = control_flow ev) :
    (gbmv_launch c p h1 transA m n kl ku alpha A lda x incx beta y incy ev1).status
        = (gbmv_launch c p h transA m n kl ku alpha A lda x incx beta y incy ev).status
      ∧ control_flow
          (gbmv_launch c p h1 transA m n kl ku alpha A lda x incx beta y incy ev1).events
        = control_flow
          (gbmv_launch c p h transA m n kl ku alpha A lda x incx beta y incy ev).events := by
  obtain ⟨-, -, -, hchk, htmpl, -, -⟩ := hblind
  have ft := forget_gbmv_template_args h h1 hs transA m n kl ku alpha A lda x incx beta y incy
  have fo := forget_gbmv_check_numerics_args (T := T) p h h1 hs transA m n A lda x incx y incy
    h.check_numerics false
  have et := htmpl _ _ ft
  have eo := hchk _ _ fo
  simp only [gbmv_launch, hs.1]
  simp only [et, eo]
  split_ifs <;>
    simp [control_flow_append, hev] <;> simp [control_flow, ft, fo]

/-- Under collaborators that do not look at `layer_mode`, the execution stage
of gbmv returns the same status and has the same control flow for two handles
that differ in `layer_mode` only. -/
theorem gbmv_from_y_layer_mode {T : Type} (c : Collaborators T) (hblind : layer_mode_blind c)
    (p : rocblas_precision) (h h1 : _rocblas_handle) (hs : same_but_layer_mode h h1)
    (transA : rocblas_operation) (m n kl ku : Int) (alpha : Option T) (A : Ptr) (lda : Int)
    (x : Ptr) (incx : Int) (beta : Option T) (y : Ptr) (incy : Int) (ev ev1 : List (Event T))
    (hev : control_flow ev1 = control_flow ev) :
    (gbmv_from_y c p h1 transA m n kl ku alpha A lda x incx beta y incy ev1).status
        = (gbmv_from_y c p h transA m n kl ku alpha A lda x incx beta y incy ev).status
      ∧ control_flow
          (gbmv_from_y c p h1 transA m n kl ku alpha A lda x incx beta y incy ev1).events
        = control_flow
          (gbmv_from_y c p h transA m n kl ku alpha A lda x incx beta y incy ev).events := by
  have hlaunch := fun e e1 he => gbmv_launch_layer_mode c hblind p h h1 hs transA m n kl ku
    alpha A lda x incx beta y incy e e1 he
  have fi := forget_gbmv_check_numerics_args (T := T) p h h1 hs transA m n A lda x incx y incy
    h.check_numerics true
  have ei := hblind.2.2.2.1 _ _ fi
  simp only [gbmv_from_y, hs.1]
  simp only [ei]
  split_ifs
  · exact ⟨rfl, hev⟩
  · refine ⟨rfl, ?_⟩
    simp [control_flow_append, hev]; simp [control_flow, fi]
  · apply hlaunch
    simp [control_flow_append, hev]; simp [control_flow, fi]
  · exact hlaunch _ _ hev

/-- Under collaborators that do not look at `layer_mode`, gbmv returns the
same status and has the same control flow for two handles that differ in
`layer_mode` only. -/
theorem gbmv_impl_layer_mode {T : Type} [HostScalar T] (c : Collaborators T)
    (hblind : layer_mode_blind c) (p : rocblas_precision) (h h1 : _rocblas_handle)
    (hs : same_but_layer_mode h h1) (transA : rocblas_operation) (m n kl ku : Int)
    (alpha : Option T) (A : Ptr) (lda : Int) (x : Ptr) (incx : Int) (beta : Option T) (y : Ptr)
    (incy : Int) :
    (rocblas_gbmv_impl c p (some h1) transA m n kl ku alpha A lda x incx beta y incy).status
        = (rocblas_gbmv_impl c p (some h) transA m n kl ku alpha A lda x incx beta y
            incy).status
      ∧ control_flow
          (rocblas_gbmv_impl c p (some h1) transA m n kl ku alpha A lda x incx beta y
            incy).events
        = control_flow
          (rocblas_gbmv_impl c p (some h) transA m n kl ku alpha A lda x incx beta y
            incy).events := by
  have hfrom := fun e e1 he => gbmv_from_y_layer_mode c hblind p h h1 hs transA m n kl ku
    alpha A lda x incx beta y incy e e1 he
  have hl := control_flow_of_is_log _
    (gbmv_logging_is_log p h transA m n kl ku alpha A lda x incx beta y incy)
  have hl1 := control_flow_of_is_log _
    (gbmv_logging_is_log p h1 transA m n kl ku alpha A lda x incx beta y incy)
  have hz := hblind.1 h h1 hs
  unfold rocblas_gbmv_impl
  simp only [hs.2.1, hs.2.2]
  simp only [hz]
  cases alpha with
  | none =>
    simp only []
    split_ifs <;> first | exact ⟨rfl, rfl⟩ | exact ⟨rfl, hl1.trans hl.symm⟩
  | some a =>
    cases beta with
    | none =>
      simp only []
      split_ifs <;> first | exact ⟨rfl, rfl⟩ | exact ⟨rfl, hl1.trans hl.symm⟩
    | some b =>
      simp only []
      split_ifs
      all_goals first
        | exact ⟨rfl, rfl⟩
        | exact ⟨rfl, hl1.trans hl.symm⟩
        | exact hfrom _ _ (hl1.trans hl.symm)
        | (refine ⟨rfl, ?_⟩
           rw [control_flow_append, control_flow_append, hl, hl1])
        | (apply hfrom
           rw [control_flow_append, control_flow_append, hl, hl1])

/-- Under collaborators that do not look at `layer_mode`, the kernel stage of
trmv_strided_batched returns the same status and has the same control flow
for two handles that differ in `layer_mode` only. -/
theorem trmv_strided_batched_launch_layer_mode {T : Type} (c : Collaborators T)
    (hblind : layer_mode_blind c) (p : rocblas_precision) (h h1 : _rocblas_handle)
    (hs : same_but_layer_mode h h1) (uplo : rocblas_fill) (transa : rocblas_operation)
    (diag : rocblas_diagonal) (m : Int) (a : Ptr) (lda stridea : Int) (x : Ptr)
    (incx stridex batch_count : Int) (workspace : Ptr) (ev ev1 : List (Event T))
    (hev : control_flow ev1 = control_flow ev) :
    (trmv_strided_batched_launch c p h1 uplo transa diag m a lda stridea x incx stridex
          batch_count workspace ev1).status
        = (trmv_strided_batched_launch c p h uplo transa diag m a lda stridea x incx stridex
          batch_count workspace ev).status
      ∧ control_flow
          (trmv_strided_batched_launch c p h1 uplo transa diag m a lda stridea x incx stridex
            batch_count workspace ev1).events
        = control_flow
          (trmv_strided_batched_launch c p h uplo transa diag m a lda stridea x incx stridex
            batch_count workspace ev).events := by
  obtain ⟨-, -, -, -, -, hchk, htmpl⟩ := hblind
  have ft := forget_trmv_template_args (T := T) h h1 hs uplo transa diag m a lda stridea x incx
    stridex workspace batch_count
  have fo := forget_trmv_check_numerics_args (T := T) p h h1 hs m a lda stridea x incx stridex
    batch_count h.check_numerics false
  have et := htmpl _ _ ft
  have eo := hchk _ _ fo
  simp only [trmv_strided_batched_launch, hs.1]
  simp only [et, eo]
  split_ifs <;>
    simp [control_flow_append, hev] <;> simp [control_flow, ft, fo]

/-- Under collaborators that do not look at `layer_mode`,
trmv_strided_batched returns the same status and has the same control flow
for two handles that differ in `layer_mode` only. -/
theorem trmv_strided_batched_impl_layer_mode {T : Type} (c : Collaborators T)
    (hblind : layer_mode_blind c) (p : rocblas_precision) (h h1 : _rocblas_handle)
    (hs : same_but_layer_mode h h1) (uplo : rocblas_fill) (transa : rocblas_operation)
    (diag : rocblas_diagonal) (m : Int) (a : Ptr) (lda stridea : Int) (x : Ptr)
    (incx stridex batch_count : Int) (dev_bytes : Nat) :
    (rocblas_trmv_strided_batched_impl c p (some h1) uplo transa diag m a lda stridea x incx
          stridex batch_count dev_bytes).status
        = (rocblas_trmv_strided_batched_impl c p (some h) uplo transa diag m a lda stridea x
          incx stridex batch_count dev_bytes).status
      ∧ control_flow
          (rocblas_trmv_strided_batched_impl c p (some h1) uplo transa diag m a lda stridea x
            incx stridex batch_count dev_bytes).events
        = control_flow
          (rocblas_trmv_strided_batched_impl c p (some h) uplo transa diag m a lda stridea x
            incx stridex batch_count dev_bytes).events := by
  have hlaunch := fun ws e e1 he => trmv_strided_batched_launch_layer_mode c hblind p h h1 hs
    uplo transa diag m a lda stridea x incx stridex batch_count ws e e1 he
  have hlog := control_flow_of_is_log _ (trmv_strided_batched_prologue_is_log (T := T) p h uplo
    transa diag m a lda stridea x incx stridex batch_count)
  have hlog1 := control_flow_of_is_log _ (trmv_strided_batched_prologue_is_log (T := T) p h1
    uplo transa diag m a lda stridea x incx stridex batch_count)
  have fv := forget_trmv_arg_check_args (T := T) h h1 hs uplo transa diag m a lda x incx
    batch_count
  have fi := forget_trmv_check_numerics_args (T := T) p h h1 hs m a lda stridea x incx stridex
    batch_count h.check_numerics true
  have ev := hblind.2.2.1 _ _ dev_bytes fv
  have ew := fun bytes => hblind.2.1 h h1 bytes hs
  have ei := hblind.2.2.2.2.2.1 _ _ fi
  simp only [rocblas_trmv_strided_batched_impl, hs.1]
  simp only [ev, ew, ei]
  generalize (if ¬ h.is_device_memory_size_query = true then
    (trmv_strided_batched_logging p h uplo transa diag m a lda stridea x incx stridex
      batch_count : List (Event T)) else []) = log at hlog ⊢
  generalize (if ¬ h1.is_device_memory_size_query = true then
    (trmv_strided_batched_logging p h1 uplo transa diag m a lda stridea x incx stridex
      batch_count : List (Event T)) else []) = log1 at hlog1 ⊢
  split_ifs
  · refine ⟨rfl, ?_⟩
    simp [control_flow_append, hlog, hlog1]; simp [control_flow, fv]
  · refine ⟨rfl, ?_⟩
    simp [control_flow_append, hlog, hlog1]; simp [control_flow, fv]
  · refine ⟨rfl, ?_⟩
    simp [control_flow_append, hlog, hlog1]; simp [control_flow, fv, fi]
  · apply hlaunch
    simp [control_flow_append, hlog, hlog1]; simp [control_flow, fv, fi]
  · apply hlaunch
    simp [control_flow_append, hlog, hlog1]; simp [control_flow, fv]

/-- C28: logging does not alter control flow.  For two calls of
`rocblas_gbmv_impl`, or of `rocblas_trmv_strided_batched_impl`, that differ
only in the handle's `layer_mode`, the returned status is the same and so is
the control flow: the same sequence of validator, `device_malloc`,
numeric-checker and kernel-template invocations (and host reads of the
scalars) with the same arguments, the handle among them being the same up to
its `layer_mode`.  The collaborators, which receive the handle, are taken not
to look at its `layer_mode`. -/
theorem logging_does_not_alter_control_flow {T : Type} [HostScalar T] (c : Collaborators T)
    (p : rocblas_precision) (h h1 : _rocblas_handle) (transA : rocblas_operation)
    (m n kl ku : Int) (alpha : Option T) (A : Ptr) (lda : Int) (x : Ptr) (incx : Int)
    (beta : Option T) (y : Ptr) (incy : Int) (uplo : rocblas_fill)
    (transa : rocblas_operation) (diag : rocblas_diagonal) (m1 : Int) (a1 : Ptr)
    (lda1 stridea : Int) (x1 : Ptr) (incx1 stridex batch_count : Int) (dev_bytes : Nat)
    (hblind : layer_mode_blind c) (hs : same_but_layer_mode h h1) :
    (rocblas_gbmv_impl c p (some h1) transA m n kl ku alpha A lda x incx beta y incy).status
        = (rocblas_gbmv_impl c p (some h) transA m n kl ku alpha A lda x incx beta y
            incy).status
    ∧ control_flow
        (rocblas_gbmv_impl c p (some h1) transA m n kl ku alpha A lda x incx beta y
          incy).events
      = control_flow
        (rocblas_gbmv_impl c p (some h) transA m n kl ku alpha A lda x incx beta y
          incy).events
    ∧ (rocblas_trmv_strided_batched_impl c p (some h1) uplo transa diag m1 a1 lda1 stridea x1
          incx1 stridex batch_count dev_bytes).status
        = (rocblas_trmv_strided_batched_impl c p (some h) uplo transa diag m1 a1 lda1 stridea
          x1 incx1 stridex batch_count dev_bytes).status
    ∧ control_flow
        (rocblas_trmv_strided_batched_impl c p (some h1) uplo transa diag m1 a1 lda1 stridea x1
          incx1 stridex batch_count dev_bytes).events
      = control_flow
        (rocblas_trmv_strided_batched_impl c p (some h) uplo transa diag m1 a1 lda1 stridea x1
          incx1 stridex batch_count dev_bytes).events :=
  ⟨(gbmv_impl_layer_mode c hblind p h h1 hs transA m n kl ku alpha A lda x incx beta y incy).1,
   (gbmv_impl_layer_mode c hblind p h h1 hs transA m n kl ku alpha A lda x incx beta y incy).2,
   (trmv_strided_batched_impl_layer_mode c hblind p h h1 hs uplo transa diag m1 a1 lda1 stridea
      x1 incx1 stridex batch_count dev_bytes).1,
   (trmv_strided_batched_impl_layer_mode c hblind p h h1 hs uplo transa diag m1 a1 lda1 stridea
      x1 incx1 stridex batch_count dev_bytes).2⟩

/-- C28, evaluated: all three logging bits against none, on a gbmv call that
reaches the kernel template and on a trmv_strided_batched call. -/
theorem logging_does_not_alter_control_flow_witness :
    control_flow
        (rocblas_gbmv_impl all_success rocblas_precision.float
          (some ⟨7, 0, rocblas_pointer_mode_host, false⟩) rocblas_operation_none 3 3 1 1
          (some 2) (some 4) 3 (some 5) 1 (some 1) (some 6) 1).events
      = control_flow
        (rocblas_gbmv_impl all_success rocblas_precision.float (some plain_handle)
          rocblas_operation_none 3 3 1 1 (some 2) (some 4) 3 (some 5) 1 (some 1) (some 6)
          1).events
    ∧ (rocblas_trmv_strided_batched_impl all_success rocblas_precision.float
          (some ⟨7, 0, rocblas_pointer_mode_host, false⟩) rocblas_fill_lower
          rocblas_operation_none rocblas_diagonal_unit 10 (some 1) 10 100 (some 2) 1 10 3
          77).status
      = (rocblas_trmv_strided_batched_impl all_success rocblas_precision.float
          (some plain_handle) rocblas_fill_lower rocblas_operation_none rocblas_diagonal_unit 10
          (some 1) 10 100 (some 2) 1 10 3 77).status :=
  ⟨(logging_does_not_alter_control_flow all_success rocblas_precision.float plain_handle
      ⟨7, 0, rocblas_pointer_mode_host, false⟩ rocblas_operation_none 3 3 1 1 (some 2) (some 4)
      3 (some 5) 1 (some 1) (some 6) 1 rocblas_fill_lower rocblas_operation_none
      rocblas_diagonal_unit 10 (some 1) 10 100 (some 2) 1 10 3 77
      ⟨fun _ _ _ => rfl, fun _ _ _ _ => rfl, fun _ _ _ _ => rfl, fun _ _ _ => rfl,
        fun _ _ _ => rfl, fun _ _ _ => rfl, fun _ _ _ => rfl⟩
      (by decide)).2.1,
   (logging_does_not_alter_control_flow all_success rocblas_precision.float plain_handle
      ⟨7, 0, rocblas_pointer_mode_host, false⟩ rocblas_operation_none 3 3 1 1 (some 2) (some 4)
      3 (some 5) 1 (some 1) (some 6) 1 rocblas_fill_lower rocblas_operation_none
      rocblas_diagonal_unit 10 (some 1) 10 100 (some 2) 1 10 3 77
      ⟨fun _ _ _ => rfl, fun _ _ _ _ => rfl, fun _ _ _ _ => rfl, fun _ _ _ => rfl,
        fun _ _ _ => rfl, fun _ _ _ => rfl, fun _ _ _ => rfl⟩
      (by decide)).2.2.1⟩

/-! ## The checks of testing_rot_batched and the C entry points -/

/-- C30: exception-to-status boundary.  Each C entry point of gbmv
(`rocblas_sgbmv`, `rocblas_dgbmv`, `rocblas_cgbmv`, `rocblas_zgbmv`) and of
trmv_strided_batched (`rocblas_strmv_strided_batched`, ...,
`rocblas_ztrmv_strided_batched`) calls the impl of its own instantiation with
its arguments unchanged and in order; it returns the status of the impl when
the impl returns one, and the status `exception_to_rocblas_status` makes of
the exception when the impl raises one; the result is a status in both cases,
so no exception leaves an entry point.  With the impls of this development,
which return, each entry point returns the status of their outcome. -/
theorem entry_point_exception_boundary {ε T : Type} [HostScalar T]
    (exception_to_rocblas_status : ε → rocblas_status) (impl : gbmv_impl_fn ε T)
    (impl1 : trmv_strided_batched_impl_fn ε) (c : Collaborators T) (dev_bytes : Nat)
    (handle : rocblas_handle) (transA : rocblas_operation) (m n kl ku : Int)
    (alpha : Option T) (A : Ptr) (lda : Int) (x : Ptr) (incx : Int) (beta : Option T) (y : Ptr)
    (incy : Int) (uplo : rocblas_fill) (diag : rocblas_diagonal) (stridea stridex : Int)
    (batch_count : Int) :
    (∀ entry ∈ gbmv_entry_points ε T,
      (∀ status, impl entry.1 handle transA m n kl ku alpha A lda x incx beta y incy
          = Except.ok status →
        entry.2 exception_to_rocblas_status impl handle transA m n kl ku alpha A lda x incx
          beta y incy = status)
      ∧ (∀ e, impl entry.1 handle transA m n kl ku alpha A lda x incx beta y incy
          = Except.error e →
        entry.2 exception_to_rocblas_status impl handle transA m n kl ku alpha A lda x incx
          beta y incy = exception_to_rocblas_status e)
      ∧ entry.2 exception_to_rocblas_status (gbmv_impl_returning c) handle transA m n kl ku
          alpha A lda x incx beta y incy
        = (rocblas_gbmv_impl c entry.1 handle transA m n kl ku alpha A lda x incx beta y
            incy).status)
    ∧ (∀ entry ∈ trmv_strided_batched_entry_points ε,
      (∀ status, impl1 entry.1 handle uplo transA diag m A lda stridea x incx stridex
          batch_count = Except.ok status →
        entry.2 exception_to_rocblas_status impl1 handle uplo transA diag m A lda stridea x
          incx stridex batch_count = status)
      ∧ (∀ e, impl1 entry.1 handle uplo transA diag m A lda stridea x incx stridex
          batch_count = Except.error e →
        entry.2 exception_to_rocblas_status impl1 handle uplo transA diag m A lda stridea x
          incx stridex batch_count = exception_to_rocblas_status e)
      ∧ entry.2 exception_to_rocblas_status (trmv_strided_batched_impl_returning c dev_bytes)
          handle uplo transA diag m A lda stridea x incx stridex batch_count
        = (rocblas_trmv_strided_batched_impl c entry.1 handle uplo transA diag m A lda stridea
            x incx stridex batch_count dev_bytes).status) := by
  constructor
  · intro entry hentry
    simp only [gbmv_entry_points, List.mem_cons, List.mem_singleton, List.mem_nil_iff,
      or_false] at hentry
    rcases hentry with rfl | rfl | rfl | rfl
    · refine ⟨fun status hr => ?_, fun e hr => ?_, rfl⟩
      · simp only [rocblas_sgbmv, hr]
      · simp only [rocblas_sgbmv, hr]
    · refine ⟨fun status hr => ?_, fun e hr => ?_, rfl⟩
      · simp only [rocblas_dgbmv, hr]
      · simp only [rocblas_dgbmv, hr]
    · refine ⟨fun status hr => ?_, fun e hr => ?_, rfl⟩
      · simp only [rocblas_cgbmv, hr]
      · simp only [rocblas_cgbmv, hr]
    · refine ⟨fun status hr => ?_, fun e hr => ?_, rfl⟩
      · simp only [rocblas_zgbmv, hr]
      · simp only [rocblas_zgbmv, hr]
  · intro entry hentry
    simp only [trmv_strided_batched_entry_points, List.mem_cons, List.mem_singleton,
      List.mem_nil_iff, or_false] at hentry
    rcases hentry with rfl | rfl | rfl | rfl
    · refine ⟨fun status hr => ?_, fun e hr => ?_, rfl⟩
      · simp only [rocblas_strmv_strided_batched, IMPL, hr]
      · simp only [rocblas_strmv_strided_batched, IMPL, hr]
    · refine ⟨fun status hr => ?_, fun e hr => ?_, rfl⟩
      · simp only [rocblas_dtrmv_strided_batched, IMPL, hr]
      · simp only [rocblas_dtrmv_strided_batched, IMPL, hr]
    · refine ⟨fun status hr => ?_, fun e hr => ?_, rfl⟩
      · simp only [rocblas_ctrmv_strided_batched, IMPL, hr]
      · simp only [rocblas_ctrmv_strided_batched, IMPL, hr]
    · refine ⟨fun status hr => ?_, fun e hr => ?_, rfl⟩
      · simp only [rocblas_ztrmv_strided_batched, IMPL, hr]
      · simp only [rocblas_ztrmv_strided_batched, IMPL, hr]

/-- C30, evaluated: `rocblas_dgbmv` on an impl that raises for the `double`
instantiation and returns for the others, with every exception mapped to
`rocblas_status_internal_error`; and `rocblas_strmv_strided_batched` on an
impl that returns `rocblas_status_invalid_size`. -/
theorem entry_point_exception_boundary_witness :
    rocblas_dgbmv (fun _ : Unit => rocblas_status_internal_error)
        (fun p _ _ _ _ _ _ _ _ _ _ _ _ _ _ =>
          if p = rocblas_precision.double then Except.error ()
          else Except.ok rocblas_status_success)
        (some plain_handle) rocblas_operation_none 3 3 1 1 (some (2 : ℚ)) (some 4) 3 (some 5) 1
        (some 1) (some 6) 1 = rocblas_status_internal_error
    ∧ rocblas_strmv_strided_batched (fun _ : Unit => rocblas_status_internal_error)
        (fun _ _ _ _ _ _ _ _ _ _ _ _ _ => Except.ok rocblas_status_invalid_size)
        (some plain_handle) rocblas_fill_lower rocblas_operation_none rocblas_diagonal_unit 3
        (some 4) 3 9 (some 5) 1 3 2 = rocblas_status_invalid_size :=
  ⟨((entry_point_exception_boundary (fun _ : Unit => rocblas_status_internal_error)
        (fun p _ _ _ _ _ _ _ _ _ _ _ _ _ _ =>
          if p = rocblas_precision.double then Except.error ()
          else Except.ok rocblas_status_success)
        (fun _ _ _ _ _ _ _ _ _ _ _ _ _ => Except.ok rocblas_status_invalid_size)
        all_success 0 (some plain_handle) rocblas_operation_none 3 3 1 1 (some (2 : ℚ))
        (some 4) 3 (some 5) 1 (some 1) (some 6) 1 rocblas_fill_lower rocblas_diagonal_unit 9 3
        2).1 (rocblas_precision.double, rocblas_dgbmv)
        (by simp [gbmv_entry_points])).2.1 () (by simp),
   ((entry_point_exception_boundary (fun _ : Unit => rocblas_status_internal_error)
        (fun p _ _ _ _ _ _ _ _ _ _ _ _ _ _ =>
          if p = rocblas_precision.double then Except.error ()
          else Except.ok rocblas_status_success)
        (fun _ _ _ _ _ _ _ _ _ _ _ _ _ => Except.ok rocblas_status_invalid_size)
        all_success 0 (some plain_handle) rocblas_operation_none 3 3 1 1 (some (2 : ℚ))
        (some 4) 3 (some 5) 1 (some 1) (some 6) 1 rocblas_fill_lower rocblas_diagonal_unit 9 3
        2).2 (rocblas_precision.float, rocblas_strmv_strided_batched)
        (by simp [trmv_strided_batched_entry_points])).1 rocblas_status_invalid_size rfl⟩

end RocBLAS
